import Mathlib

/-! # Orchard: a Game Boy emulator core

A shallow embedding of `source/z80.c` (memory bus, interpreter), of the instruction
macros of `include/instructions.h`, and of the parts of `source/gb.c` and
`source/loader.c` that the bus and the start-up sequence use.

Conventions of the embedding.

* The C globals (`_AF .. _HL`, `_SP`, `_PC`, `IME`, `z80_memory`, `timer_counter`,
  `scanline`, `div_reg` and the scratch variables `T1 .. T4`, `S1`) are the fields of one
  record, `Machine`, threaded through every function.
* `uint8_t` and `uint16_t` values are natural numbers; every C expression that can
  leave its type's range is reduced `% 256` or `% 65536` at the place where C converts it.
  Function parameters of type `uint8_t` / `uint16_t` are passed already converted.
* A macro of `instructions.h` is a function of the same name; its statements are the
  successive `let`s of the body.
* The host is little-endian (`z80.h` says so), hence `AF = (A << 8) | F`, and so on.
-/

namespace Orchard

/-! ## Machine state -/

/-- The global variables of the emulator. -/
structure Machine where
  A : Nat
  F : Nat
  B : Nat
  C : Nat
  D : Nat
  E : Nat
  H : Nat
  L : Nat
  SP : Nat
  PC : Nat
  IME : Nat
  z80_memory : Nat → Nat
  timer_counter : Int
  scanline : Int
  div_reg : Int
  T1 : Nat
  T2 : Nat
  T3 : Nat
  T4 : Nat
  S1 : Int

/-- Every global holds a value of its C type. -/
structure Machine.WF (s : Machine) : Prop where
  hA : s.A < 256
  hF : s.F < 256
  hB : s.B < 256
  hC : s.C < 256
  hD : s.D < 256
  hE : s.E < 256
  hH : s.H < 256
  hL : s.L < 256
  hSP : s.SP < 65536
  hPC : s.PC < 65536
  hmem : ∀ a, s.z80_memory a < 256

/-- The assignment `z80_memory[addr] = value`. -/
def setMem (s : Machine) (addr value : Nat) : Machine :=
  { s with z80_memory := fun a => if a = addr then value else s.z80_memory a }

/-! ## Flag masks (`z80.h`) -/

def ZERO : Nat := 1 <<< 7
def SUBTRACTION : Nat := 1 <<< 6
def HALFCARRY : Nat := 1 <<< 5
def CARRY : Nat := 1 <<< 4

/-- The macro `FLAG(FLAG)`, that is `F & (FLAG)`. -/
def FLAG (s : Machine) (flag : Nat) : Nat := s.F &&& flag

/-- The macro `SETFLAG(FLAG)`, that is `F |= (FLAG)`. -/
def SETFLAG (s : Machine) (flag : Nat) : Machine := { s with F := (s.F ||| flag) % 256 }

/-- The macro `RESETFLAG(FLAG)`, that is `F &= ~(FLAG)`. -/
def RESETFLAG (s : Machine) (flag : Nat) : Machine := { s with F := s.F &&& (255 - flag % 256) }

/-- The macro `FLIPFLAG(FLAG)`, that is `F ^= (FLAG)`. -/
def FLIPFLAG (s : Machine) (flag : Nat) : Machine := { s with F := (s.F ^^^ flag) % 256 }

/-! ## Register pairs (`z80.h`) -/

def AF (s : Machine) : Nat := (s.A <<< 8) ||| s.F
def BC (s : Machine) : Nat := (s.B <<< 8) ||| s.C
def DE (s : Machine) : Nat := (s.D <<< 8) ||| s.E
def HL (s : Machine) : Nat := (s.H <<< 8) ||| s.L

def setAF (s : Machine) (v : Nat) : Machine := { s with A := (v >>> 8) % 256, F := v % 256 }
def setBC (s : Machine) (v : Nat) : Machine := { s with B := (v >>> 8) % 256, C := v % 256 }
def setDE (s : Machine) (v : Nat) : Machine := { s with D := (v >>> 8) % 256, E := v % 256 }
def setHL (s : Machine) (v : Nat) : Machine := { s with H := (v >>> 8) % 256, L := v % 256 }

/-! ## Memory bus (`z80.c`) -/

/-- The function `gb_set_clock` of `gb.c`: reload `timer_counter` from `TAC & 3`. -/
def gb_set_clock (s : Machine) : Machine :=
  match s.z80_memory 0xff07 &&& 0x3 with
  | 0 => { s with timer_counter := 1024 }
  | 1 => { s with timer_counter := 16 }
  | 2 => { s with timer_counter := 64 }
  | 3 => { s with timer_counter := 256 }
  | _ => s

def GET8 (s : Machine) (addr : Nat) : Nat := s.z80_memory addr

def GET16 (s : Machine) (addr : Nat) : Nat :=
  ((GET8 s ((addr + 1) % 65536) <<< 8) ||| GET8 s addr) % 65536

/-- The function `PUT8`, with a bound on the depth of its self-calls: the DMA branch
calls `PUT8` on `0xfe00 + i`, which never takes the DMA branch again. -/
def PUT8F : Nat → Machine → Nat → Nat → Machine
  | 0, s, _, _ => s
  | fuel + 1, s, addr, value =>
    -- `if(addr < 0x8000) { }` : an empty statement, not chained to what follows
    let s := if addr < 0x8000 then s else s
    if addr ≥ 0xe000 ∧ addr ≤ 0xfdff then
      setMem (setMem s addr value) (addr - 0x2000) value
    else if addr ≥ 0xfea0 ∧ addr < 0xfeff then s
    else if addr = 0xff04 then setMem s addr 0
    else if addr = 0xff07 then
      let t := s.z80_memory addr
      let s1 := setMem s addr value
      if t ≠ value then gb_set_clock s1 else s1
    else if addr = 0xff44 then setMem s addr 0
    else if addr = 0xff46 then
      let src := (value <<< 8) % 65536
      (List.range 0xa0).foldl
        (fun st i => PUT8F fuel st ((0xfe00 + i) % 65536) (GET8 st ((src + i) % 65536))) s
    else setMem s addr value

/-- The function `PUT8`. Depth 2 is enough, see `PUT8F_fuel`. -/
def PUT8 (s : Machine) (addr value : Nat) : Machine := PUT8F 2 s addr value

/-- The function `PUT16`. -/
def PUT16 (s : Machine) (addr value : Nat) : Machine :=
  let s := PUT8 s addr ((value >>> 8) &&& 0xff)
  PUT8 s ((addr + 1) % 65536) ((value >>> 0) &&& 0xff)

/-- The function `PUSHWORD`. -/
def PUSHWORD (s : Machine) (word : Nat) : Machine :=
  let s := { s with SP := (s.SP + 65535) % 65536 }
  let s := PUT8 s s.SP ((word >>> 8) &&& 0xff)
  let s := { s with SP := (s.SP + 65535) % 65536 }
  PUT8 s s.SP ((word >>> 0) &&& 0xff)

/-- The function `POPWORD`: the state after it and the word it returns. -/
def POPWORD (s : Machine) : Machine × Nat :=
  let t := (GET8 s ((s.SP + 1) % 65536) <<< 8) % 65536
  let t := t ||| GET8 s s.SP
  ({ s with SP := (s.SP + 2) % 65536 }, t)

/-- An address on which the bus write policy of the specification is a plain store:
outside ROM, echo RAM, the restricted area and the DIV, TAC, LY and DMA registers. -/
def plainStore (a : Nat) : Prop :=
  0x8000 ≤ a ∧ a < 0x10000 ∧ ¬ (0xe000 ≤ a ∧ a ≤ 0xfdff) ∧ ¬ (0xfea0 ≤ a ∧ a ≤ 0xfefe) ∧
    a ≠ 0xff04 ∧ a ≠ 0xff07 ∧ a ≠ 0xff44 ∧ a ≠ 0xff46

instance (a : Nat) : Decidable (plainStore a) := by unfold plainStore; infer_instance

/-! ## Machines for concrete evaluations -/

/-- A machine with zeroed memory and registers, used for concrete evaluations. -/
def zeroMachine : Machine :=
  { A := 0, F := 0, B := 0, C := 0, D := 0, E := 0, H := 0, L := 0, SP := 0, PC := 0,
    IME := 0, z80_memory := fun _ => 0, timer_counter := 0, scanline := 0, div_reg := 0,
    T1 := 0, T2 := 0, T3 := 0, T4 := 0, S1 := 0 }

/-! ## Operands and lvalues

The macros of `instructions.h` take C expressions and lvalues as arguments and expand
them textually. An `Operand` is such an expression: it is evaluated where the macro body
mentions it, and may change the state (`PC++`, `HL++`, `HL--`). -/

/-- The 8-bit register macros `A .. L` of `z80.h`. -/
inductive Reg8
  | A | F | B | C | D | E | H | L
  deriving DecidableEq

/-- The 16-bit register macros of `z80.h`. -/
inductive Reg16
  | AF | BC | DE | HL | SP | PC
  deriving DecidableEq

/-- Read an 8-bit register. -/
def getR (s : Machine) : Reg8 → Nat
  | .A => s.A
  | .F => s.F
  | .B => s.B
  | .C => s.C
  | .D => s.D
  | .E => s.E
  | .H => s.H
  | .L => s.L

/-- Assign an 8-bit register; the value is already a `uint8_t`. -/
def setR (s : Machine) (r : Reg8) (v : Nat) : Machine :=
  match r with
  | .A => { s with A := v }
  | .F => { s with F := v }
  | .B => { s with B := v }
  | .C => { s with C := v }
  | .D => { s with D := v }
  | .E => { s with E := v }
  | .H => { s with H := v }
  | .L => { s with L := v }

/-- Read a 16-bit register. -/
def getRR (s : Machine) : Reg16 → Nat
  | .AF => AF s
  | .BC => BC s
  | .DE => DE s
  | .HL => HL s
  | .SP => s.SP
  | .PC => s.PC

/-- Assign a 16-bit register; the value is already a `uint16_t`. -/
def setRR (s : Machine) (r : Reg16) (v : Nat) : Machine :=
  match r with
  | .AF => setAF s v
  | .BC => setBC s v
  | .DE => setDE s v
  | .HL => setHL s v
  | .SP => { s with SP := v }
  | .PC => { s with PC := v }

/-- Assign the scratch variable `T1` (`uint8_t`). -/
def setT1 (s : Machine) (v : Nat) : Machine := { s with T1 := v }

/-- Assign the scratch variable `T2` (`uint8_t`). -/
def setT2 (s : Machine) (v : Nat) : Machine := { s with T2 := v }

/-- Assign the scratch variable `T3` (`uint16_t`). -/
def setT3 (s : Machine) (v : Nat) : Machine := { s with T3 := v }

/-- Assign the scratch variable `T4` (`uint32_t`). -/
def setT4 (s : Machine) (v : Nat) : Machine := { s with T4 := v }

/-- Assign the scratch variable `S1` (`int16_t`). -/
def setS1 (s : Machine) (v : Int) : Machine := { s with S1 := v }

/-- Assign `IME`. -/
def setIME (s : Machine) (v : Nat) : Machine := { s with IME := v }

/-- A C expression: its value and the state after its side effects. -/
abbrev Operand := Machine → Nat × Machine

/-- An 8-bit register used as an expression. -/
def reg (r : Reg8) : Operand := fun s => (getR s r, s)

/-- A 16-bit register used as an expression. -/
def pair (r : Reg16) : Operand := fun s => (getRR s r, s)

/-- An integer constant. -/
def lit (n : Nat) : Operand := fun s => (n, s)

/-- The scratch variable `T3` used as an expression. -/
def tmp3 : Operand := fun s => (s.T3, s)

/-- The expression `r++` on a 16-bit register. -/
def postInc (r : Reg16) : Operand := fun s => (getRR s r, setRR s r ((getRR s r + 1) % 65536))

/-- The expression `r--` on a 16-bit register. -/
def postDec (r : Reg16) : Operand :=
  fun s => (getRR s r, setRR s r ((getRR s r + 65535) % 65536))

/-- The expression `GET8(a)`; the argument is converted to `uint16_t`. -/
def mem8 (a : Operand) : Operand := fun s => (GET8 (a s).2 ((a s).1 % 65536), (a s).2)

/-- The expression `GET16(a)`; the argument is converted to `uint16_t`. -/
def mem16 (a : Operand) : Operand := fun s => (GET16 (a s).2 ((a s).1 % 65536), (a s).2)

/-- The expression `n + b` for a constant `n`. -/
def plus (n : Nat) (b : Operand) : Operand := fun s => (n + (b s).1, (b s).2)

/-- The expression `a + (int8_t)b`, an `int`, given as its 32-bit two's complement. -/
def plusInt8 (a b : Operand) : Operand := fun s =>
  let ra := a s
  let rb := b ra.2
  ((ra.1 + (if rb.1 % 256 < 128 then rb.1 % 256 else rb.1 % 256 + (2 ^ 32 - 256))) % 2 ^ 32, rb.2)

/-- A C condition on the state. -/
abbrev Pred := Machine → Bool

/-- The condition `1`. -/
def always : Pred := fun _ => true

/-- The condition `FLAG(f)`. -/
def flagSet (f : Nat) : Pred := fun s => FLAG s f != 0

/-- The condition `!FLAG(f)`. -/
def flagClear (f : Nat) : Pred := fun s => FLAG s f == 0

/-! ## The interpreter's local state -/

/-- The machine together with the local `actual` of `z80_execute`. -/
structure Exec where
  m : Machine
  actual : Nat

/-- Run a statement that does not touch `actual`. -/
def Exec.on (f : Machine → Machine) (x : Exec) : Exec := { x with m := f x.m }

/-- The macro `CLK(n)`, that is `actual += n * 4` on a `uint8_t`. -/
def CLK (n : Nat) (x : Exec) : Exec := { x with actual := (x.actual + n * 4) % 256 }

/-- How the body of one `case` ends: at its `break`, or never (a `for(;;)` or
`do { } while(1)` that spins in the given state). -/
inductive Outcome
  | done (x : Exec)
  | spin (m : Machine)

/-! ## Carry helpers (`z80.c`) -/

def HADD (a b : Nat) : Nat := ((a + b) &&& 0x10) <<< 1
def CADD (a b : Nat) : Nat := ((a + b) &&& 0x0100) >>> 4

/-! ## Instruction macros (`instructions.h`) -/

/-- The macro `ADD8(OUT, IN)`. -/
def ADD8 (out : Reg8) (inp : Operand) (s : Machine) : Machine :=
  let s := setT1 (inp s).2 ((inp s).1 % 256)
  let s := setT2 s (getR s out)
  let s := setR s .F 0
  let s := setR s out ((getR s out + s.T1) % 256)
  let s := if getR s out < s.T2 then SETFLAG s CARRY else s
  let s := setT3 s ((s.T2 &&& 0xf) + (s.T1 &&& 0xf))
  let s := if s.T3 > 0xf then SETFLAG s HALFCARRY else s
  let s := if getR s out = 0 then SETFLAG s ZERO else s
  RESETFLAG s SUBTRACTION

/-- The macro `ADD(IN)`. -/
def ADD (inp : Operand) (s : Machine) : Machine := ADD8 .A inp s

/-- The expression `IN + !!FLAG(CARRY)`. -/
def withCarry (inp : Operand) : Operand := fun s =>
  ((inp s).1 + (if FLAG (inp s).2 CARRY ≠ 0 then 1 else 0), (inp s).2)

/-- The macro `ADC(IN)`. -/
def ADC (inp : Operand) (s : Machine) : Machine := ADD (withCarry inp) s

/-- The macro `ADD16(OUT, IN)`. -/
def ADD16 (out : Reg16) (inp : Operand) (x : Exec) : Exec :=
  let s := x.m
  let s := RESETFLAG s SUBTRACTION
  let s := if getRR s out + (inp s).1 > 0xffff then SETFLAG s CARRY else RESETFLAG s CARRY
  let s := if ((getRR s out &&& 0xFF00) &&& 0xF) + (((inp s).1 >>> 8) &&& 0xF) ≠ 0
    then SETFLAG s HALFCARRY else RESETFLAG s HALFCARRY
  let s := setRR s out ((getRR s out + (inp s).1) % 65536)
  CLK 2 { x with m := s }

/-- The macro `AND(IN)`. -/
def AND (inp : Operand) (s : Machine) : Machine :=
  let s := setR (inp s).2 .A (((inp s).2.A &&& (inp s).1) % 256)
  setR s .F (HALFCARRY ||| (if s.A = 0 then ZERO else 0))

/-- The macro `BIT(B, R)`. -/
def BIT (b : Nat) (r : Reg8) (x : Exec) : Exec :=
  let s := x.m
  let s := if getR s r &&& (1 <<< b) ≠ 0 then RESETFLAG s ZERO else SETFLAG s ZERO
  let s := SETFLAG s HALFCARRY
  let s := RESETFLAG s SUBTRACTION
  CLK 2 { x with m := s }

/-- The macro `CALL(PRED)`. -/
def CALL (p : Pred) (x : Exec) : Exec :=
  let s := x.m
  if p s then
    let s := PUSHWORD s ((s.PC + 2) % 65536)
    let s := setRR s .PC (GET16 s s.PC)
    CLK 6 { x with m := s }
  else
    let s := setRR s .PC ((s.PC + 2) % 65536)
    CLK 3 { x with m := s }

/-- The macro `CCF()`. -/
def CCF (x : Exec) : Exec :=
  let s := x.m
  let s := RESETFLAG s (SUBTRACTION ||| HALFCARRY)
  let s := FLIPFLAG s CARRY
  CLK 1 { x with m := s }

/-- The macro `CP(IN)`. -/
def CP (inp : Operand) (s : Machine) : Machine :=
  let s := setT1 (inp s).2 ((inp s).1 % 256)
  let s := setT2 s s.A
  let s := setR s .F 0
  let s := setR s .A ((s.A + 256 - s.T1) % 256)
  let s := SETFLAG s SUBTRACTION
  let s := SETFLAG s (if s.A = 0 then ZERO else 0)
  let s := SETFLAG s (if s.A > s.T2 then CARRY else 0)
  let s := setS1 s ((s.T2 &&& 0xf : Nat) : Int)
  let s := setS1 s (s.S1 - ((s.T1 &&& 0xf : Nat) : Int))
  let s := if s.S1 < 0 then SETFLAG s HALFCARRY else s
  setR s .A s.T2

/-- The macro `CPL()`. -/
def CPL (x : Exec) : Exec :=
  let s := x.m
  let s := setR s .A (255 - s.A % 256)
  let s := SETFLAG s (SUBTRACTION ||| HALFCARRY)
  CLK 1 { x with m := s }

/-- The macro `DAA()`. -/
def DAA (x : Exec) : Exec :=
  let s := x.m
  let s := setT1 s s.A
  let s := setT2 s (FLAG s CARRY)
  let s := if (s.A &&& 0xf) > 9 ∨ FLAG s HALFCARRY ≠ 0 then
      let s := SETFLAG s (s.T2 ||| CADD s.A 6)
      setR s .A ((s.A + 6) % 256)
    else s
  let s := if s.T1 > 0x99 ∨ s.T2 ≠ 0 then
      let s := setR s .A ((s.A + 0x60) % 256)
      SETFLAG s CARRY
    else RESETFLAG s CARRY
  let s := RESETFLAG s HALFCARRY
  let s := if s.A = 0 then SETFLAG s ZERO else s
  CLK 1 { x with m := s }

/-- The macro `DEC8(OUT)`. -/
def DEC8 (out : Reg8) (x : Exec) : Exec :=
  let s := x.m
  let s := setS1 s (((getR s out &&& 0xf : Nat) : Int) - 1)
  let s := setR s out ((getR s out + 255) % 256)
  let s := setR s .F (FLAG s CARRY)
  let s := SETFLAG s SUBTRACTION
  let s := SETFLAG s (if getR s out = 0 then ZERO else 0)
  let s := SETFLAG s (if s.S1 < 0 then HALFCARRY else 0)
  CLK 1 { x with m := s }

/-- The macro `DEC16(OUT)`. -/
def DEC16 (out : Reg16) (x : Exec) : Exec :=
  CLK 2 { x with m := setRR x.m out ((getRR x.m out + 65535) % 65536) }

/-- The macro `DI()`. -/
def DI (x : Exec) : Exec := CLK 1 { x with m := setIME x.m 0 }

/-- The macro `EI()`. -/
def EI (x : Exec) : Exec := CLK 1 { x with m := setIME x.m 1 }

/-- The macro `INC8(OUT)`. The `T1` it saves is overwritten by `ADD8` before it is
or-ed back into `F`. -/
def INC8 (out : Reg8) (x : Exec) : Exec :=
  let s := x.m
  let s := setT1 s (FLAG s CARRY)
  let s := ADD8 out (lit 1) s
  let s := setR s .F ((s.F ||| s.T1) % 256)
  CLK 1 { x with m := s }

/-- The macro `INC16(OUT)`. -/
def INC16 (out : Reg16) (x : Exec) : Exec :=
  CLK 2 { x with m := setRR x.m out ((getRR x.m out + 1) % 65536) }

/-- The macro `JP(PRED)`. -/
def JP (p : Pred) (x : Exec) : Exec :=
  let s := x.m
  if p s then
    CLK 4 { x with m := setRR s .PC (GET16 s s.PC) }
  else
    CLK 3 { x with m := setRR s .PC ((s.PC + 2) % 65536) }

/-- The macro `JR(PRED)`. -/
def JR (p : Pred) (x : Exec) : Exec :=
  let s := x.m
  if p s then
    CLK 3 { x with m := setRR s .PC (((plusInt8 (pair .PC) (mem8 (pair .PC)) s).1 + 1) % 65536) }
  else
    CLK 2 { x with m := setRR s .PC ((s.PC + 1) % 65536) }

/-- The macro `LD(OUT, IN)` on an 8-bit register. -/
def LD (out : Reg8) (inp : Operand) (s : Machine) : Machine :=
  setR (inp s).2 out ((inp s).1 % 256)

/-- The macro `LD(OUT, IN)` on a 16-bit register. -/
def LD16 (out : Reg16) (inp : Operand) (s : Machine) : Machine :=
  setRR (inp s).2 out ((inp s).1 % 65536)

/-- The macro `LDMEMIN(OUT, MEM)`. -/
def LDMEMIN (out : Reg8) (mem : Operand) (s : Machine) : Machine :=
  setR (mem s).2 out (GET8 (mem s).2 ((mem s).1 % 65536))

/-- The macro `LDMEMOUT(MEM, IN)`. -/
def LDMEMOUT (mem inp : Operand) (s : Machine) : Machine :=
  let rm := mem s
  let ri := inp rm.2
  PUT8 ri.2 (rm.1 % 65536) (ri.1 % 256)

/-- The macro `OR(IN)`. -/
def OR (inp : Operand) (s : Machine) : Machine :=
  let s := setR (inp s).2 .A (((inp s).2.A ||| (inp s).1) % 256)
  setR s .F (if s.A = 0 then ZERO else 0)

/-- The macro `POP(IN)`. -/
def POP (out : Reg16) (x : Exec) : Exec :=
  let r := POPWORD x.m
  CLK 3 { x with m := setRR r.1 out r.2 }

/-- The macro `PUSH(IN)`. -/
def PUSH (inp : Operand) (x : Exec) : Exec :=
  CLK 4 { x with m := PUSHWORD (inp x.m).2 ((inp x.m).1 % 65536) }

/-- The macro `RES(B, R)`. -/
def RES (b : Nat) (r : Reg8) (x : Exec) : Exec :=
  CLK 2 { x with m := setR x.m r (getR x.m r &&& (255 - (1 <<< b) % 256)) }

/-- The macro `RET(PRED)`. -/
def RET (p : Pred) (x : Exec) : Exec :=
  let s := x.m
  if p s then
    let r := POPWORD s
    CLK 5 { x with m := setRR r.1 .PC r.2 }
  else
    CLK 2 x

/-- The macro `ROTL(x, n)`, an `int`. -/
def ROTL (v n : Nat) : Nat := (v <<< n) ||| (v >>> (8 - n))

/-- The macro `RL(n)`. -/
def RL (r : Reg8) (x : Exec) : Exec :=
  let s := x.m
  let s := setR s r (ROTL (getR s r) 1 % 256)
  let s := setT1 s (getR s r &&& 1)
  let s := if FLAG s CARRY ≠ 0 then setR s r ((getR s r ||| 1) % 256)
    else setR s r (getR s r &&& 254)
  let s := setR s .F 0
  let s := SETFLAG s ((if getR s r ≠ 0 then 0 else ZERO) ||| (if s.T1 ≠ 0 then CARRY else 0))
  CLK 2 { x with m := s }

/-- The macro `RLCA()`. -/
def RLCA (s : Machine) : Machine :=
  let s := setR s .A (ROTL s.A 1 % 256)
  let s := RESETFLAG s (SUBTRACTION ||| HALFCARRY)
  SETFLAG s ((if s.A ≠ 0 then 0 else ZERO) ||| (if s.A &&& 1 ≠ 0 then CARRY else 0))

/-- The macro `RST(IN)`. -/
def RST (n : Nat) (x : Exec) : Exec :=
  let s := PUSHWORD x.m x.m.PC
  CLK 4 { x with m := setRR s .PC n }

/-- The macro `SUB8(OUT, IN)`. -/
def SUB8 (out : Reg8) (inp : Operand) (s : Machine) : Machine :=
  let s := setT1 (inp s).2 ((inp s).1 % 256)
  let s := setT2 s (getR s out)
  let s := setR s .F 0
  let s := setR s out ((getR s out + 256 - s.T1) % 256)
  let s := SETFLAG s SUBTRACTION
  let s := SETFLAG s (if getR s out = 0 then ZERO else 0)
  let s := SETFLAG s (if getR s out > s.T2 then CARRY else 0)
  let s := setS1 s ((s.T2 &&& 0xf : Nat) : Int)
  let s := setS1 s (s.S1 - ((s.T1 &&& 0xf : Nat) : Int))
  if s.S1 < 0 then SETFLAG s HALFCARRY else s

/-- The macro `SUB(IN)`. -/
def SUB (inp : Operand) (s : Machine) : Machine := SUB8 .A inp s

/-- The macro `SBC(IN)`. -/
def SBC (inp : Operand) (s : Machine) : Machine := SUB8 .A (withCarry inp) s

/-- The macro `SCF()`. It has no `CLK`. -/
def SCF (s : Machine) : Machine :=
  let s := RESETFLAG s (SUBTRACTION ||| HALFCARRY)
  SETFLAG s CARRY

/-- The macro `SET(B, R)`. -/
def SET (b : Nat) (r : Reg8) (x : Exec) : Exec :=
  CLK 2 { x with m := setR x.m r ((getR x.m r ||| (1 <<< b)) % 256) }

/-- The macro `SLA(IN)`. -/
def SLA (r : Reg8) (x : Exec) : Exec :=
  let s := x.m
  let s := setR s .F 0
  let s := if getR s r &&& (1 <<< 7) ≠ 0 then SETFLAG s CARRY else s
  let s := setR s r ((getR s r <<< 1) % 256)
  let s := if getR s r = 0 then SETFLAG s ZERO else s
  let s := RESETFLAG s (SUBTRACTION ||| HALFCARRY)
  CLK 2 { x with m := s }

/-- The macro `SWAP(IN)`. -/
def SWAP (r : Reg8) (x : Exec) : Exec :=
  let s := x.m
  let s := if getR s r = 0 then SETFLAG s ZERO else s
  let s := setR s r ((((getR s r &&& 0x0f) <<< 4) ||| (getR s r >>> 4)) % 256)
  let s := RESETFLAG s (SUBTRACTION ||| HALFCARRY ||| CARRY)
  CLK 2 { x with m := s }

/-- The macro `XOR(IN)`. It does not clear `F` first. -/
def XOR (inp : Operand) (s : Machine) : Machine :=
  let s := setR (inp s).2 .A (((inp s).2.A ^^^ (inp s).1) % 256)
  SETFLAG s (if s.A = 0 then ZERO else 0)

/-! ## The decoder (`z80_execute`)

Each arm is the body of the `case` of the same number, statement for statement, with the
debug prints (`DBG`, `DBGF`) left out. A `case` whose macro is a `TODO` or `STOP` spins. -/

/-- The expression `GET8(PC++)` of a `switch`: the opcode, and `PC` advanced. -/
def fetch (x : Exec) : Exec × Nat :=
  ({ x with m := { x.m with PC := (x.m.PC + 1) % 65536 } }, GET8 x.m x.m.PC)

set_option maxRecDepth 16384 in
/-- The inner `switch` of `case 0xcb`, on the opcode already fetched. There is no `case`
for `0x30 .. 0x36`, nor a `default`: on those the `switch` does nothing. -/
def z80_cb_case (x : Exec) (op : Nat) : Outcome :=
  if op = 0x00 then .spin x.m else
  if op = 0x01 then .spin x.m else
  if op = 0x02 then .spin x.m else
  if op = 0x03 then .spin x.m else
  if op = 0x04 then .spin x.m else
  if op = 0x05 then .spin x.m else
  if op = 0x06 then .spin x.m else
  if op = 0x07 then .spin x.m else
  if op = 0x08 then .spin x.m else
  if op = 0x09 then .spin x.m else
  if op = 0x0a then .spin x.m else
  if op = 0x0b then .spin x.m else
  if op = 0x0c then .spin x.m else
  if op = 0x0d then .spin x.m else
  if op = 0x0e then .spin x.m else
  if op = 0x0f then .spin x.m else
  if op = 0x10 then .done (x |> RL .B) else
  if op = 0x11 then .done (x |> RL .C) else
  if op = 0x12 then .done (x |> RL .D) else
  if op = 0x13 then .done (x |> RL .E) else
  if op = 0x14 then .done (x |> RL .H) else
  if op = 0x15 then .done (x |> RL .L) else
  if op = 0x16 then .spin x.m else
  if op = 0x17 then .done (x |> RL .A) else
  if op = 0x18 then .spin x.m else
  if op = 0x19 then .spin x.m else
  if op = 0x1a then .spin x.m else
  if op = 0x1b then .spin x.m else
  if op = 0x1c then .spin x.m else
  if op = 0x1d then .spin x.m else
  if op = 0x1e then .spin x.m else
  if op = 0x1f then .spin x.m else
  if op = 0x20 then .done (x |> SLA .B) else
  if op = 0x21 then .done (x |> SLA .C) else
  if op = 0x22 then .done (x |> SLA .D) else
  if op = 0x23 then .done (x |> SLA .E) else
  if op = 0x24 then .done (x |> SLA .H) else
  if op = 0x25 then .done (x |> SLA .L) else
  if op = 0x26 then .spin x.m else
  if op = 0x27 then .done (x |> SLA .A) else
  if op = 0x28 then .spin x.m else
  if op = 0x29 then .spin x.m else
  if op = 0x2a then .spin x.m else
  if op = 0x2b then .spin x.m else
  if op = 0x2c then .spin x.m else
  if op = 0x2d then .spin x.m else
  if op = 0x2e then .spin x.m else
  if op = 0x2f then .spin x.m else
  if op = 0x37 then .done (x |> SWAP .A) else
  if op = 0x38 then .spin x.m else
  if op = 0x39 then .spin x.m else
  if op = 0x3a then .spin x.m else
  if op = 0x3b then .spin x.m else
  if op = 0x3c then .spin x.m else
  if op = 0x3d then .spin x.m else
  if op = 0x3e then .spin x.m else
  if op = 0x3f then .spin x.m else
  if op = 0x40 then .done (x |> BIT 0 .B) else
  if op = 0x41 then .done (x |> BIT 0 .C) else
  if op = 0x42 then .done (x |> BIT 0 .D) else
  if op = 0x43 then .done (x |> BIT 0 .E) else
  if op = 0x44 then .done (x |> BIT 0 .H) else
  if op = 0x45 then .done (x |> BIT 0 .L) else
  if op = 0x46 then .spin x.m else
  if op = 0x47 then .done (x |> BIT 0 .A) else
  if op = 0x48 then .done (x |> BIT 1 .B) else
  if op = 0x49 then .done (x |> BIT 1 .C) else
  if op = 0x4a then .done (x |> BIT 1 .D) else
  if op = 0x4b then .done (x |> BIT 1 .E) else
  if op = 0x4c then .done (x |> BIT 1 .H) else
  if op = 0x4d then .done (x |> BIT 1 .L) else
  if op = 0x4e then .spin x.m else
  if op = 0x4f then .done (x |> BIT 1 .A) else
  if op = 0x50 then .done (x |> BIT 2 .B) else
  if op = 0x51 then .done (x |> BIT 2 .C) else
  if op = 0x52 then .done (x |> BIT 2 .D) else
  if op = 0x53 then .done (x |> BIT 2 .E) else
  if op = 0x54 then .done (x |> BIT 2 .H) else
  if op = 0x55 then .done (x |> BIT 2 .L) else
  if op = 0x56 then .spin x.m else
  if op = 0x57 then .done (x |> BIT 2 .A) else
  if op = 0x58 then .done (x |> BIT 3 .B) else
  if op = 0x59 then .done (x |> BIT 3 .C) else
  if op = 0x5a then .done (x |> BIT 3 .D) else
  if op = 0x5b then .done (x |> BIT 3 .E) else
  if op = 0x5c then .done (x |> BIT 3 .H) else
  if op = 0x5d then .done (x |> BIT 3 .L) else
  if op = 0x5e then .spin x.m else
  if op = 0x5f then .done (x |> BIT 3 .A) else
  if op = 0x60 then .done (x |> BIT 4 .B) else
  if op = 0x61 then .done (x |> BIT 4 .C) else
  if op = 0x62 then .done (x |> BIT 4 .D) else
  if op = 0x63 then .done (x |> BIT 4 .E) else
  if op = 0x64 then .done (x |> BIT 4 .H) else
  if op = 0x65 then .done (x |> BIT 4 .L) else
  if op = 0x66 then .spin x.m else
  if op = 0x67 then .done (x |> BIT 4 .A) else
  if op = 0x68 then .done (x |> BIT 5 .B) else
  if op = 0x69 then .done (x |> BIT 5 .C) else
  if op = 0x6a then .done (x |> BIT 5 .D) else
  if op = 0x6b then .done (x |> BIT 5 .E) else
  if op = 0x6c then .done (x |> BIT 5 .H) else
  if op = 0x6d then .done (x |> BIT 5 .L) else
  if op = 0x6e then .spin x.m else
  if op = 0x6f then .done (x |> BIT 5 .A) else
  if op = 0x70 then .done (x |> BIT 6 .B) else
  if op = 0x71 then .done (x |> BIT 6 .C) else
  if op = 0x72 then .done (x |> BIT 6 .D) else
  if op = 0x73 then .done (x |> BIT 6 .E) else
  if op = 0x74 then .done (x |> BIT 6 .H) else
  if op = 0x75 then .done (x |> BIT 6 .L) else
  if op = 0x76 then .spin x.m else
  if op = 0x77 then .done (x |> BIT 6 .A) else
  if op = 0x78 then .done (x |> BIT 7 .B) else
  if op = 0x79 then .done (x |> BIT 7 .C) else
  if op = 0x7a then .done (x |> BIT 7 .D) else
  if op = 0x7b then .done (x |> BIT 7 .E) else
  if op = 0x7c then .done (x |> BIT 7 .H) else
  if op = 0x7d then .done (x |> BIT 7 .L) else
  if op = 0x7e then .spin x.m else
  if op = 0x7f then .done (x |> BIT 7 .A) else
  if op = 0x80 then .done (x |> RES 0 .B) else
  if op = 0x81 then .done (x |> RES 0 .C) else
  if op = 0x82 then .done (x |> RES 0 .D) else
  if op = 0x83 then .done (x |> RES 0 .E) else
  if op = 0x84 then .done (x |> RES 0 .H) else
  if op = 0x85 then .done (x |> RES 0 .L) else
  if op = 0x86 then .spin x.m else
  if op = 0x87 then .done (x |> RES 0 .A) else
  if op = 0x88 then .done (x |> RES 1 .B) else
  if op = 0x89 then .done (x |> RES 1 .C) else
  if op = 0x8a then .done (x |> RES 1 .D) else
  if op = 0x8b then .done (x |> RES 1 .E) else
  if op = 0x8c then .done (x |> RES 1 .H) else
  if op = 0x8d then .done (x |> RES 1 .L) else
  if op = 0x8e then .spin x.m else
  if op = 0x8f then .done (x |> RES 1 .A) else
  if op = 0x90 then .done (x |> RES 2 .B) else
  if op = 0x91 then .done (x |> RES 2 .C) else
  if op = 0x92 then .done (x |> RES 2 .D) else
  if op = 0x93 then .done (x |> RES 2 .E) else
  if op = 0x94 then .done (x |> RES 2 .H) else
  if op = 0x95 then .done (x |> RES 2 .L) else
  if op = 0x96 then .spin x.m else
  if op = 0x97 then .done (x |> RES 2 .A) else
  if op = 0x98 then .done (x |> RES 3 .B) else
  if op = 0x99 then .done (x |> RES 3 .C) else
  if op = 0x9a then .done (x |> RES 3 .D) else
  if op = 0x9b then .done (x |> RES 3 .E) else
  if op = 0x9c then .done (x |> RES 3 .H) else
  if op = 0x9d then .done (x |> RES 3 .L) else
  if op = 0x9e then .spin x.m else
  if op = 0x9f then .done (x |> RES 3 .A) else
  if op = 0xa0 then .done (x |> RES 4 .B) else
  if op = 0xa1 then .done (x |> RES 4 .C) else
  if op = 0xa2 then .done (x |> RES 4 .D) else
  if op = 0xa3 then .done (x |> RES 4 .E) else
  if op = 0xa4 then .done (x |> RES 4 .H) else
  if op = 0xa5 then .done (x |> RES 4 .L) else
  if op = 0xa6 then .spin x.m else
  if op = 0xa7 then .done (x |> RES 4 .A) else
  if op = 0xa8 then .done (x |> RES 5 .B) else
  if op = 0xa9 then .done (x |> RES 5 .C) else
  if op = 0xaa then .done (x |> RES 5 .D) else
  if op = 0xab then .done (x |> RES 5 .E) else
  if op = 0xac then .done (x |> RES 5 .H) else
  if op = 0xad then .done (x |> RES 5 .L) else
  if op = 0xae then .spin x.m else
  if op = 0xaf then .done (x |> RES 5 .A) else
  if op = 0xb0 then .done (x |> RES 6 .B) else
  if op = 0xb1 then .done (x |> RES 6 .C) else
  if op = 0xb2 then .done (x |> RES 6 .D) else
  if op = 0xb3 then .done (x |> RES 6 .E) else
  if op = 0xb4 then .done (x |> RES 6 .H) else
  if op = 0xb5 then .done (x |> RES 6 .L) else
  if op = 0xb6 then .spin x.m else
  if op = 0xb7 then .done (x |> RES 6 .A) else
  if op = 0xb8 then .done (x |> RES 7 .B) else
  if op = 0xb9 then .done (x |> RES 7 .C) else
  if op = 0xba then .done (x |> RES 7 .D) else
  if op = 0xbb then .done (x |> RES 7 .E) else
  if op = 0xbc then .done (x |> RES 7 .H) else
  if op = 0xbd then .done (x |> RES 7 .L) else
  if op = 0xbe then .spin x.m else
  if op = 0xbf then .done (x |> RES 7 .A) else
  if op = 0xc0 then .done (x |> SET 0 .B) else
  if op = 0xc1 then .done (x |> SET 0 .C) else
  if op = 0xc2 then .done (x |> SET 0 .D) else
  if op = 0xc3 then .done (x |> SET 0 .E) else
  if op = 0xc4 then .done (x |> SET 0 .H) else
  if op = 0xc5 then .done (x |> SET 0 .L) else
  if op = 0xc6 then .spin x.m else
  if op = 0xc7 then .done (x |> SET 0 .A) else
  if op = 0xc8 then .done (x |> SET 1 .B) else
  if op = 0xc9 then .done (x |> SET 1 .C) else
  if op = 0xca then .done (x |> SET 1 .D) else
  if op = 0xcb then .done (x |> SET 1 .E) else
  if op = 0xcc then .done (x |> SET 1 .H) else
  if op = 0xcd then .done (x |> SET 1 .L) else
  if op = 0xce then .spin x.m else
  if op = 0xcf then .done (x |> SET 1 .A) else
  if op = 0xd0 then .done (x |> SET 2 .B) else
  if op = 0xd1 then .done (x |> SET 2 .C) else
  if op = 0xd2 then .done (x |> SET 2 .D) else
  if op = 0xd3 then .done (x |> SET 2 .E) else
  if op = 0xd4 then .done (x |> SET 2 .H) else
  if op = 0xd5 then .done (x |> SET 2 .L) else
  if op = 0xd6 then .spin x.m else
  if op = 0xd7 then .done (x |> SET 2 .A) else
  if op = 0xd8 then .done (x |> SET 3 .B) else
  if op = 0xd9 then .done (x |> SET 3 .C) else
  if op = 0xda then .done (x |> SET 3 .D) else
  if op = 0xdb then .done (x |> SET 3 .E) else
  if op = 0xdc then .done (x |> SET 3 .H) else
  if op = 0xdd then .done (x |> SET 3 .L) else
  if op = 0xde then .spin x.m else
  if op = 0xdf then .done (x |> SET 3 .A) else
  if op = 0xe0 then .done (x |> SET 4 .B) else
  if op = 0xe1 then .done (x |> SET 4 .C) else
  if op = 0xe2 then .done (x |> SET 4 .D) else
  if op = 0xe3 then .done (x |> SET 4 .E) else
  if op = 0xe4 then .done (x |> SET 4 .H) else
  if op = 0xe5 then .done (x |> SET 4 .L) else
  if op = 0xe6 then .spin x.m else
  if op = 0xe7 then .done (x |> SET 4 .A) else
  if op = 0xe8 then .done (x |> SET 5 .B) else
  if op = 0xe9 then .done (x |> SET 5 .C) else
  if op = 0xea then .done (x |> SET 5 .D) else
  if op = 0xeb then .done (x |> SET 5 .E) else
  if op = 0xec then .done (x |> SET 5 .H) else
  if op = 0xed then .done (x |> SET 5 .L) else
  if op = 0xee then .spin x.m else
  if op = 0xef then .done (x |> SET 5 .A) else
  if op = 0xf0 then .done (x |> SET 6 .B) else
  if op = 0xf1 then .done (x |> SET 6 .C) else
  if op = 0xf2 then .done (x |> SET 6 .D) else
  if op = 0xf3 then .done (x |> SET 6 .E) else
  if op = 0xf4 then .done (x |> SET 6 .H) else
  if op = 0xf5 then .done (x |> SET 6 .L) else
  if op = 0xf6 then .spin x.m else
  if op = 0xf7 then .done (x |> SET 6 .A) else
  if op = 0xf8 then .done (x |> SET 7 .B) else
  if op = 0xf9 then .done (x |> SET 7 .C) else
  if op = 0xfa then .done (x |> SET 7 .D) else
  if op = 0xfb then .done (x |> SET 7 .E) else
  if op = 0xfc then .done (x |> SET 7 .H) else
  if op = 0xfd then .done (x |> SET 7 .L) else
  if op = 0xfe then .spin x.m else
  if op = 0xff then .done (x |> SET 7 .A) else
  .done x

/-- The inner `switch(GET8(PC++))` of `case 0xcb`. -/
def z80_cb (f : Exec × Nat) : Outcome := z80_cb_case f.1 f.2

set_option maxRecDepth 16384 in
/-- The outer `switch`, on the opcode already fetched. -/
def z80_case (x : Exec) (op : Nat) : Outcome :=
  if op = 0x00 then .done (x |> CLK 1) else
  if op = 0x01 then .done (x |> Exec.on (LD16 .BC (mem16 (pair .PC))) |> Exec.on (fun s => { s with PC := (s.PC + 2) % 65536 }) |> CLK 3) else
  if op = 0x02 then .done (x |> Exec.on (LDMEMOUT (pair .BC) (reg .A)) |> CLK 2) else
  if op = 0x03 then .done (x |> INC16 .BC) else
  if op = 0x04 then .done (x |> INC8 .B) else
  if op = 0x05 then .done (x |> DEC8 .B) else
  if op = 0x06 then .done (x |> Exec.on (LDMEMIN .B (postInc .PC)) |> CLK 2) else
  if op = 0x07 then .done (x |> Exec.on RLCA |> CLK 1) else
  if op = 0x08 then .done (x |> Exec.on (fun s => PUT16 s (GET16 s s.PC) s.SP) |> Exec.on (fun s => { s with PC := (s.PC + 2) % 65536 }) |> CLK 5) else
  if op = 0x09 then .done (x |> ADD16 .HL (pair .BC)) else
  if op = 0x0a then .done (x |> Exec.on (LDMEMIN .A (pair .BC)) |> CLK 2) else
  if op = 0x0b then .done (x |> DEC16 .BC) else
  if op = 0x0c then .done (x |> INC8 .C |> CLK 1) else
  if op = 0x0d then .done (x |> DEC8 .C |> CLK 1) else
  if op = 0x0e then .done (x |> Exec.on (LDMEMIN .C (postInc .PC)) |> CLK 2) else
  if op = 0x0f then .spin x.m else
  if op = 0x10 then .spin x.m else
  if op = 0x11 then .done (x |> Exec.on (LD16 .DE (mem16 (pair .PC))) |> Exec.on (fun s => { s with PC := (s.PC + 2) % 65536 }) |> CLK 3) else
  if op = 0x12 then .done (x |> Exec.on (LDMEMOUT (pair .DE) (reg .A)) |> CLK 2) else
  if op = 0x13 then .done (x |> INC16 .DE) else
  if op = 0x14 then .done (x |> INC8 .D) else
  if op = 0x15 then .done (x |> DEC8 .D) else
  if op = 0x16 then .done (x |> Exec.on (LDMEMIN .D (postInc .PC)) |> CLK 2) else
  if op = 0x17 then .spin x.m else
  if op = 0x18 then .done (x |> JR always) else
  if op = 0x19 then .done (x |> ADD16 .HL (pair .DE)) else
  if op = 0x1a then .done (x |> Exec.on (LDMEMIN .A (pair .DE)) |> CLK 2) else
  if op = 0x1b then .done (x |> DEC16 .DE) else
  if op = 0x1c then .done (x |> INC8 .E) else
  if op = 0x1d then .done (x |> DEC8 .E) else
  if op = 0x1e then .done (x |> Exec.on (LDMEMIN .E (postInc .PC)) |> CLK 2) else
  if op = 0x1f then .spin x.m else
  if op = 0x20 then .done (x |> JR (flagClear ZERO)) else
  if op = 0x21 then .done (x |> Exec.on (LD16 .HL (mem16 (pair .PC))) |> Exec.on (fun s => { s with PC := (s.PC + 2) % 65536 }) |> CLK 3) else
  if op = 0x22 then .done (x |> Exec.on (LDMEMOUT (postInc .HL) (reg .A)) |> CLK 2) else
  if op = 0x23 then .done (x |> INC16 .HL) else
  if op = 0x24 then .done (x |> INC8 .H) else
  if op = 0x25 then .done (x |> DEC8 .H) else
  if op = 0x26 then .done (x |> Exec.on (LDMEMIN .H (postInc .PC)) |> CLK 2) else
  if op = 0x27 then .done (x |> DAA) else
  if op = 0x28 then .done (x |> JR (flagSet ZERO)) else
  if op = 0x29 then .done (x |> ADD16 .HL (pair .HL)) else
  if op = 0x2a then .done (x |> Exec.on (LDMEMIN .A (postInc .HL)) |> CLK 2) else
  if op = 0x2b then .done (x |> DEC16 .HL) else
  if op = 0x2c then .done (x |> INC8 .L) else
  if op = 0x2d then .done (x |> DEC8 .L) else
  if op = 0x2e then .done (x |> Exec.on (LDMEMIN .L (postInc .PC)) |> CLK 2) else
  if op = 0x2f then .done (x |> CPL) else
  if op = 0x30 then .done (x |> JR (flagClear CARRY)) else
  if op = 0x31 then .done (x |> Exec.on (LD16 .SP (mem16 (pair .PC))) |> Exec.on (fun s => { s with PC := (s.PC + 2) % 65536 }) |> CLK 3) else
  if op = 0x32 then .done (x |> Exec.on (LDMEMOUT (postDec .HL) (reg .A)) |> CLK 2) else
  if op = 0x33 then .done (x |> INC16 .SP) else
  if op = 0x34 then .done (x |> Exec.on (fun s => PUT8 s (HL s) ((GET8 s (HL s) + 1) % 256)) |> CLK 3) else
  if op = 0x35 then .done (x |> Exec.on (fun s => PUT8 s (HL s) ((GET8 s (HL s) + 255) % 256)) |> CLK 3) else
  if op = 0x36 then .done (x |> Exec.on (LDMEMOUT (pair .HL) (mem8 (postInc .PC))) |> CLK 3) else
  if op = 0x37 then .done (x |> Exec.on SCF) else
  if op = 0x38 then .done (x |> JR (flagSet CARRY)) else
  if op = 0x39 then .done (x |> ADD16 .HL (pair .SP)) else
  if op = 0x3a then .done (x |> Exec.on (LDMEMIN .A (postDec .HL)) |> CLK 2) else
  if op = 0x3b then .done (x |> DEC16 .SP |> CLK 2) else
  if op = 0x3c then .done (x |> INC8 .A) else
  if op = 0x3d then .done (x |> DEC8 .A) else
  if op = 0x3e then .done (x |> Exec.on (LDMEMIN .A (postInc .PC)) |> CLK 2) else
  if op = 0x3f then .done (x |> CCF) else
  if op = 0x40 then .done (x |> CLK 1) else
  if op = 0x41 then .done (x |> Exec.on (LD .B (reg .C)) |> CLK 1) else
  if op = 0x42 then .done (x |> Exec.on (LD .B (reg .D)) |> CLK 1) else
  if op = 0x43 then .done (x |> Exec.on (LD .B (reg .E)) |> CLK 1) else
  if op = 0x44 then .done (x |> Exec.on (LD .B (reg .H)) |> CLK 1) else
  if op = 0x45 then .done (x |> Exec.on (LD .B (reg .L)) |> CLK 1) else
  if op = 0x46 then .done (x |> Exec.on (LDMEMIN .B (pair .HL)) |> CLK 2) else
  if op = 0x47 then .done (x |> Exec.on (LD .B (reg .A)) |> CLK 1) else
  if op = 0x48 then .done (x |> Exec.on (LD .C (reg .B)) |> CLK 1) else
  if op = 0x49 then .done (x |> CLK 1) else
  if op = 0x4a then .done (x |> Exec.on (LD .C (reg .D)) |> CLK 1) else
  if op = 0x4b then .done (x |> Exec.on (LD .C (reg .E)) |> CLK 1) else
  if op = 0x4c then .done (x |> Exec.on (LD .C (reg .H)) |> CLK 1) else
  if op = 0x4d then .done (x |> Exec.on (LD .C (reg .L)) |> CLK 1) else
  if op = 0x4e then .done (x |> Exec.on (LDMEMIN .C (pair .HL)) |> CLK 2) else
  if op = 0x4f then .done (x |> Exec.on (LD .C (reg .A)) |> CLK 1) else
  if op = 0x50 then .done (x |> Exec.on (LD .D (reg .B)) |> CLK 1) else
  if op = 0x51 then .done (x |> Exec.on (LD .D (reg .C)) |> CLK 1) else
  if op = 0x52 then .done (x |> CLK 1) else
  if op = 0x53 then .done (x |> Exec.on (LD .D (reg .E)) |> CLK 1) else
  if op = 0x54 then .done (x |> Exec.on (LD .D (reg .H)) |> CLK 1) else
  if op = 0x55 then .done (x |> Exec.on (LD .D (reg .L)) |> CLK 1) else
  if op = 0x56 then .done (x |> Exec.on (LDMEMIN .D (pair .HL)) |> CLK 2) else
  if op = 0x57 then .done (x |> Exec.on (LD .D (reg .A)) |> CLK 1) else
  if op = 0x58 then .done (x |> Exec.on (LD .E (reg .B)) |> CLK 1) else
  if op = 0x59 then .done (x |> Exec.on (LD .E (reg .C)) |> CLK 1) else
  if op = 0x5a then .done (x |> Exec.on (LD .E (reg .D)) |> CLK 1) else
  if op = 0x5b then .done (x |> CLK 1) else
  if op = 0x5c then .done (x |> Exec.on (LD .E (reg .H)) |> CLK 1) else
  if op = 0x5d then .done (x |> Exec.on (LD .E (reg .L)) |> CLK 1) else
  if op = 0x5e then .done (x |> Exec.on (LDMEMIN .E (pair .HL)) |> CLK 2) else
  if op = 0x5f then .done (x |> Exec.on (LD .E (reg .A)) |> CLK 1) else
  if op = 0x60 then .done (x |> Exec.on (LD .H (reg .B)) |> CLK 1) else
  if op = 0x61 then .done (x |> Exec.on (LD .H (reg .C)) |> CLK 1) else
  if op = 0x62 then .done (x |> Exec.on (LD .H (reg .D)) |> CLK 1) else
  if op = 0x63 then .done (x |> Exec.on (LD .H (reg .E)) |> CLK 1) else
  if op = 0x64 then .done (x |> CLK 1) else
  if op = 0x65 then .done (x |> Exec.on (LD .H (reg .L)) |> CLK 1) else
  if op = 0x66 then .done (x |> Exec.on (LDMEMIN .H (pair .HL)) |> CLK 2) else
  if op = 0x67 then .done (x |> Exec.on (LD .H (reg .A)) |> CLK 1) else
  if op = 0x68 then .done (x |> Exec.on (LD .L (reg .B)) |> CLK 1) else
  if op = 0x69 then .done (x |> Exec.on (LD .L (reg .C)) |> CLK 1) else
  if op = 0x6a then .done (x |> Exec.on (LD .L (reg .D)) |> CLK 1) else
  if op = 0x6b then .done (x |> Exec.on (LD .L (reg .E)) |> CLK 1) else
  if op = 0x6c then .done (x |> Exec.on (LD .L (reg .H)) |> CLK 1) else
  if op = 0x6d then .done (x |> CLK 1) else
  if op = 0x6e then .done (x |> Exec.on (LDMEMIN .L (pair .HL)) |> CLK 2) else
  if op = 0x6f then .done (x |> Exec.on (LD .L (reg .A)) |> CLK 1) else
  if op = 0x70 then .done (x |> Exec.on (LDMEMOUT (pair .HL) (reg .B)) |> CLK 2) else
  if op = 0x71 then .done (x |> Exec.on (LDMEMOUT (pair .HL) (reg .C)) |> CLK 2) else
  if op = 0x72 then .done (x |> Exec.on (LDMEMOUT (pair .HL) (reg .D)) |> CLK 2) else
  if op = 0x73 then .done (x |> Exec.on (LDMEMOUT (pair .HL) (reg .E)) |> CLK 2) else
  if op = 0x74 then .done (x |> Exec.on (LDMEMOUT (pair .HL) (reg .H)) |> CLK 2) else
  if op = 0x75 then .done (x |> Exec.on (LDMEMOUT (pair .HL) (reg .L)) |> CLK 2) else
  if op = 0x76 then .spin x.m else
  if op = 0x77 then .done (x |> Exec.on (LDMEMOUT (pair .HL) (reg .A)) |> CLK 2) else
  if op = 0x78 then .done (x |> Exec.on (LD .A (reg .B)) |> CLK 1) else
  if op = 0x79 then .done (x |> Exec.on (LD .A (reg .C)) |> CLK 1) else
  if op = 0x7a then .done (x |> Exec.on (LD .A (reg .D)) |> CLK 1) else
  if op = 0x7b then .done (x |> Exec.on (LD .A (reg .E)) |> CLK 1) else
  if op = 0x7c then .done (x |> Exec.on (LD .A (reg .H)) |> CLK 1) else
  if op = 0x7d then .done (x |> Exec.on (LD .A (reg .L)) |> CLK 1) else
  if op = 0x7e then .done (x |> Exec.on (LDMEMIN .A (pair .HL)) |> CLK 2) else
  if op = 0x7f then .done (x |> CLK 1) else
  if op = 0x80 then .done (x |> Exec.on (ADD (reg .B)) |> CLK 1) else
  if op = 0x81 then .done (x |> Exec.on (ADD (reg .C)) |> CLK 1) else
  if op = 0x82 then .done (x |> Exec.on (ADD (reg .D)) |> CLK 1) else
  if op = 0x83 then .done (x |> Exec.on (ADD (reg .E)) |> CLK 1) else
  if op = 0x84 then .done (x |> Exec.on (ADD (reg .H)) |> CLK 1) else
  if op = 0x85 then .done (x |> Exec.on (ADD (reg .L)) |> CLK 1) else
  if op = 0x86 then .done (x |> Exec.on (ADD (mem8 (pair .HL))) |> CLK 2) else
  if op = 0x87 then .done (x |> Exec.on (ADD (reg .A)) |> CLK 2) else
  if op = 0x88 then .done (x |> Exec.on (ADC (reg .B)) |> CLK 1) else
  if op = 0x89 then .done (x |> Exec.on (ADC (reg .C)) |> CLK 1) else
  if op = 0x8a then .done (x |> Exec.on (ADC (reg .D)) |> CLK 1) else
  if op = 0x8b then .done (x |> Exec.on (ADC (reg .E)) |> CLK 1) else
  if op = 0x8c then .done (x |> Exec.on (ADC (reg .H)) |> CLK 1) else
  if op = 0x8d then .done (x |> Exec.on (ADC (reg .L)) |> CLK 1) else
  if op = 0x8e then .done (x |> Exec.on (ADC (mem8 (pair .HL))) |> CLK 2) else
  if op = 0x8f then .done (x |> Exec.on (ADC (reg .A)) |> CLK 1) else
  if op = 0x90 then .done (x |> Exec.on (SUB (reg .B)) |> CLK 1) else
  if op = 0x91 then .done (x |> Exec.on (SUB (reg .C)) |> CLK 1) else
  if op = 0x92 then .done (x |> Exec.on (SUB (reg .D)) |> CLK 1) else
  if op = 0x93 then .done (x |> Exec.on (SUB (reg .E)) |> CLK 1) else
  if op = 0x94 then .done (x |> Exec.on (SUB (reg .H)) |> CLK 1) else
  if op = 0x95 then .done (x |> Exec.on (SUB (reg .L)) |> CLK 1) else
  if op = 0x96 then .done (x |> Exec.on (SUB (mem8 (pair .HL))) |> CLK 2) else
  if op = 0x97 then .done (x |> Exec.on (SUB (reg .A)) |> CLK 1) else
  if op = 0x98 then .done (x |> Exec.on (SBC (reg .B)) |> CLK 1) else
  if op = 0x99 then .done (x |> Exec.on (SBC (reg .C)) |> CLK 1) else
  if op = 0x9a then .done (x |> Exec.on (SBC (reg .D)) |> CLK 1) else
  if op = 0x9b then .done (x |> Exec.on (SBC (reg .E)) |> CLK 1) else
  if op = 0x9c then .done (x |> Exec.on (SBC (reg .H)) |> CLK 1) else
  if op = 0x9d then .done (x |> Exec.on (SBC (reg .L)) |> CLK 1) else
  if op = 0x9e then .done (x |> Exec.on (SBC (mem8 (pair .HL))) |> CLK 2) else
  if op = 0x9f then .done (x |> Exec.on (SBC (reg .A)) |> CLK 1) else
  if op = 0xa0 then .done (x |> Exec.on (AND (reg .B)) |> CLK 1) else
  if op = 0xa1 then .done (x |> Exec.on (AND (reg .C)) |> CLK 1) else
  if op = 0xa2 then .done (x |> Exec.on (AND (reg .D)) |> CLK 1) else
  if op = 0xa3 then .done (x |> Exec.on (AND (reg .E)) |> CLK 1) else
  if op = 0xa4 then .done (x |> Exec.on (AND (reg .H)) |> CLK 1) else
  if op = 0xa5 then .done (x |> Exec.on (AND (reg .L)) |> CLK 1) else
  if op = 0xa6 then .done (x |> Exec.on (AND (mem8 (pair .HL))) |> CLK 2) else
  if op = 0xa7 then .done (x |> Exec.on (AND (reg .A)) |> CLK 1) else
  if op = 0xa8 then .done (x |> Exec.on (XOR (reg .B)) |> CLK 1) else
  if op = 0xa9 then .done (x |> Exec.on (XOR (reg .C)) |> CLK 1) else
  if op = 0xaa then .done (x |> Exec.on (XOR (reg .D)) |> CLK 1) else
  if op = 0xab then .done (x |> Exec.on (XOR (reg .E)) |> CLK 1) else
  if op = 0xac then .done (x |> Exec.on (XOR (reg .H)) |> CLK 1) else
  if op = 0xad then .done (x |> Exec.on (XOR (reg .L)) |> CLK 1) else
  if op = 0xae then .done (x |> Exec.on (XOR (mem8 (pair .HL))) |> CLK 2) else
  if op = 0xaf then .done (x |> Exec.on (fun s => { s with A := 0 }) |> Exec.on (fun s => { s with F := ZERO }) |> CLK 1) else
  if op = 0xb0 then .done (x |> Exec.on (OR (reg .B)) |> CLK 1) else
  if op = 0xb1 then .done (x |> Exec.on (OR (reg .C)) |> CLK 1) else
  if op = 0xb2 then .done (x |> Exec.on (OR (reg .D)) |> CLK 1) else
  if op = 0xb3 then .done (x |> Exec.on (OR (reg .E)) |> CLK 1) else
  if op = 0xb4 then .done (x |> Exec.on (OR (reg .H)) |> CLK 1) else
  if op = 0xb5 then .done (x |> Exec.on (OR (reg .L)) |> CLK 1) else
  if op = 0xb6 then .done (x |> Exec.on (OR (mem8 (pair .HL))) |> CLK 2) else
  if op = 0xb7 then .done (x |> Exec.on (OR (reg .A)) |> CLK 1) else
  if op = 0xb8 then .done (x |> Exec.on (CP (reg .B)) |> CLK 1) else
  if op = 0xb9 then .done (x |> Exec.on (CP (reg .C)) |> CLK 1) else
  if op = 0xba then .done (x |> Exec.on (CP (reg .D)) |> CLK 1) else
  if op = 0xbb then .done (x |> Exec.on (CP (reg .E)) |> CLK 1) else
  if op = 0xbc then .done (x |> Exec.on (CP (reg .H)) |> CLK 1) else
  if op = 0xbd then .done (x |> Exec.on (CP (reg .L)) |> CLK 1) else
  if op = 0xbe then .done (x |> Exec.on (CP (mem8 (pair .HL))) |> CLK 2) else
  if op = 0xbf then .done (x |> Exec.on (CP (reg .A)) |> CLK 1) else
  if op = 0xc0 then .done (x |> RET (flagClear ZERO)) else
  if op = 0xc1 then .done (x |> POP .BC) else
  if op = 0xc2 then .done (x |> JP (flagClear ZERO)) else
  if op = 0xc3 then .done (x |> JP always) else
  if op = 0xc4 then .done (x |> CALL (flagClear ZERO)) else
  if op = 0xc5 then .done (x |> PUSH (pair .BC) |> CLK 4) else
  if op = 0xc6 then .done (x |> Exec.on (ADD (mem8 (postInc .PC))) |> CLK 2) else
  if op = 0xc7 then .done (x |> RST 0x00) else
  if op = 0xc8 then .done (x |> RET (flagSet ZERO)) else
  if op = 0xc9 then .done (x |> RET always) else
  if op = 0xca then .done (x |> JP (flagSet ZERO)) else
  if op = 0xcb then z80_cb (fetch x) else
  if op = 0xcc then .done (x |> CALL (flagSet ZERO)) else
  if op = 0xcd then .done (x |> CALL always) else
  if op = 0xce then .done (x |> Exec.on (ADC (mem8 (postInc .PC))) |> CLK 2) else
  if op = 0xcf then .done (x |> RST 0x08) else
  if op = 0xd0 then .done (x |> RET (flagClear CARRY)) else
  if op = 0xd1 then .done (x |> POP .DE) else
  if op = 0xd2 then .done (x |> JP (flagClear CARRY)) else
  if op = 0xd3 then .spin x.m else
  if op = 0xd4 then .done (x |> CALL (flagClear CARRY)) else
  if op = 0xd5 then .done (x |> PUSH (pair .DE)) else
  if op = 0xd6 then .done (x |> Exec.on (SUB (mem8 (postInc .PC))) |> CLK 2) else
  if op = 0xd7 then .done (x |> RST 0x10) else
  if op = 0xd8 then .done (x |> RET (flagSet CARRY)) else
  if op = 0xd9 then .done (x |> RET always |> Exec.on (fun s => { s with IME := 1 })) else
  if op = 0xda then .done (x |> JP (flagSet CARRY)) else
  if op = 0xdb then .spin x.m else
  if op = 0xdc then .done (x |> CALL (flagSet CARRY)) else
  if op = 0xdd then .spin x.m else
  if op = 0xde then .done (x |> Exec.on (SBC (mem8 (postInc .PC))) |> CLK 2) else
  if op = 0xdf then .done (x |> RST 0x18) else
  if op = 0xe0 then .done (x |> Exec.on (fun s => { (plus 0xff00 (mem8 (postInc .PC)) s).2 with T3 := (plus 0xff00 (mem8 (postInc .PC)) s).1 % 65536 }) |> Exec.on (LDMEMOUT tmp3 (reg .A)) |> CLK 3) else
  if op = 0xe1 then .done (x |> POP .HL) else
  if op = 0xe2 then .done (x |> Exec.on (LDMEMOUT (plus 0xff00 (reg .C)) (reg .A)) |> CLK 2) else
  if op = 0xe3 then .spin x.m else
  if op = 0xe4 then .spin x.m else
  if op = 0xe5 then .done (x |> PUSH (pair .HL)) else
  if op = 0xe6 then .done (x |> Exec.on (AND (mem8 (postInc .PC))) |> CLK 2) else
  if op = 0xe7 then .done (x |> RST 0x20) else
  if op = 0xe8 then .done (x |> Exec.on (fun s => { s with F := 0 }) |> Exec.on (fun s => { s with T4 := (plusInt8 (pair .SP) (mem8 (pair .PC)) s).1 }) |> Exec.on (fun s => if s.T4 > 0xffff then SETFLAG s CARRY else s) |> Exec.on (fun s => if (s.T4 : Int) < 0 then SETFLAG s CARRY else s) |> Exec.on (LD16 .SP (plusInt8 (pair .SP) (mem8 (postInc .PC)))) |> CLK 4) else
  if op = 0xe9 then .done (x |> Exec.on (fun s => { s with PC := HL s }) |> CLK 1) else
  if op = 0xea then .done (x |> Exec.on (LDMEMOUT (mem16 (pair .PC)) (reg .A)) |> Exec.on (fun s => { s with PC := (s.PC + 2) % 65536 }) |> CLK 4) else
  if op = 0xeb then .spin x.m else
  if op = 0xec then .spin x.m else
  if op = 0xed then .spin x.m else
  if op = 0xee then .done (x |> Exec.on (XOR (mem8 (postInc .PC))) |> CLK 2) else
  if op = 0xef then .done (x |> RST 0x28) else
  if op = 0xf0 then .done (x |> Exec.on (LDMEMIN .A (plus 0xff00 (mem8 (postInc .PC)))) |> CLK 4) else
  if op = 0xf1 then .done (x |> POP .AF) else
  if op = 0xf2 then .done (x |> Exec.on (LDMEMIN .A (plus 0xff00 (reg .C))) |> CLK 2) else
  if op = 0xf3 then .done (x |> DI) else
  if op = 0xf4 then .spin x.m else
  if op = 0xf5 then .done (x |> PUSH (pair .AF)) else
  if op = 0xf6 then .done (x |> Exec.on (OR (mem8 (postInc .PC))) |> CLK 2) else
  if op = 0xf7 then .done (x |> RST 0x30) else
  if op = 0xf8 then .done (x |> Exec.on (LD16 .HL (plusInt8 (pair .SP) (mem8 (postInc .PC)))) |> CLK 3) else
  if op = 0xf9 then .done (x |> Exec.on (LD16 .SP (pair .HL)) |> CLK 2) else
  if op = 0xfa then .done (x |> Exec.on (LDMEMIN .A (mem16 (pair .PC))) |> CLK 4 |> Exec.on (fun s => { s with PC := (s.PC + 2) % 65536 })) else
  if op = 0xfb then .done (x |> EI) else
  if op = 0xfc then .spin x.m else
  if op = 0xfd then .spin x.m else
  if op = 0xfe then .done (x |> Exec.on (CP (mem8 (postInc .PC))) |> CLK 2) else
  if op = 0xff then .done (x |> RST 0x38) else
  .done x

/-- One pass through the body of `while(!actual)`: fetch an opcode and run its `case`. -/
def z80_step (x : Exec) : Outcome := z80_case (fetch x).1 (fetch x).2

/-- How a call of `z80_execute` ends. -/
inductive Result
  | returned (m : Machine) (cycles : Nat)
  | spins (m : Machine)
  | unfinished (m : Machine)

/-- The loop `while(!actual) { switch ... }` followed by `return actual`, entered with
`actual == 0`; `fuel` bounds the number of passes, and `unfinished` reports that the
bound was reached with `actual` still `0`. -/
def z80_loop : Nat → Exec → Result
  | 0, x => .unfinished x.m
  | fuel + 1, x =>
    match z80_step x with
    | .spin m => .spins m
    | .done y => if y.actual = 0 then z80_loop fuel y else .returned y.m y.actual

/-- The function `z80_execute`. -/
def z80_execute (fuel : Nat) (s : Machine) : Result := z80_loop fuel { m := s, actual := 0 }

/-! ## Start-up (`gb.c`, `loader.c`) -/

/-- The statically initialised globals: everything zero, `IME = 1`. -/
def powerOn : Machine :=
  { A := 0, F := 0, B := 0, C := 0, D := 0, E := 0, H := 0, L := 0, SP := 0, PC := 0,
    IME := 1, z80_memory := fun _ => 0, timer_counter := 0, scanline := 0, div_reg := 0,
    T1 := 0, T2 := 0, T3 := 0, T4 := 0, S1 := 0 }

/-- The function `gb_init`; `MMAP(n)` is `z80_memory[0xff00 + n]`. -/
def gb_init (s : Machine) : Machine :=
  let s := setAF s 0x01b0
  let s := setBC s 0x0013
  let s := setDE s 0x00d8
  let s := setHL s 0x014d
  let s := { s with SP := 0xfffe }
  let s := { s with PC := 0x0100 }
  let s := setMem s (0xff00 + 0x05) 0x00 -- TIMA
  let s := setMem s (0xff00 + 0x06) 0x00 -- TMA
  let s := setMem s (0xff00 + 0x07) 0x00 -- TAC
  let s := setMem s (0xff00 + 0x10) 0x80 -- NR10
  let s := setMem s (0xff00 + 0x11) 0xbf -- NR11
  let s := setMem s (0xff00 + 0x12) 0xf3 -- NR12
  let s := setMem s (0xff00 + 0x14) 0xbf -- NR14
  let s := setMem s (0xff00 + 0x16) 0x3f -- NR21
  let s := setMem s (0xff00 + 0x17) 0x00 -- NR22
  let s := setMem s (0xff00 + 0x19) 0xbf -- NR24
  let s := setMem s (0xff00 + 0x1a) 0x7f -- NR30
  let s := setMem s (0xff00 + 0x1b) 0xff -- NR31
  let s := setMem s (0xff00 + 0x1c) 0x9f -- NR32
  let s := setMem s (0xff00 + 0x1e) 0xbf -- NR33
  let s := setMem s (0xff00 + 0x20) 0xff -- NR41
  let s := setMem s (0xff00 + 0x21) 0x00 -- NR42
  let s := setMem s (0xff00 + 0x22) 0x00 -- NR43
  let s := setMem s (0xff00 + 0x23) 0xbf -- NR40
  let s := setMem s (0xff00 + 0x24) 0x77 -- NR50
  let s := setMem s (0xff00 + 0x25) 0xf3 -- NR51
  let s := setMem s (0xff00 + 0x26) 0xf1 -- NR52
  let s := setMem s (0xff00 + 0x40) 0x91 -- LCDC
  let s := setMem s (0xff00 + 0x42) 0x00 -- SCY
  let s := setMem s (0xff00 + 0x43) 0x43 -- SCX
  let s := setMem s (0xff00 + 0x45) 0x00 -- LYC
  let s := setMem s (0xff00 + 0x47) 0xfc -- BGP
  let s := setMem s (0xff00 + 0x48) 0xff -- OBP0
  let s := setMem s (0xff00 + 0x49) 0xff -- OBP1
  let s := setMem s (0xff00 + 0x4a) 0x00 -- WY
  let s := setMem s (0xff00 + 0x4b) 0x00 -- WX
  setMem s (0xff00 + 0xff) 0x00 -- IE

/-- The part of `load_file` that fills the address space: the first `0x8000` bytes of
the ROM file go to `z80_memory[0 .. 0x7fff]`. -/
def load_file (rom : Nat → Nat) (s : Machine) : Machine :=
  { s with z80_memory := fun a => if a < 0x8000 then rom a % 256 else s.z80_memory a }

/-- The machine when `main` enters its loop: `gb_init()`, then `load_file`. -/
def boot (rom : Nat → Nat) : Machine := load_file rom (gb_init powerOn)

/-! ## Runs of `z80_execute` -/

/-- The machine in which a call of `z80_execute` ends. -/
def Result.machine : Result → Machine
  | .returned m _ => m
  | .spins m => m
  | .unfinished m => m

/-- Whether the call returned. -/
def Result.isReturned : Result → Bool
  | .returned _ _ => true
  | _ => false

/-- The value returned by the call, `0` when it did not return. -/
def Result.cycles : Result → Nat
  | .returned _ c => c
  | _ => 0

/-- The opcodes on which the outer `switch` is entered during `z80_loop`. -/
def z80_loop_ops : Nat → Exec → List Nat
  | 0, _ => []
  | fuel + 1, x =>
    (fetch x).2 ::
      match z80_step x with
      | .spin _ => []
      | .done y => if y.actual = 0 then z80_loop_ops fuel y else []

/-- The machines reached from the boot state by calls of `z80_execute` that return and
in which the outer `switch` is entered on no opcode of `avoid`. -/
inductive ReachableAvoiding (avoid : List Nat) (rom : Nat → Nat) : Machine → Prop
  | boot : ReachableAvoiding avoid rom (boot rom)
  | call (fuel : Nat) {s t : Machine} {cycles : Nat} :
      ReachableAvoiding avoid rom s →
      z80_execute fuel s = .returned t cycles →
      (∀ op ∈ z80_loop_ops fuel { m := s, actual := 0 }, ∀ k ∈ avoid, op ≠ k) →
      ReachableAvoiding avoid rom t

/-- The machines reached from the boot state by calls of `z80_execute` that return. -/
def Reachable (rom : Nat → Nat) (s : Machine) : Prop := ReachableAvoiding [] rom s

/-- The low 4 bits of `F` are zero. -/
def lowNibbleZero (s : Machine) : Prop := s.F &&& 0x0f = 0

/-- The low 4 bits of `F` are zero in the machine in which a `case` ends. -/
def Outcome.lowNibbleZero : Outcome → Prop
  | .done y => Orchard.lowNibbleZero y.m
  | .spin m => Orchard.lowNibbleZero m

/-- Evaluating the operand leaves `F` alone. -/
def QuietF (inp : Operand) : Prop := ∀ s, (inp s).2.F = s.F

/-- The opcodes whose `case` can leave a nonzero low nibble in `F`: the seven `INC r8`
and `POP AF`. -/
def lowNibbleBreakers : List Nat := [0x04, 0x0c, 0x14, 0x1c, 0x24, 0x2c, 0x3c, 0xf1]

/-- A ROM whose program at the entry point `0x0100` is
`LD BC,0x00FF; PUSH BC; POP AF`. -/
def popAFRom : Nat → Nat := fun a =>
  if a = 0x0100 then 0x01 else if a = 0x0101 then 0xff else if a = 0x0102 then 0x00
  else if a = 0x0103 then 0xc5 else if a = 0x0104 then 0xf1 else 0

/-- The machine after three calls of `z80_execute` from the boot state on `popAFRom`. -/
def popAFRun : Machine :=
  (z80_execute 1 (z80_execute 1 (z80_execute 1 (boot popAFRom)).machine).machine).machine

/-- A machine about to run `PUSH BC; POP DE` with `SP = 0xFFFE` and `BC = 0x1234`. -/
def pushPopMachine : Machine :=
  { zeroMachine with
    SP := 0xfffe, B := 0x12, C := 0x34, PC := 0x0100,
    z80_memory := fun a => if a = 0x0100 then 0xc5 else if a = 0x0101 then 0xd1 else 0 }

/-- A machine about to run `LD (0xC000),SP` (`08 00 C0`) with `SP = 0x1234`. -/
def ldSPMachine : Machine :=
  { zeroMachine with
    SP := 0x1234, PC := 0x0100,
    z80_memory := fun a =>
      if a = 0x0100 then 0x08 else if a = 0x0101 then 0x00 else if a = 0x0102 then 0xc0 else 0 }

/-- A ROM of zero bytes: every opcode is `NOP`. -/
def nopRom : Nat → Nat := fun _ => 0

/-- The value of `F` in which exactly the given flags are set. -/
def mkF (z n h c : Bool) : Nat :=
  (if z then ZERO else 0) ||| (if n then SUBTRACTION else 0) |||
    (if h then HALFCARRY else 0) ||| (if c then CARRY else 0)

/-! ## Vocabulary of the later claims -/

/-- The machine `s` with `PC = 0x0100` and the bytes of `prog` stored from `0x0100` on;
used for concrete evaluations. -/
def withProgram (s : Machine) (prog : List Nat) : Machine :=
  { s with
    PC := 0x0100,
    z80_memory := fun a =>
      if 0x0100 ≤ a ∧ a < 0x0100 + prog.length then prog.getD (a - 0x0100) 0
      else s.z80_memory a }

/-- Both nibbles of the byte are decimal digits. -/
def isBCD (x : Nat) : Prop := x / 16 ≤ 9 ∧ x % 16 ≤ 9

instance (x : Nat) : Decidable (isBCD x) :=
  inferInstanceAs (Decidable (x / 16 ≤ 9 ∧ x % 16 ≤ 9))

/-- The number a packed-BCD byte stands for. -/
def bcdValue (x : Nat) : Nat := 10 * (x / 16) + x % 16

/-- The packed-BCD byte of a number below 100. -/
def bcdEncode (n : Nat) : Nat := 16 * (n / 10) + n % 10

/-- The byte `a` rotated left by one bit. -/
def rotl8 (a : Nat) : Nat := (2 * a) % 256 + a / 128

/-- The conditions `NZ`, `Z`, `NC`, `C` of the conditional control transfers. -/
inductive Cond
  | NZ | Z | NC | C
  deriving DecidableEq

/-- Whether the condition holds in a state. -/
def Cond.holds (s : Machine) : Cond → Prop
  | .NZ => FLAG s ZERO = 0
  | .Z => FLAG s ZERO ≠ 0
  | .NC => FLAG s CARRY = 0
  | .C => FLAG s CARRY ≠ 0

instance (s : Machine) (c : Cond) : Decidable (c.holds s) := by
  cases c <;> unfold Cond.holds <;> infer_instance

/-- A conditional control transfer: its opcode, its condition, the length of its
immediate operand, and the T-cycles it costs when taken and when not taken. -/
structure CondTransfer where
  opcode : Nat
  cc : Cond
  immediate : Nat
  taken : Nat
  untaken : Nat

/-- The sixteen conditional control transfers: `JR cc` (12/8), `JP cc` (16/12),
`CALL cc` (24/12) and `RET cc` (20/8). -/
def condTransfers : List CondTransfer :=
  [ ⟨0x20, .NZ, 1, 12, 8⟩, ⟨0x28, .Z, 1, 12, 8⟩, ⟨0x30, .NC, 1, 12, 8⟩, ⟨0x38, .C, 1, 12, 8⟩,
    ⟨0xc2, .NZ, 2, 16, 12⟩, ⟨0xca, .Z, 2, 16, 12⟩, ⟨0xd2, .NC, 2, 16, 12⟩,
    ⟨0xda, .C, 2, 16, 12⟩,
    ⟨0xc4, .NZ, 2, 24, 12⟩, ⟨0xcc, .Z, 2, 24, 12⟩, ⟨0xd4, .NC, 2, 24, 12⟩,
    ⟨0xdc, .C, 2, 24, 12⟩,
    ⟨0xc0, .NZ, 0, 20, 8⟩, ⟨0xc8, .Z, 0, 20, 8⟩, ⟨0xd0, .NC, 0, 20, 8⟩, ⟨0xd8, .C, 0, 20, 8⟩ ]

/-- The opcodes that halt the machine: the eleven illegal opcodes, `STOP` and `HALT`. -/
def haltingOpcodes : List Nat :=
  [0xd3, 0xdb, 0xdd, 0xe3, 0xe4, 0xeb, 0xec, 0xed, 0xf4, 0xfc, 0xfd, 0x10, 0x76]

/-- The vector of interrupt source `i` (bit `i` of `IF` and `IE`). -/
def intrVector (i : Nat) : Nat :=
  if i = 0 then 0x40 else if i = 1 then 0x48 else if i = 2 then 0x50 else if i = 3 then 0x58
  else 0x60

/-- The period in T-cycles selected by `TAC[1:0]`. -/
def timerPeriod (tac : Nat) : Int :=
  if tac % 4 = 0 then 1024 else if tac % 4 = 1 then 16 else if tac % 4 = 2 then 64 else 256

/-- The timer state of the specification: `timer_counter`, `TIMA`, and whether the Timer
interrupt is requested (bit 2 of `IF`). -/
structure SpecTimer where
  counter : Int
  tima : Nat
  requested : Bool

/-- Step 2 of the timer of the specification, its loop: "While `timer_counter ≤ 0`:
reload `timer_counter` from the period selected by `TAC[1:0]`; if `TIMA == 0xFF` set
`TIMA = TMA` and request the Timer interrupt, else `TIMA += 1`." Each test of the loop
condition takes one unit of `fuel`; the result is `none` when the fuel runs out. -/
def specTimerLoop (tac tma : Nat) : Nat → SpecTimer → Option SpecTimer
  | 0, _ => none
  | fuel + 1, t =>
    if t.counter ≤ 0 then
      specTimerLoop tac tma fuel
        (if t.tima = 0xff then { counter := timerPeriod tac, tima := tma, requested := true }
        else { counter := timerPeriod tac, tima := t.tima + 1, requested := t.requested })
    else some t

/-- Step 2 of the timer of the specification: "If `TAC` bit 2 is set, subtract `cycles`
from `timer_counter`", then the loop. -/
def specTimerStep (tac tma cycles fuel : Nat) (t : SpecTimer) : Option SpecTimer :=
  if tac.testBit 2 then
    specTimerLoop tac tma fuel
      { counter := t.counter - cycles, tima := t.tima, requested := t.requested }
  else some t

/-- The timer state held by a machine. -/
def timerOf (s : Machine) : SpecTimer :=
  { counter := s.timer_counter, tima := s.z80_memory 0xff05,
    requested := decide (s.z80_memory 0xff0f &&& 4 ≠ 0) }

/-- The mode of the reference STAT policy, from `LY` and the position `lx` in the line. -/
def specStatMode (ly : Nat) (lx : Int) : Nat :=
  if ly ≥ 144 then 1 else if lx ≥ 376 then 2 else if lx ≥ 204 then 3 else 0

/-- The enable bit of a mode in `STAT`: bit 4 for mode 1, bit 5 for mode 2, bit 3 for
mode 0, none for mode 3. -/
def specStatEnable (stat mode : Nat) : Bool :=
  if mode = 1 then stat.testBit 4
  else if mode = 2 then stat.testBit 5
  else if mode = 0 then stat.testBit 3
  else false

/-- When the reference STAT policy requests the LCD-STAT interrupt: the mode bits change
and the enable bit of the new mode is set, or `LY == LYC` and bit 6 of `STAT` is set. -/
def specStatRequest (stat ly lyc : Nat) (lx : Int) : Bool :=
  (decide (stat &&& 3 ≠ specStatMode ly lx) && specStatEnable stat (specStatMode ly lx)) ||
    (decide (ly = lyc) && stat.testBit 6)

/-! ## Interrupts, timer and LCD (`gb.c`) -/

/-- The macro `TESTBIT(X, B)`, that is `(X) & (1 << (B))`. -/
def TESTBIT (x b : Nat) : Nat := x &&& (1 <<< b)

/-- The masks of the enumeration `intr_t`. -/
def intr_vblank : Nat := 1 <<< 0
def intr_lcd : Nat := 1 <<< 1
def intr_timer : Nat := 1 <<< 2
def intr_pad : Nat := 1 <<< 4

/-- Assign the static `timer_counter` (`int`). -/
def setTimerCounter (s : Machine) (v : Int) : Machine := { s with timer_counter := v }

/-- Assign the static `scanline` (`int`). -/
def setScanline (s : Machine) (v : Int) : Machine := { s with scanline := v }

/-- Assign the static `div_reg` (`int`) of `gb_update`. -/
def setDivReg (s : Machine) (v : Int) : Machine := { s with div_reg := v }

/-- The function `gb_intr`: `IF |= i` on the byte at `0xff0f`. -/
def gb_intr (s : Machine) (i : Nat) : Machine :=
  setMem s 0xff0f ((s.z80_memory 0xff0f ||| i) % 256)

/-- The function `gb_service`. The `switch` has no `default`: on another mask `PC` stays. -/
def gb_service (s : Machine) (i : Nat) : Machine :=
  let s := setIME s 0
  let s := setMem s 0xff0f (s.z80_memory 0xff0f &&& (255 - i % 256))
  let s := PUSHWORD s s.PC
  if i = intr_vblank then setRR s .PC 0x40
  else if i = intr_lcd then setRR s .PC 0x48
  else if i = intr_timer then setRR s .PC 0x50
  else if i = intr_pad then setRR s .PC 0x60
  else s

/-- The body of the loop `for(i = 0; i < 5; ++i)` of `gb_check_intrs`. -/
def gb_check_intr (s : Machine) (i : Nat) : Machine :=
  if TESTBIT (s.z80_memory 0xffff) i ≠ 0 ∧ TESTBIT (s.z80_memory 0xff0f) i ≠ 0 then
    gb_service s (1 <<< i)
  else s

/-- The function `gb_check_intrs`. -/
def gb_check_intrs (s : Machine) : Machine :=
  if s.IME ≠ 0 then
    if s.z80_memory 0xff0f ≠ 0 then (List.range 5).foldl gb_check_intr s
    else s
  else s

/-- The division-register block of `gb_update`. -/
def gb_update_div (s : Machine) (cycles : Nat) : Machine :=
  let s := setDivReg s (s.div_reg + cycles)
  if s.div_reg ≥ 255 then
    let s := setDivReg s 0
    setMem s 0xff04 ((s.z80_memory 0xff04 + 1) % 256)
  else s

/-- The clock block of `gb_update`. -/
def gb_update_timer (s : Machine) (cycles : Nat) : Machine :=
  if TESTBIT (s.z80_memory 0xff07) 2 ≠ 0 then
    let s := setTimerCounter s (s.timer_counter - cycles)
    if s.timer_counter ≤ 0 then
      let s := gb_set_clock s
      if s.z80_memory 0xff05 = 255 then
        let s := setMem s 0xff05 (s.z80_memory 0xff06)
        gb_intr s intr_timer
      else setMem s 0xff05 ((s.z80_memory 0xff05 + 1) % 256)
    else s
  else s

/-- The mode selection of `gb_set_lcd` with the LCD on: the state, `next_mode` and `intr`
after the statement `if(LY >= 144) .. else ..`. -/
def gb_set_lcd_mode (s : Machine) : Machine × Nat × Nat :=
  if s.z80_memory 0xff44 ≥ 144 then
    let s := setMem s 0xff41 ((s.z80_memory 0xff41 ||| 1) % 256)
    let s := setMem s 0xff41 (s.z80_memory 0xff41 &&& 253)
    (s, 1, TESTBIT (s.z80_memory 0xff41) 4)
  else if s.scanline ≥ 456 - 80 then
    let s := setMem s 0xff41 ((s.z80_memory 0xff41 ||| 2) % 256)
    let s := setMem s 0xff41 (s.z80_memory 0xff41 &&& 254)
    (s, 2, TESTBIT (s.z80_memory 0xff41) 5)
  else if s.scanline ≥ 456 - 80 - 172 then
    (setMem s 0xff41 ((s.z80_memory 0xff41 ||| 3) % 256), 3, 0)
  else
    let s := setMem s 0xff41 (s.z80_memory 0xff41 &&& 252)
    (s, 0, TESTBIT (s.z80_memory 0xff41) 3)

/-- The comparison of `LY` with `LYC` that ends `gb_set_lcd`. -/
def gb_set_lcd_lyc (s : Machine) : Machine :=
  if s.z80_memory 0xff44 = s.z80_memory 0xff45 then
    let s := setMem s 0xff41 ((s.z80_memory 0xff41 ||| 4) % 256)
    if TESTBIT (s.z80_memory 0xff41) 6 ≠ 0 then gb_intr s intr_lcd else s
  else setMem s 0xff41 (s.z80_memory 0xff41 &&& 251)

/-- The function `gb_set_lcd`. -/
def gb_set_lcd (s : Machine) : Machine :=
  if TESTBIT (s.z80_memory 0xff40) 7 = 0 then
    let s := setMem s 0xff44 0
    let s := setMem s 0xff41 (s.z80_memory 0xff41 &&& 252)
    setMem s 0xff41 ((s.z80_memory 0xff41 ||| 1) % 256)
  else
    let cur_mode := s.z80_memory 0xff41 &&& 0x3
    let r := gb_set_lcd_mode s
    let s := if r.2.2 ≠ 0 ∧ cur_mode ≠ r.2.1 then gb_intr r.1 intr_lcd else r.1
    gb_set_lcd_lyc s

/-- The function `gb_draw_scanline`. It prints and, through `gb_render_tiles`, writes
pixels to the frame buffer `VRAM_A` of the host; it reads the emulator's globals and
assigns none of them. -/
def gb_draw_scanline (s : Machine) : Machine := s

/-- The LCD block of `gb_update`. -/
def gb_update_lcd (s : Machine) (cycles : Nat) : Machine :=
  let s := gb_set_lcd s
  if TESTBIT (s.z80_memory 0xff40) 7 ≠ 0 then
    let s := setScanline s (s.scanline + cycles)
    if s.scanline ≥ 456 then
      let s := setScanline s 0
      let s := setMem s 0xff44 ((s.z80_memory 0xff44 + 1) % 256)
      let s :=
        if s.z80_memory 0xff44 = 144 then gb_intr s intr_vblank
        else if s.z80_memory 0xff44 > 153 then setMem s 0xff44 0
        else s
      if s.z80_memory 0xff44 < 144 then gb_draw_scanline s else s
    else s
  else s

/-- The function `gb_update`; its argument is a `uint8_t`. -/
def gb_update (s : Machine) (cycles : Nat) : Machine :=
  gb_update_lcd (gb_update_timer (gb_update_div s (cycles % 256)) (cycles % 256))
    (cycles % 256)

/-- The state after `n` calls `gb_update(cycles)`. -/
def gb_update_n (cycles : Nat) : Nat → Machine → Machine
  | 0, s => s
  | n + 1, s => gb_update (gb_update_n cycles n s) cycles

/-- The byte `m` read as a signed 8-bit integer. -/
def toInt8 (m : Nat) : Int :=
  if m % 256 < 128 then ((m % 256 : Nat) : Int) else ((m % 256 : Nat) : Int) - 256

/-- The I/O bytes of the boot state, as address and value. -/
def bootIOValues : List (Nat × Nat) :=
  [(0xff05, 0x00), (0xff06, 0x00), (0xff07, 0x00), (0xff10, 0x80), (0xff11, 0xbf),
    (0xff12, 0xf3), (0xff14, 0xbf), (0xff16, 0x3f), (0xff17, 0x00), (0xff19, 0xbf),
    (0xff1a, 0x7f), (0xff1b, 0xff), (0xff1c, 0x9f), (0xff1e, 0xbf), (0xff20, 0xff),
    (0xff21, 0x00), (0xff22, 0x00), (0xff23, 0xbf), (0xff24, 0x77), (0xff25, 0xf3),
    (0xff26, 0xf1), (0xff40, 0x91), (0xff42, 0x00), (0xff43, 0x43), (0xff45, 0x00),
    (0xff47, 0xfc), (0xff48, 0xff), (0xff49, 0xff), (0xff4a, 0x00), (0xff4b, 0x00),
    (0xffff, 0x00)]

/-- The state after the calls `gb_update(c)` for the step sizes `c` of a list, in order. -/
def gb_update_seq (cs : List Nat) (s : Machine) : Machine := cs.foldl gb_update s

/-- Whether the LCD block of `gb_update` reaches its call `gb_intr(intr_vblank)`: the
conditions on the path to that statement. -/
def gb_update_lcd_vblank (s : Machine) (cycles : Nat) : Bool :=
  let s := gb_set_lcd s
  if TESTBIT (s.z80_memory 0xff40) 7 ≠ 0 then
    let s := setScanline s (s.scanline + cycles)
    if s.scanline ≥ 456 then
      let s := setScanline s 0
      let s := setMem s 0xff44 ((s.z80_memory 0xff44 + 1) % 256)
      decide (s.z80_memory 0xff44 = 144)
    else false
  else false

/-- Whether the call `gb_update(cycles)` reaches its call `gb_intr(intr_vblank)`. -/
def gb_update_vblank (s : Machine) (cycles : Nat) : Bool :=
  gb_update_lcd_vblank (gb_update_timer (gb_update_div s (cycles % 256)) (cycles % 256))
    (cycles % 256)

/-- The number of calls `gb_intr(intr_vblank)` made by the calls `gb_update(c)` for the
step sizes `c` of a list, in order. -/
def vblankRequests : List Nat → Machine → Nat
  | [], _ => 0
  | c :: cs, s => (if gb_update_vblank s c then 1 else 0) + vblankRequests cs (gb_update s c)

/-- No step of the list straddles a scanline boundary: starting `t` T-cycles into the
frame, each step ends at or before the next multiple of 456. Steps are bytes. -/
def Aligned : Nat → List Nat → Prop
  | _, [] => True
  | t, c :: cs => c < 256 ∧ t % 456 + c ≤ 456 ∧ Aligned (t + c) cs

instance instDecidableAligned : ∀ (t : Nat) (cs : List Nat), Decidable (Aligned t cs)
  | _, [] => isTrue trivial
  | t, c :: cs =>
    have := instDecidableAligned (t + c) cs
    (inferInstance : Decidable (c < 256 ∧ t % 456 + c ≤ 456 ∧ Aligned (t + c) cs))

/-- The constant `MAX_CYCLES`. -/
def MAX_CYCLES : Nat := 70221

/-- How a run of the loop of `gb_run` ends: the loop is left, in machine `m`, with the
local `cycles` at `cycles` (and at `before` when its last iteration began); or a call of
`z80_execute` does not return; or the bound on the number of iterations is reached. -/
inductive RunResult
  | stopped (m : Machine) (before cycles : Nat)
  | stuck (m : Machine)
  | unfinished (m : Machine)

/-- The loop `while(cycles < bound) { .. }` of `gb_run`, for at most `fuel` tests of its
condition, each call of `z80_execute` being allowed `zfuel` passes of its own loop.
`cycles` is a `uint32_t`; `before` records its value at the start of the last iteration
and is not a variable of the source. -/
def gb_run_loop (bound zfuel : Nat) : Nat → Machine → Nat → Nat → RunResult
  | 0, s, _, _ => .unfinished s
  | fuel + 1, s, before, cycles =>
    if cycles < bound then
      match z80_execute zfuel s with
      | .returned m t =>
        gb_run_loop bound zfuel fuel (gb_check_intrs (gb_update m t)) cycles
          ((cycles + t) % 2 ^ 32)
      | .spins m => .stuck m
      | .unfinished m => .stuck m
    else .stopped s before cycles

/-- The function `gb_run`. -/
def gb_run (zfuel fuel : Nat) (s : Machine) : RunResult :=
  gb_run_loop MAX_CYCLES zfuel fuel s 0 0

/-! ## The tile rasteriser (`gb.c`)

The frame buffer `VRAM_A` belongs to the host and `SCREEN_WIDTH` and `RGB15` come from
its library: a store is kept as its row, its column and the arguments of `RGB15`. -/

/-- The macro `BITVAL(a, n)`, that is `!!((a) & BIT(n))`. -/
def BITVAL (a n : Nat) : Nat := if a &&& (1 <<< n) ≠ 0 then 1 else 0

/-- A value `RGB15(r, g, b)`. -/
structure RGB15 where
  r : Nat
  g : Nat
  b : Nat
  deriving DecidableEq

/-- The store `VRAM_A[row * SCREEN_WIDTH + col] = colour`. -/
structure Pixel where
  row : Nat
  col : Nat
  colour : RGB15
  deriving DecidableEq

/-- The function `gb_get_color`; it does not read its parameter `palette`. -/
def gb_get_color (color _palette : Nat) : RGB15 :=
  if color = 0 then { r := 31, g := 31, b := 31 }
  else if color = 1 then { r := 25, g := 25, b := 25 }
  else if color = 2 then { r := 15, g := 15, b := 15 }
  else { r := 0, g := 0, b := 0 }

/-- The function `gb_render_tile`: the stores of its loop `for(i = 7; i >= 0; --i)`, in
order. The store is to `VRAM_A[(23+y)*SCREEN_WIDTH + x + (7 - i) + 47]`. -/
def gb_render_tile (s : Machine) (x y tile0 tile1 : Nat) : List Pixel :=
  [7, 6, 5, 4, 3, 2, 1, 0].map fun i =>
    { row := 23 + y, col := x + (7 - i) + 47,
      colour :=
        gb_get_color (((BITVAL tile1 i <<< 1) ||| BITVAL tile0 i) % 256)
          (s.z80_memory 0xff47) }

/-- The locals of one iteration of the loop of `gb_render_tiles`: `x`, `y`, the address
of the map byte, `index`, the arguments of the two calls of `GET8` that read the tile
row, and the two bytes read. -/
structure TileFetch where
  x : Nat
  y : Nat
  map_addr : Nat
  index : Nat
  addr0 : Nat
  addr1 : Nat
  tile0 : Nat
  tile1 : Nat

/-- The local `use_window` of `gb_render_tiles`. -/
def use_window (s : Machine) : Nat :=
  if TESTBIT (s.z80_memory 0xff40) 5 ≠ 0 ∧ s.z80_memory 0xff4a ≤ s.z80_memory 0xff44 then 1
  else 0

/-- The body of the loop `for(i = 0; i < 160; i += 8)` of `gb_render_tiles` up to the
call of `gb_render_tile`, with the locals set before the loop. `x`, `y` and `line` are
`uint8_t`, the addresses `uint16_t`; `(int8_t)m + 128` is `m + 128` for `m < 128` and
`m - 128` otherwise. -/
def gb_render_tiles_fetch (s : Machine) (i : Nat) : TileFetch :=
  let signed_data := if TESTBIT (s.z80_memory 0xff40) 4 = 0 then 1 else 0
  let tile_addr := if TESTBIT (s.z80_memory 0xff40) 4 = 0 then (0x8000 + 0x800) % 65536 else 0x8000
  let bg_addr :=
    if TESTBIT (s.z80_memory 0xff40) (if use_window s ≠ 0 then 6 else 3) ≠ 0 then 0x9c00
    else 0x9800
  let WXD := s.z80_memory 0xff4b
  let y :=
    if use_window s ≠ 0 then (s.z80_memory 0xff44 + 256 - s.z80_memory 0xff4a % 256) % 256
    else (s.z80_memory 0xff42 + s.z80_memory 0xff44) % 256
  let x :=
    if use_window s ≠ 0 ∧ i ≥ WXD then (i + 256 - WXD % 256) % 256
    else (i + s.z80_memory 0xff43) % 256
  let map_addr := (bg_addr + x / 8 + (y / 8 * 32)) % 65536
  let m := GET8 s map_addr % 256
  let index := if signed_data ≠ 0 then (if m < 128 then m + 128 else m - 128) else m
  let actual_addr := (tile_addr + index * 16) % 65536
  let line := ((y % 8) * 2) % 256
  { x := x, y := y, map_addr := map_addr, index := index,
    addr0 := (actual_addr + line) % 65536, addr1 := (actual_addr + line + 1) % 65536,
    tile0 := GET8 s ((actual_addr + line) % 65536),
    tile1 := GET8 s ((actual_addr + line + 1) % 65536) }

/-- The function `gb_render_tiles`: the stores to the frame buffer, in order. The loop
runs for `i = 0, 8, .., 152`. -/
def gb_render_tiles (s : Machine) : List Pixel :=
  ((List.range 20).map (fun k => 8 * k)).flatMap fun i =>
    gb_render_tile s i (gb_render_tiles_fetch s i).y (gb_render_tiles_fetch s i).tile0
      (gb_render_tiles_fetch s i).tile1

/-! ## Proof devices -/

/-- The DMA loop of `PUT8` with its self-call replaced by the plain store that the call
performs on an OAM address (`dma_fold_eq` proves them equal); used in proofs only. -/
def dmaCopy (src : Nat) (l : List Nat) (s : Machine) : Machine :=
  l.foldl (fun st i => setMem st (0xfe00 + i) (GET8 st ((src + i) % 65536))) s

/-- The state `t` agrees with `s` on what the DIV and LCD blocks of `gb_update` leave
alone of the timer: `timer_counter`, memory outside `DIV`, `IF`, `STAT` and `LY`, and
the timer bit of `IF`. -/
def TimerFrame (s t : Machine) : Prop :=
  t.timer_counter = s.timer_counter ∧
    (∀ a, a ≠ 0xff04 → a ≠ 0xff0f → a ≠ 0xff41 → a ≠ 0xff44 →
      t.z80_memory a = s.z80_memory a) ∧
    t.z80_memory 0xff0f &&& 4 = s.z80_memory 0xff0f &&& 4

/-- The state `t` agrees with `s` on what the clock and LCD blocks of `gb_update` leave
alone of the division register: `div_reg` and the byte `DIV`. -/
def DivFrame (s t : Machine) : Prop :=
  t.div_reg = s.div_reg ∧ t.z80_memory 0xff04 = s.z80_memory 0xff04

/-- The state `t` agrees with `s` on what the DIV and clock blocks of `gb_update`, and
`gb_set_lcd` with the LCD on, leave alone of the LCD: `scanline`, `LCDC`, `LY`, `LYC`
and the VBlank bit of `IF`. -/
def LcdFrame (s t : Machine) : Prop :=
  t.scanline = s.scanline ∧ t.z80_memory 0xff40 = s.z80_memory 0xff40 ∧
    t.z80_memory 0xff44 = s.z80_memory 0xff44 ∧ t.z80_memory 0xff45 = s.z80_memory 0xff45 ∧
    t.z80_memory 0xff0f &&& 1 = s.z80_memory 0xff0f &&& 1

/-- The byte `LY` after the statements `++LY; if(LY == 144) .. else if(LY > 153) LY = 0;`
of `gb_update`, from its value before. -/
def nextLY (ly : Nat) : Nat :=
  if (ly + 1) % 256 = 144 then 144 else if (ly + 1) % 256 > 153 then 0 else (ly + 1) % 256

/-- What one call `gb_update(c)` with the LCD on does to the pair of `scanline` and `LY`
(`gb_update_on` proves it); used in proofs only. -/
def lcdStep (p : Nat × Nat) (c : Nat) : Nat × Nat :=
  if p.1 + c ≥ 456 then (0, nextLY p.2) else (p.1 + c, p.2)

/-- The pair of `scanline` and `LY` after the calls `gb_update(c)` for the steps of a list. -/
def lcdRun (cs : List Nat) (p : Nat × Nat) : Nat × Nat := cs.foldl lcdStep p

/-- What the proof of the STAT policy needs of the byte `y` that the mode selection of
`gb_set_lcd` leaves in `STAT`, of its `next_mode` and of its `intr`, for the byte `x` that
was in `STAT` and the enable bit `en` of the mode; used in proofs only. -/
def StatBits (x y mode intr : Nat) (en : Bool) : Prop :=
  (y ||| 4) % 256 &&& 3 = mode ∧ y &&& 251 &&& 3 = mode ∧
    (y ||| 4) % 256 &&& 4 = 4 ∧ y &&& 251 &&& 4 = 0 ∧
    (y ||| 4) % 256 &&& 0xf8 = x &&& 0xf8 ∧ y &&& 251 &&& 0xf8 = x &&& 0xf8 ∧
    (intr ≠ 0 ↔ en = true) ∧ (TESTBIT ((y ||| 4) % 256) 6 ≠ 0 ↔ x.testBit 6 = true)

instance (x y mode intr : Nat) (en : Bool) : Decidable (StatBits x y mode intr en) := by
  unfold StatBits
  infer_instance

/-- The state `t` agrees with `s` on what `gb_update` leaves alone of the program: `PC`,
the ROM area and `IE`; used in proofs only. -/
def RomFrame (s t : Machine) : Prop :=
  t.PC = s.PC ∧ t.z80_memory 0xffff = s.z80_memory 0xffff ∧
    ∀ a, a < 0x8000 → t.z80_memory a = s.z80_memory a

/-- The local `actual` is `4 * k` for some `k ≤ n`. -/
def CycLe (y : Exec) (n : Nat) : Prop := ∃ k, k ≤ n ∧ y.actual = 4 * k

/-- The local `actual` is `4 * k` for some `k ≤ n` where a `case` ends. -/
def Outcome.cycLe (n : Nat) : Outcome → Prop
  | .done y => CycLe y n
  | .spin _ => True

/-! ## Bus lemmas -/

theorem setMem_same (s : Machine) (a v : Nat) : (setMem s a v).z80_memory a = v := by
  simp [setMem]

theorem setMem_other (s : Machine) (a v b : Nat) (h : b ≠ a) :
    (setMem s a v).z80_memory b = s.z80_memory b := by
  simp [setMem, h]

/-- Outside echo RAM, the restricted area and the four special registers, `PUT8` is the
final `else` branch, at every depth bound of at least 1. ROM addresses are included. -/
theorem PUT8F_else (n : Nat) (s : Machine) (a v : Nat)
    (h1 : ¬ (a ≥ 0xe000 ∧ a ≤ 0xfdff)) (h2 : ¬ (a ≥ 0xfea0 ∧ a < 0xfeff))
    (h3 : a ≠ 0xff04) (h4 : a ≠ 0xff07) (h5 : a ≠ 0xff44) (h6 : a ≠ 0xff46) :
    PUT8F (n + 1) s a v = setMem s a v := by
  rw [PUT8F]
  simp only [ite_self]
  rw [if_neg h1, if_neg h2, if_neg h3, if_neg h4, if_neg h5, if_neg h6]

theorem PUT8_else (s : Machine) (a v : Nat)
    (h1 : ¬ (a ≥ 0xe000 ∧ a ≤ 0xfdff)) (h2 : ¬ (a ≥ 0xfea0 ∧ a < 0xfeff))
    (h3 : a ≠ 0xff04) (h4 : a ≠ 0xff07) (h5 : a ≠ 0xff44) (h6 : a ≠ 0xff46) :
    PUT8 s a v = setMem s a v :=
  PUT8F_else 1 s a v h1 h2 h3 h4 h5 h6

theorem PUT8_plain (s : Machine) (a v : Nat) (h : plainStore a) : PUT8 s a v = setMem s a v := by
  obtain ⟨_, _, h1, h2, h3, h4, h5, h6⟩ := h
  exact PUT8_else s a v (by omega) (by omega) h3 h4 h5 h6

/-- The writes of the DMA loop land in OAM, where `PUT8` is a plain store. -/
theorem PUT8F_oam (n : Nat) (s : Machine) (i v : Nat) (hi : i < 0xa0) :
    PUT8F (n + 1) s ((0xfe00 + i) % 65536) v = setMem s (0xfe00 + i) v := by
  have e : (0xfe00 + i) % 65536 = 0xfe00 + i := by omega
  rw [e]
  exact PUT8F_else n s _ v (by omega) (by omega) (by omega) (by omega) (by omega) (by omega)

theorem dma_fold_eq (n src : Nat) (l : List Nat) (hl : ∀ i ∈ l, i < 0xa0) (s : Machine) :
    l.foldl (fun st i => PUT8F (n + 1) st ((0xfe00 + i) % 65536) (GET8 st ((src + i) % 65536))) s
      = dmaCopy src l s := by
  induction l generalizing s with
  | nil => rfl
  | cons x xs ih =>
    simp only [List.foldl_cons, dmaCopy]
    rw [PUT8F_oam n s x _ (hl x (List.mem_cons_self x xs))]
    exact ih (fun i hi => hl i (List.mem_cons_of_mem x hi)) _

theorem PUT8F_dma_branch (n : Nat) (s : Machine) (v : Nat) :
    PUT8F (n + 1) s 0xff46 v =
      (List.range 0xa0).foldl (fun st i =>
        PUT8F n st ((0xfe00 + i) % 65536) (GET8 st (((v <<< 8) % 65536 + i) % 65536))) s := by
  rw [PUT8F]
  simp

theorem PUT8_dma_eq (s : Machine) (v : Nat) :
    PUT8 s 0xff46 v = dmaCopy ((v <<< 8) % 65536) (List.range 0xa0) s := by
  have hr : ∀ i ∈ List.range 0xa0, i < 0xa0 := fun i hi => List.mem_range.mp hi
  rw [PUT8, PUT8F_dma_branch 1, dma_fold_eq 0 _ _ hr]

/-- The depth bound of `PUT8` is immaterial from 2 on: `PUT8` is the C function. -/
theorem PUT8F_fuel (n : Nat) (s : Machine) (a v : Nat) : PUT8F (n + 2) s a v = PUT8 s a v := by
  have hr : ∀ i ∈ List.range 0xa0, i < 0xa0 := fun i hi => List.mem_range.mp hi
  by_cases h : a = 0xff46
  · subst h
    rw [PUT8_dma_eq, PUT8F_dma_branch (n + 1), dma_fold_eq n _ _ hr]
  · rw [PUT8]
    conv_lhs => rw [PUT8F]
    conv_rhs => rw [PUT8F]
    simp only [ite_self, if_neg h]

/-- State of memory after the first `k` iterations of the DMA loop, for a page-aligned
source: the first `k` bytes of OAM hold the source bytes as they were before the loop. -/
theorem dmaCopy_range (s : Machine) (hi k : Nat) (hhi : hi < 256) (hk : k ≤ 0xa0) (a : Nat) :
    (dmaCopy (hi * 256) (List.range k) s).z80_memory a =
      if 0xfe00 ≤ a ∧ a < 0xfe00 + k then s.z80_memory (hi * 256 + (a - 0xfe00))
      else s.z80_memory a := by
  induction k generalizing a with
  | zero =>
    have : ¬ (0xfe00 ≤ a ∧ a < 0xfe00 + 0) := by omega
    simp [dmaCopy, this]
  | succ k ih =>
    have hstep : dmaCopy (hi * 256) (List.range (k + 1)) s =
        setMem (dmaCopy (hi * 256) (List.range k) s) (0xfe00 + k)
          (GET8 (dmaCopy (hi * 256) (List.range k) s) ((hi * 256 + k) % 65536)) := by
      simp [dmaCopy, List.range_succ, List.foldl_append]
    have hsrc : (hi * 256 + k) % 65536 = hi * 256 + k := by omega
    rw [hstep, hsrc]
    by_cases ha : a = 0xfe00 + k
    · subst ha
      rw [setMem_same, GET8, ih (by omega)]
      have c1 : ¬ (0xfe00 ≤ hi * 256 + k ∧ hi * 256 + k < 0xfe00 + k) := by omega
      have c2 : 0xfe00 ≤ 0xfe00 + k ∧ 0xfe00 + k < 0xfe00 + (k + 1) := by omega
      have e3 : hi * 256 + (0xfe00 + k - 0xfe00) = hi * 256 + k := by omega
      rw [if_neg c1, if_pos c2, e3]
    · rw [setMem_other _ _ _ _ ha, ih (by omega)]
      by_cases hr : 0xfe00 ≤ a ∧ a < 0xfe00 + k
      · have c2 : 0xfe00 ≤ a ∧ a < 0xfe00 + (k + 1) := by omega
        rw [if_pos hr, if_pos c2]
      · have c2 : ¬ (0xfe00 ≤ a ∧ a < 0xfe00 + (k + 1)) := by omega
        rw [if_neg hr, if_neg c2]

/-! ## Memory bus: claims -/

/-- C1 (fails on the code): a write to a ROM address is stored. `PUT8(0x4000, 0xab)` on
zeroed memory leaves `0xab` at `0x4000`, where the byte was `0` before: the empty
`if(addr < 0x8000) { }` is not chained to the rest of the dispatch. -/
theorem PUT8_rom_is_written :
    GET8 zeroMachine 0x4000 = 0 ∧ GET8 (PUT8 zeroMachine 0x4000 0xab) 0x4000 = 0xab := by
  decide

/-- C2: for every address `a` of echo RAM, `0xE000..0xFDFF`, and every byte `v`, after
`PUT8(a, v)` both `GET8(a)` and `GET8(a - 0x2000)` are `v`. -/
theorem PUT8_echo (s : Machine) (a v : Nat) (h1 : 0xe000 ≤ a) (h2 : a ≤ 0xfdff) :
    GET8 (PUT8 s a v) a = v ∧ GET8 (PUT8 s a v) (a - 0x2000) = v := by
  have h : a ≥ 0xe000 ∧ a ≤ 0xfdff := ⟨h1, h2⟩
  have hne : a ≠ a - 0x2000 := by omega
  rw [PUT8, PUT8F]
  simp only [ite_self, if_pos h, GET8]
  exact ⟨by rw [setMem_other _ _ _ _ hne, setMem_same], setMem_same _ _ _⟩

theorem PUT8_echo_witness :
    GET8 (PUT8 zeroMachine 0xe000 0xab) 0xe000 = 0xab ∧
      GET8 (PUT8 zeroMachine 0xe000 0xab) (0xe000 - 0x2000) = 0xab :=
  PUT8_echo zeroMachine 0xe000 0xab (by decide) (by decide)

/-- C3: after `PUT8(0xFF46, hi)`, for every `i` in `0..159`, `GET8(0xFE00 + i)` is the
value `GET8((hi << 8) + i)` had before the write, for every byte `hi`, `0xFE` and `0xFF`
included. -/
theorem PUT8_dma (s : Machine) (hi i : Nat) (hhi : hi < 256) (hi160 : i < 160) :
    GET8 (PUT8 s 0xff46 hi) (0xfe00 + i) = GET8 s ((hi <<< 8) + i) := by
  have e : (hi <<< 8) % 65536 = hi * 256 := by
    rw [Nat.shiftLeft_eq]; omega
  have e2 : hi <<< 8 = hi * 256 := by rw [Nat.shiftLeft_eq]
  rw [PUT8_dma_eq, e, e2, GET8, GET8, dmaCopy_range s hi 0xa0 hhi (le_refl _)]
  have c : 0xfe00 ≤ 0xfe00 + i ∧ 0xfe00 + i < 0xfe00 + 0xa0 := by omega
  have e3 : hi * 256 + (0xfe00 + i - 0xfe00) = hi * 256 + i := by omega
  rw [if_pos c, e3]

theorem PUT8_dma_witness :
    GET8 (PUT8 (setMem zeroMachine 0xc005 7) 0xff46 0xc0) (0xfe00 + 5) =
      GET8 (setMem zeroMachine 0xc005 7) ((0xc0 <<< 8) + 5) :=
  PUT8_dma (setMem zeroMachine 0xc005 7) 0xc0 5 (by decide) (by decide)

/-- C4: for `a` either `0xFF04` (DIV) or `0xFF44` (LY) and every byte `v`, after
`PUT8(a, v)` the byte read back at `a` is `0`, whatever it held before. -/
theorem PUT8_div_ly_reset (s : Machine) (a v : Nat) (h : a = 0xff04 ∨ a = 0xff44) :
    GET8 (PUT8 s a v) a = 0 := by
  rcases h with h | h <;> subst h <;> rw [PUT8, PUT8F] <;> simp [GET8, setMem]

theorem PUT8_div_ly_reset_witness :
    GET8 (PUT8 (setMem zeroMachine 0xff44 0x90) 0xff44 0x55) 0xff44 = 0 :=
  PUT8_div_ly_reset (setMem zeroMachine 0xff44 0x90) 0xff44 0x55 (Or.inr rfl)

set_option maxRecDepth 100000 in
/-- C5 (fails on the code): `PUT16` stores the high byte first. After
`PUT16(0xc000, 0x1234)` on zeroed memory the byte at `0xc000` is `0x12`, the byte at
`0xc001` is `0x34`, and `GET16(0xc000)` reads `0x3412`; likewise the opcode
`LD (0xC000),SP` with `SP = 0x1234` returns and leaves `GET16(0xC000) == 0x3412`. -/
theorem PUT16_stores_high_byte_first :
    GET8 (PUT16 zeroMachine 0xc000 0x1234) 0xc000 = 0x12 ∧
      GET8 (PUT16 zeroMachine 0xc000 0x1234) 0xc001 = 0x34 ∧
      GET16 (PUT16 zeroMachine 0xc000 0x1234) 0xc000 = 0x3412 ∧
      (z80_execute 1 ldSPMachine).isReturned = true ∧
      (z80_execute 1 ldSPMachine).machine.SP = 0x1234 ∧
      GET16 (z80_execute 1 ldSPMachine).machine 0xc000 = 0x3412 := by
  decide

/-- Low byte of a word, as written by `& 0xff`. -/
theorem and_ff_eq_mod (x : Nat) : x &&& 0xff = x % 256 :=
  Nat.and_pow_two_sub_one_eq_mod x 8

/-- A word is its high byte shifted left by 8, or-ed with its low byte. -/
theorem shl8_or_eq (hi lo : Nat) (hlo : lo < 256) : (hi <<< 8) ||| lo = hi * 256 + lo := by
  have h : 2 ^ 8 * hi + lo = 2 ^ 8 * hi ||| lo := Nat.mul_add_lt_is_or (by simpa using hlo) hi
  rw [Nat.shiftLeft_eq, Nat.mul_comm hi (2 ^ 8), ← h]

/-- With both stack slots plain stores, `PUSHWORD` is two stores below `SP`. -/
theorem PUSHWORD_plain (s : Machine) (w : Nat)
    (h1 : plainStore ((s.SP + 65535) % 65536)) (h2 : plainStore ((s.SP + 65534) % 65536)) :
    PUSHWORD s w =
      setMem (setMem { s with SP := (s.SP + 65534) % 65536 }
        ((s.SP + 65535) % 65536) ((w >>> 8) &&& 0xff))
        ((s.SP + 65534) % 65536) ((w >>> 0) &&& 0xff) := by
  have e : ((s.SP + 65535) % 65536 + 65535) % 65536 = (s.SP + 65534) % 65536 := by omega
  simp only [PUSHWORD]
  rw [PUT8_plain _ _ _ h1]
  simp only [setMem, e]
  rw [PUT8_plain _ _ _ h2]
  simp only [setMem]

/-- C6: push/pop round trip. For every 16-bit `w` and every `SP` whose two lower
neighbours (modulo `2^16`) are plain-store addresses, `PUSHWORD(w)` leaves the low byte
of `w` at `SP-2`, the high byte at `SP-1` and `SP` decreased by 2; a following
`POPWORD()` returns `w` and restores `SP`. -/
theorem PUSHWORD_POPWORD (s : Machine) (w : Nat) (hsp : s.SP < 65536) (hw : w < 65536)
    (h1 : plainStore ((s.SP + 65535) % 65536)) (h2 : plainStore ((s.SP + 65534) % 65536)) :
    GET8 (PUSHWORD s w) ((s.SP + 65534) % 65536) = w % 256 ∧
      GET8 (PUSHWORD s w) ((s.SP + 65535) % 65536) = w / 256 ∧
      (PUSHWORD s w).SP = (s.SP + 65534) % 65536 ∧
      (POPWORD (PUSHWORD s w)).2 = w ∧
      (POPWORD (PUSHWORD s w)).1.SP = s.SP := by
  have elo : (w >>> 0) &&& 0xff = w % 256 := by rw [and_ff_eq_mod]; rfl
  have ehi : (w >>> 8) &&& 0xff = w / 256 := by
    rw [and_ff_eq_mod, Nat.shiftRight_eq_div_pow]; omega
  have hne : (s.SP + 65535) % 65536 ≠ (s.SP + 65534) % 65536 := by omega
  have e1 : ((s.SP + 65534) % 65536 + 1) % 65536 = (s.SP + 65535) % 65536 := by omega
  have e2 : ((s.SP + 65534) % 65536 + 2) % 65536 = s.SP := by omega
  have hm1 : (PUSHWORD s w).z80_memory ((s.SP + 65534) % 65536) = w % 256 := by
    rw [PUSHWORD_plain s w h1 h2, setMem_same, elo]
  have hm2 : (PUSHWORD s w).z80_memory ((s.SP + 65535) % 65536) = w / 256 := by
    rw [PUSHWORD_plain s w h1 h2, setMem_other _ _ _ _ hne, setMem_same, ehi]
  have hsp2 : (PUSHWORD s w).SP = (s.SP + 65534) % 65536 := by
    rw [PUSHWORD_plain s w h1 h2]; rfl
  refine ⟨hm1, hm2, hsp2, ?_, ?_⟩
  · simp only [POPWORD, GET8, hsp2, e1, hm1, hm2]
    rw [Nat.shiftLeft_eq]
    have e3 : w / 256 * 2 ^ 8 % 65536 = (w / 256) <<< 8 := by
      rw [Nat.shiftLeft_eq]; omega
    rw [e3, shl8_or_eq _ _ (Nat.mod_lt _ (by norm_num))]
    omega
  · simp only [POPWORD, hsp2, e2]

theorem PUSHWORD_POPWORD_witness :
    GET8 (PUSHWORD { zeroMachine with SP := 0xfffe } 0x1234) ((0xfffe + 65534) % 65536) = 0x1234 % 256 ∧
      GET8 (PUSHWORD { zeroMachine with SP := 0xfffe } 0x1234) ((0xfffe + 65535) % 65536) = 0x1234 / 256 ∧
      (PUSHWORD { zeroMachine with SP := 0xfffe } 0x1234).SP = (0xfffe + 65534) % 65536 ∧
      (POPWORD (PUSHWORD { zeroMachine with SP := 0xfffe } 0x1234)).2 = 0x1234 ∧
      (POPWORD (PUSHWORD { zeroMachine with SP := 0xfffe } 0x1234)).1.SP = 0xfffe :=
  PUSHWORD_POPWORD { zeroMachine with SP := 0xfffe } 0x1234 (by decide) (by decide)
    (by decide) (by decide)

set_option maxRecDepth 100000 in
/-- The round trip through the decoder: from `SP = 0xFFFE`, `BC = 0x1234`, the opcodes
`PUSH BC` (`0xC5`) and `POP DE` (`0xD1`) both return and leave `DE = 0x1234`,
`SP = 0xFFFE`, and `0x34`, `0x12` at `0xFFFC`, `0xFFFD`. -/
theorem PUSH_BC_POP_DE_run :
    (z80_execute 1 pushPopMachine).isReturned = true ∧
      (z80_execute 1 (z80_execute 1 pushPopMachine).machine).isReturned = true ∧
      DE (z80_execute 1 (z80_execute 1 pushPopMachine).machine).machine = 0x1234 ∧
      (z80_execute 1 (z80_execute 1 pushPopMachine).machine).machine.SP = 0xfffe ∧
      GET8 (z80_execute 1 (z80_execute 1 pushPopMachine).machine).machine 0xfffc = 0x34 ∧
      GET8 (z80_execute 1 (z80_execute 1 pushPopMachine).machine).machine 0xfffd = 0x12 := by
  decide

/-! ## Arithmetic: claims -/

theorem mkF_bits (z n h c : Bool) :
    (mkF z n h c &&& ZERO ≠ 0 ↔ z = true) ∧ (mkF z n h c &&& SUBTRACTION ≠ 0 ↔ n = true) ∧
      (mkF z n h c &&& HALFCARRY ≠ 0 ↔ h = true) ∧ (mkF z n h c &&& CARRY ≠ 0 ↔ c = true) ∧
      mkF z n h c &&& 0x0f = 0 := by
  cases z <;> cases n <;> cases h <;> cases c <;> decide

theorem add_carry_iff (a b : Nat) (ha : a < 256) (hb : b < 256) :
    (a + b) % 256 < a ↔ 255 < a + b := by omega

theorem sub_carry_iff (a b : Nat) (ha : a < 256) (hb : b < 256) :
    a < (a + 256 - b) % 256 ↔ a < b := by omega

theorem sub_zero_iff (a b : Nat) (ha : a < 256) (hb : b < 256) :
    (a + 256 - b) % 256 = 0 ↔ a = b := by omega

theorem half_borrow_iff (x y : Nat) : ((x : Int) - (y : Int) < 0) ↔ x < y := by omega

set_option maxRecDepth 16384 in
/-- The opcodes `ADD A,r`, `ADD A,(HL)` and `ADD A,n` run the macro `ADD` on their operand. -/
theorem z80_case_ADD (x : Exec) :
    z80_case x 0x80 = .done (x |> Exec.on (ADD (reg .B)) |> CLK 1) ∧
    z80_case x 0x81 = .done (x |> Exec.on (ADD (reg .C)) |> CLK 1) ∧
    z80_case x 0x82 = .done (x |> Exec.on (ADD (reg .D)) |> CLK 1) ∧
    z80_case x 0x83 = .done (x |> Exec.on (ADD (reg .E)) |> CLK 1) ∧
    z80_case x 0x84 = .done (x |> Exec.on (ADD (reg .H)) |> CLK 1) ∧
    z80_case x 0x85 = .done (x |> Exec.on (ADD (reg .L)) |> CLK 1) ∧
    z80_case x 0x86 = .done (x |> Exec.on (ADD (mem8 (pair .HL))) |> CLK 2) ∧
    z80_case x 0x87 = .done (x |> Exec.on (ADD (reg .A)) |> CLK 2) ∧
    z80_case x 0xc6 = .done (x |> Exec.on (ADD (mem8 (postInc .PC))) |> CLK 2) :=
  ⟨rfl, rfl, rfl, rfl, rfl, rfl, rfl, rfl, rfl⟩

set_option maxRecDepth 16384 in
/-- The opcodes `SUB r`, `SUB (HL)` and `SUB n` run the macro `SUB` on their operand. -/
theorem z80_case_SUB (x : Exec) :
    z80_case x 0x90 = .done (x |> Exec.on (SUB (reg .B)) |> CLK 1) ∧
    z80_case x 0x91 = .done (x |> Exec.on (SUB (reg .C)) |> CLK 1) ∧
    z80_case x 0x92 = .done (x |> Exec.on (SUB (reg .D)) |> CLK 1) ∧
    z80_case x 0x93 = .done (x |> Exec.on (SUB (reg .E)) |> CLK 1) ∧
    z80_case x 0x94 = .done (x |> Exec.on (SUB (reg .H)) |> CLK 1) ∧
    z80_case x 0x95 = .done (x |> Exec.on (SUB (reg .L)) |> CLK 1) ∧
    z80_case x 0x96 = .done (x |> Exec.on (SUB (mem8 (pair .HL))) |> CLK 2) ∧
    z80_case x 0x97 = .done (x |> Exec.on (SUB (reg .A)) |> CLK 1) ∧
    z80_case x 0xd6 = .done (x |> Exec.on (SUB (mem8 (postInc .PC))) |> CLK 2) :=
  ⟨rfl, rfl, rfl, rfl, rfl, rfl, rfl, rfl, rfl⟩

set_option maxRecDepth 16384 in
/-- The opcodes `CP r`, `CP (HL)` and `CP n` run the macro `CP` on their operand. -/
theorem z80_case_CP (x : Exec) :
    z80_case x 0xb8 = .done (x |> Exec.on (CP (reg .B)) |> CLK 1) ∧
    z80_case x 0xb9 = .done (x |> Exec.on (CP (reg .C)) |> CLK 1) ∧
    z80_case x 0xba = .done (x |> Exec.on (CP (reg .D)) |> CLK 1) ∧
    z80_case x 0xbb = .done (x |> Exec.on (CP (reg .E)) |> CLK 1) ∧
    z80_case x 0xbc = .done (x |> Exec.on (CP (reg .H)) |> CLK 1) ∧
    z80_case x 0xbd = .done (x |> Exec.on (CP (reg .L)) |> CLK 1) ∧
    z80_case x 0xbe = .done (x |> Exec.on (CP (mem8 (pair .HL))) |> CLK 2) ∧
    z80_case x 0xbf = .done (x |> Exec.on (CP (reg .A)) |> CLK 1) ∧
    z80_case x 0xfe = .done (x |> Exec.on (CP (mem8 (postInc .PC))) |> CLK 2) :=
  ⟨rfl, rfl, rfl, rfl, rfl, rfl, rfl, rfl, rfl⟩

/-- C8: 8-bit `ADD A,b`. With `a` the accumulator and `b` the operand byte (a register,
`A` itself, `(HL)` or an immediate; `(inp s).2` is the state once the operand is read),
after `ADD`: `A == (a + b) mod 256`, and `F` has Z set iff the result is 0, N clear,
H set iff `(a & 0xF) + (b & 0xF) > 0xF`, C set iff `a + b > 0xFF`, and no other bit,
whatever `F` was before. -/
theorem ADD_flags (s : Machine) (inp : Operand) (ha : (inp s).2.A < 256)
    (hb : (inp s).1 < 256) :
    (ADD inp s).A = ((inp s).2.A + (inp s).1) % 256 ∧
      (ADD inp s).F =
        mkF (((inp s).2.A + (inp s).1) % 256 = 0) false
          (((inp s).2.A &&& 0xf) + ((inp s).1 &&& 0xf) > 0xf)
          ((inp s).2.A + (inp s).1 > 0xff) := by
  constructor
  · unfold ADD ADD8
    simp only [getR, setR, setT1, setT2, setT3, setS1]
    split_ifs <;> simp [SETFLAG, RESETFLAG, Nat.mod_eq_of_lt hb]
  · unfold ADD ADD8 mkF
    simp only [getR, setR, setT1, setT2, setT3, setS1, Nat.mod_eq_of_lt hb,
      add_carry_iff _ _ ha hb]
    split_ifs <;>
      simp_all [SETFLAG, RESETFLAG, ZERO, CARRY, HALFCARRY, SUBTRACTION] <;>
      first | decide | omega

theorem ADD_flags_witness :
    (ADD (reg .B) { zeroMachine with A := 0x3a, B := 0x0f }).A = (0x3a + 0x0f) % 256 ∧
      (ADD (reg .B) { zeroMachine with A := 0x3a, B := 0x0f }).F =
        mkF ((0x3a + 0x0f) % 256 = 0) false ((0x3a &&& 0xf) + (0x0f &&& 0xf) > 0xf)
          (0x3a + 0x0f > 0xff) :=
  ADD_flags { zeroMachine with A := 0x3a, B := 0x0f } (reg .B) (by decide) (by decide)

/-- The flags after the macro `SUB`, in closed form. -/
theorem SUB_F_closed (s : Machine) (inp : Operand) (ha : (inp s).2.A < 256)
    (hb : (inp s).1 < 256) :
    (SUB inp s).F =
      mkF (((inp s).2.A + 256 - (inp s).1) % 256 = 0) true
        (((inp s).2.A &&& 0xf) < ((inp s).1 &&& 0xf))
        ((inp s).2.A < (inp s).1) := by
  unfold SUB SUB8 mkF
  simp only [getR, setR, setT1, setT2, setT3, setS1, SETFLAG, Nat.mod_eq_of_lt hb,
    sub_carry_iff _ _ ha hb, half_borrow_iff]
  split_ifs <;>
    simp_all [ZERO, CARRY, HALFCARRY, SUBTRACTION] <;>
    first | decide | omega

/-- C9: `SUB b`. With `a` the accumulator and `b` the operand byte (a register, `A`
itself, `(HL)` or an immediate; `(inp s).2` is the state once the operand is read),
after `SUB`: `A == (a - b) mod 256`, and `F` has Z set iff the result is 0, N set, H set
iff `(a & 0xF) < (b & 0xF)`, C set iff `a < b`, and no other bit, whatever `F` was
before. -/
theorem SUB_flags (s : Machine) (inp : Operand) (ha : (inp s).2.A < 256)
    (hb : (inp s).1 < 256) :
    (SUB inp s).A = ((inp s).2.A + 256 - (inp s).1) % 256 ∧
      (SUB inp s).F =
        mkF (((inp s).2.A + 256 - (inp s).1) % 256 = 0) true
          (((inp s).2.A &&& 0xf) < ((inp s).1 &&& 0xf))
          ((inp s).2.A < (inp s).1) := by
  refine ⟨?_, SUB_F_closed s inp ha hb⟩
  unfold SUB SUB8
  simp only [getR, setR, setT1, setT2, setT3, setS1, SETFLAG, Nat.mod_eq_of_lt hb]
  split_ifs <;> rfl

theorem SUB_flags_witness :
    (SUB (reg .B) { zeroMachine with A := 0x00, B := 0x01 }).A = (0x00 + 256 - 0x01) % 256 ∧
      (SUB (reg .B) { zeroMachine with A := 0x00, B := 0x01 }).F =
        mkF ((0x00 + 256 - 0x01) % 256 = 0) true ((0x00 &&& 0xf) < (0x01 &&& 0xf))
          (0x00 < 0x01) :=
  SUB_flags { zeroMachine with A := 0x00, B := 0x01 } (reg .B) (by decide) (by decide)

set_option maxHeartbeats 1000000 in
/-- C10: `CP b`. With `t` the state once the operand byte `b` is read (for an immediate
operand `PC` has moved past it; for a register, `A` itself or `(HL)` it is the state
before), `CP` leaves `A` and every register other than `F`, and `IME` and memory, as
they are in `t`, and leaves in `F` exactly what `SUB b` leaves from the same state:
Z iff `a == b`, N set, H iff `(a & 0xF) < (b & 0xF)`, C iff `a < b`. -/
theorem CP_flags (s : Machine) (inp : Operand) (ha : (inp s).2.A < 256)
    (hb : (inp s).1 < 256) :
    (CP inp s).A = (inp s).2.A ∧ (CP inp s).B = (inp s).2.B ∧ (CP inp s).C = (inp s).2.C ∧
      (CP inp s).D = (inp s).2.D ∧ (CP inp s).E = (inp s).2.E ∧ (CP inp s).H = (inp s).2.H ∧
      (CP inp s).L = (inp s).2.L ∧ (CP inp s).SP = (inp s).2.SP ∧
      (CP inp s).PC = (inp s).2.PC ∧ (CP inp s).IME = (inp s).2.IME ∧
      (CP inp s).z80_memory = (inp s).2.z80_memory ∧
      (CP inp s).F = (SUB inp s).F ∧
      (CP inp s).F =
        mkF ((inp s).2.A = (inp s).1) true
          (((inp s).2.A &&& 0xf) < ((inp s).1 &&& 0xf))
          ((inp s).2.A < (inp s).1) := by
  have hF : (CP inp s).F =
      mkF (((inp s).2.A + 256 - (inp s).1) % 256 = 0) true
        (((inp s).2.A &&& 0xf) < ((inp s).1 &&& 0xf)) ((inp s).2.A < (inp s).1) := by
    unfold CP mkF
    simp only [getR, setR, setT1, setT2, setT3, setS1, SETFLAG, Nat.mod_eq_of_lt hb,
      sub_carry_iff _ _ ha hb, half_borrow_iff]
    split_ifs <;>
      simp_all [ZERO, CARRY, HALFCARRY, SUBTRACTION] <;>
      first | decide | omega
  refine ⟨?_, ?_, ?_, ?_, ?_, ?_, ?_, ?_, ?_, ?_, ?_, ?_, ?_⟩
  case refine_12 => rw [hF, SUB_F_closed s inp ha hb]
  case refine_13 =>
    rw [hF]
    simp only [sub_zero_iff _ _ ha hb]
  all_goals
    unfold CP
    simp only [getR, setR, setT1, setT2, setT3, setS1, SETFLAG]
    split_ifs <;> rfl

theorem CP_flags_witness :
    (CP (mem8 (postInc .PC)) { zeroMachine with A := 0x10 }).A = 0x10 ∧
      (CP (mem8 (postInc .PC)) { zeroMachine with A := 0x10 }).B = 0 ∧
      (CP (mem8 (postInc .PC)) { zeroMachine with A := 0x10 }).C = 0 ∧
      (CP (mem8 (postInc .PC)) { zeroMachine with A := 0x10 }).D = 0 ∧
      (CP (mem8 (postInc .PC)) { zeroMachine with A := 0x10 }).E = 0 ∧
      (CP (mem8 (postInc .PC)) { zeroMachine with A := 0x10 }).H = 0 ∧
      (CP (mem8 (postInc .PC)) { zeroMachine with A := 0x10 }).L = 0 ∧
      (CP (mem8 (postInc .PC)) { zeroMachine with A := 0x10 }).SP = 0 ∧
      (CP (mem8 (postInc .PC)) { zeroMachine with A := 0x10 }).PC = 1 ∧
      (CP (mem8 (postInc .PC)) { zeroMachine with A := 0x10 }).IME = 0 ∧
      (CP (mem8 (postInc .PC)) { zeroMachine with A := 0x10 }).z80_memory =
        zeroMachine.z80_memory ∧
      (CP (mem8 (postInc .PC)) { zeroMachine with A := 0x10 }).F =
        (SUB (mem8 (postInc .PC)) { zeroMachine with A := 0x10 }).F ∧
      (CP (mem8 (postInc .PC)) { zeroMachine with A := 0x10 }).F =
        mkF (0x10 = 0) true ((0x10 &&& 0xf) < (0 &&& 0xf)) (0x10 < 0) :=
  CP_flags { zeroMachine with A := 0x10 } (mem8 (postInc .PC)) (by decide) (by decide)

/-! ## The low nibble of `F`: lemmas -/

theorem lnz_mod (x : Nat) : (x % 256) &&& 15 = x &&& 15 := by
  have h : x % 256 = x &&& 255 := (Nat.and_pow_two_sub_one_eq_mod x 8).symm
  rw [h, Nat.and_assoc]
  rfl

theorem lnz_or (a f : Nat) (ha : a &&& 15 = 0) (hf : f &&& 15 = 0) :
    ((a ||| f) % 256) &&& 15 = 0 := by
  rw [lnz_mod, Nat.and_comm, Nat.and_or_distrib_left, Nat.and_comm 15 a, Nat.and_comm 15 f, ha, hf]
  rfl

theorem lnz_and (a m : Nat) (ha : a &&& 15 = 0) : (a &&& m) &&& 15 = 0 := by
  rw [Nat.and_assoc, Nat.and_comm m 15, ← Nat.and_assoc, ha, Nat.zero_and]

theorem lnz_xor (a f : Nat) (ha : a &&& 15 = 0) (hf : f &&& 15 = 0) :
    ((a ^^^ f) % 256) &&& 15 = 0 := by
  rw [lnz_mod, Nat.and_xor_distrib_right, ha, hf]
  rfl

theorem lnz_SETFLAG (s : Machine) (f : Nat) (h : lowNibbleZero s) (hf : f &&& 15 = 0) :
    lowNibbleZero (SETFLAG s f) := lnz_or _ _ h hf

theorem lnz_RESETFLAG (s : Machine) (f : Nat) (h : lowNibbleZero s) :
    lowNibbleZero (RESETFLAG s f) := lnz_and _ _ h

theorem lnz_FLIPFLAG (s : Machine) (f : Nat) (h : lowNibbleZero s) (hf : f &&& 15 = 0) :
    lowNibbleZero (FLIPFLAG s f) := lnz_xor _ _ h hf

theorem lnz_F0 (s : Machine) (h : s.F = 0) : lowNibbleZero s := by
  unfold lowNibbleZero; rw [h]; rfl

theorem lnz_of_F_eq {s t : Machine} (h : s.F = t.F) (ht : lowNibbleZero t) : lowNibbleZero s := by
  unfold lowNibbleZero at *; rw [h]; exact ht

theorem lnz_ite (c : Prop) [Decidable c] (a b : Machine) (ha : lowNibbleZero a)
    (hb : lowNibbleZero b) : lowNibbleZero (if c then a else b) := by
  split <;> assumption

theorem setR_F (s : Machine) (r : Reg8) (v : Nat) (hr : r ≠ .F) : (setR s r v).F = s.F := by
  cases r <;> first | rfl | exact absurd rfl hr

theorem setRR_F (s : Machine) (r : Reg16) (v : Nat) (hr : r ≠ .AF) : (setRR s r v).F = s.F := by
  cases r <;> first | rfl | exact absurd rfl hr

theorem lnz_ADD8 (out : Reg8) (inp : Operand) (s : Machine) (hr : out ≠ .F) :
    lowNibbleZero (ADD8 out inp s) := by
  unfold ADD8
  apply lnz_RESETFLAG
  refine lnz_ite _ _ _ (lnz_SETFLAG _ _ ?_ rfl) ?_ <;>
  refine lnz_ite _ _ _ (lnz_SETFLAG _ _ ?_ rfl) ?_ <;>
  refine lnz_ite _ _ _ (lnz_SETFLAG _ _ ?_ rfl) ?_ <;>
  exact lnz_F0 _ (by rw [setR_F _ _ _ hr]; rfl)

theorem gb_set_clock_F (s : Machine) : (gb_set_clock s).F = s.F := by
  unfold gb_set_clock
  split <;> rfl

theorem foldl_F {α : Type} (f : Machine → α → Machine) (hf : ∀ st i, (f st i).F = st.F)
    (l : List α) (s : Machine) : (l.foldl f s).F = s.F := by
  induction l generalizing s with
  | nil => rfl
  | cons x xs ih => rw [List.foldl_cons, ih, hf]

theorem PUT8F_F (n : Nat) (s : Machine) (a v : Nat) : (PUT8F n s a v).F = s.F := by
  induction n generalizing s a v with
  | zero => rfl
  | succ n ih =>
    rw [PUT8F]
    simp only [ite_self]
    split_ifs
    · rfl
    · rfl
    · rfl
    · exact gb_set_clock_F _
    · rfl
    · rfl
    · exact foldl_F _ (fun st i => ih st _ _) _ _
    · rfl

theorem PUT8_F (s : Machine) (a v : Nat) : (PUT8 s a v).F = s.F := PUT8F_F 2 s a v

theorem PUT16_F (s : Machine) (a v : Nat) : (PUT16 s a v).F = s.F := by
  simp only [PUT16, PUT8_F]

theorem PUSHWORD_F (s : Machine) (w : Nat) : (PUSHWORD s w).F = s.F := by
  simp only [PUSHWORD, PUT8_F]

theorem POPWORD_F (s : Machine) : (POPWORD s).1.F = s.F := rfl

theorem quiet_reg (r : Reg8) : QuietF (reg r) := fun _ => rfl
theorem quiet_pair (r : Reg16) : QuietF (pair r) := fun _ => rfl
theorem quiet_lit (n : Nat) : QuietF (lit n) := fun _ => rfl
theorem quiet_tmp3 : QuietF tmp3 := fun _ => rfl
theorem quiet_postInc (r : Reg16) (hr : r ≠ .AF) : QuietF (postInc r) :=
  fun s => setRR_F s r _ hr
theorem quiet_postDec (r : Reg16) (hr : r ≠ .AF) : QuietF (postDec r) :=
  fun s => setRR_F s r _ hr
theorem quiet_mem8 (a : Operand) (ha : QuietF a) : QuietF (mem8 a) := fun s => ha s
theorem quiet_mem16 (a : Operand) (ha : QuietF a) : QuietF (mem16 a) := fun s => ha s
theorem quiet_plus (n : Nat) (a : Operand) (ha : QuietF a) : QuietF (plus n a) := fun s => ha s
theorem quiet_plusInt8 (a b : Operand) (ha : QuietF a) (hb : QuietF b) :
    QuietF (plusInt8 a b) := fun s => (hb (a s).2).trans (ha s)
theorem quiet_withCarry (a : Operand) (ha : QuietF a) : QuietF (withCarry a) := fun s => ha s

theorem lnz_quiet {inp : Operand} (hq : QuietF inp) {s : Machine} (h : lowNibbleZero s) :
    lowNibbleZero (inp s).2 := lnz_of_F_eq (hq s) h

theorem lnz_ADD (inp : Operand) (s : Machine) : lowNibbleZero (ADD inp s) :=
  lnz_ADD8 .A inp s (by decide)

theorem lnz_ADC (inp : Operand) (s : Machine) : lowNibbleZero (ADC inp s) := lnz_ADD _ s

theorem ite_flag_low (c : Prop) [Decidable c] (f : Nat) (hf : f &&& 15 = 0) :
    (if c then f else 0) &&& 15 = 0 := by
  split
  · exact hf
  · rfl

theorem ite_low (c : Prop) [Decidable c] (a b : Nat) (ha : a &&& 15 = 0) (hb : b &&& 15 = 0) :
    (if c then a else b) &&& 15 = 0 := by
  split <;> assumption

theorem or_flags_low (a b : Nat) (ha : a &&& 15 = 0) (hb : b &&& 15 = 0) :
    (a ||| b) &&& 15 = 0 := by
  rw [Nat.and_comm, Nat.and_or_distrib_left, Nat.and_comm 15 a, Nat.and_comm 15 b, ha, hb]
  rfl

theorem FLAG_CARRY_low (s : Machine) : FLAG s CARRY &&& 15 = 0 := by
  unfold FLAG
  rw [Nat.and_assoc]
  exact Nat.and_zero _

theorem CADD_low (a b : Nat) : CADD a b &&& 15 = 0 := by
  unfold CADD
  apply Nat.eq_of_testBit_eq
  intro i
  have h15 : (15 : Nat) = 2 ^ 4 - 1 := rfl
  have h256 : (0x0100 : Nat) = 2 ^ 8 := rfl
  rw [h15, h256]
  simp only [Nat.testBit_and, Nat.testBit_shiftRight, Nat.testBit_two_pow_sub_one,
    Nat.testBit_two_pow, Nat.zero_testBit]
  by_cases hi : i < 4
  · have : ¬ (8 = 4 + i) := by omega
    simp [this]
  · simp [hi]

theorem lnz_SUB8 (out : Reg8) (inp : Operand) (s : Machine) (hr : out ≠ .F) :
    lowNibbleZero (SUB8 out inp s) := by
  unfold SUB8
  refine lnz_ite _ _ _ (lnz_SETFLAG _ _ ?_ rfl) ?_ <;>
  exact lnz_SETFLAG _ _ (lnz_SETFLAG _ _ (lnz_SETFLAG _ _
      (lnz_F0 _ (by rw [setR_F _ _ _ hr]; rfl)) rfl) (ite_flag_low _ _ rfl)) (ite_flag_low _ _ rfl)

theorem lnz_SUB (inp : Operand) (s : Machine) : lowNibbleZero (SUB inp s) :=
  lnz_SUB8 .A inp s (by decide)

theorem lnz_SBC (inp : Operand) (s : Machine) : lowNibbleZero (SBC inp s) :=
  lnz_SUB8 .A _ s (by decide)

theorem lnz_CP (inp : Operand) (s : Machine) : lowNibbleZero (CP inp s) := by
  unfold CP
  refine lnz_of_F_eq rfl (lnz_ite _ _ _ (lnz_SETFLAG _ _ ?_ rfl) ?_) <;>
  exact lnz_SETFLAG _ _ (lnz_SETFLAG _ _ (lnz_SETFLAG _ _
      (lnz_F0 _ rfl) rfl) (ite_flag_low _ _ rfl)) (ite_flag_low _ _ rfl)

theorem lnz_setR_F (s : Machine) (v : Nat) (hv : v &&& 15 = 0) :
    lowNibbleZero (setR s .F v) := hv

theorem lnz_AND (inp : Operand) (s : Machine) : lowNibbleZero (AND inp s) := by
  unfold AND
  exact lnz_setR_F _ _ (or_flags_low _ _ rfl (ite_low _ _ _ rfl rfl))

theorem lnz_OR (inp : Operand) (s : Machine) : lowNibbleZero (OR inp s) := by
  unfold OR
  exact lnz_setR_F _ _ (ite_low _ _ _ rfl rfl)

theorem lnz_XOR (inp : Operand) (s : Machine) (hq : QuietF inp) (h : lowNibbleZero s) :
    lowNibbleZero (XOR inp s) := by
  unfold XOR
  exact lnz_SETFLAG _ _ (lnz_of_F_eq rfl (lnz_quiet hq h)) (ite_flag_low _ _ rfl)

theorem lnz_LD (out : Reg8) (inp : Operand) (s : Machine) (hr : out ≠ .F) (hq : QuietF inp)
    (h : lowNibbleZero s) : lowNibbleZero (LD out inp s) :=
  lnz_of_F_eq (setR_F _ _ _ hr) (lnz_quiet hq h)

theorem lnz_LD16 (out : Reg16) (inp : Operand) (s : Machine) (hr : out ≠ .AF) (hq : QuietF inp)
    (h : lowNibbleZero s) : lowNibbleZero (LD16 out inp s) :=
  lnz_of_F_eq (setRR_F _ _ _ hr) (lnz_quiet hq h)

theorem lnz_LDMEMIN (out : Reg8) (mem : Operand) (s : Machine) (hr : out ≠ .F)
    (hq : QuietF mem) (h : lowNibbleZero s) : lowNibbleZero (LDMEMIN out mem s) :=
  lnz_of_F_eq (setR_F _ _ _ hr) (lnz_quiet hq h)

theorem lnz_LDMEMOUT (mem inp : Operand) (s : Machine) (hm : QuietF mem) (hq : QuietF inp)
    (h : lowNibbleZero s) : lowNibbleZero (LDMEMOUT mem inp s) :=
  lnz_of_F_eq (PUT8_F _ _ _) (lnz_quiet hq (lnz_quiet hm h))

theorem lnz_SCF (s : Machine) (h : lowNibbleZero s) : lowNibbleZero (SCF s) :=
  lnz_SETFLAG _ _ (lnz_RESETFLAG _ _ h) rfl

theorem lnz_RLCA (s : Machine) (h : lowNibbleZero s) : lowNibbleZero (RLCA s) := by
  unfold RLCA
  exact lnz_SETFLAG _ _ (lnz_RESETFLAG _ _ (lnz_of_F_eq rfl h))
    (or_flags_low _ _ (ite_low _ _ _ rfl rfl) (ite_low _ _ _ rfl rfl))

theorem lnz_PUT8 (s : Machine) (a v : Nat) (h : lowNibbleZero s) : lowNibbleZero (PUT8 s a v) :=
  lnz_of_F_eq (PUT8_F _ _ _) h

theorem lnz_PUT16 (s : Machine) (a v : Nat) (h : lowNibbleZero s) :
    lowNibbleZero (PUT16 s a v) :=
  lnz_of_F_eq (PUT16_F _ _ _) h

theorem lnz_CLK (n : Nat) (x : Exec) (h : lowNibbleZero x.m) : lowNibbleZero (CLK n x).m := h

theorem lnz_on (f : Machine → Machine) (x : Exec) (h : lowNibbleZero (f x.m)) :
    lowNibbleZero (Exec.on f x).m := h

theorem lnz_INC16 (r : Reg16) (x : Exec) (hr : r ≠ .AF) (h : lowNibbleZero x.m) :
    lowNibbleZero (INC16 r x).m :=
  lnz_of_F_eq (setRR_F _ _ _ hr) h

theorem lnz_DEC16 (r : Reg16) (x : Exec) (hr : r ≠ .AF) (h : lowNibbleZero x.m) :
    lowNibbleZero (DEC16 r x).m :=
  lnz_of_F_eq (setRR_F _ _ _ hr) h

theorem lnz_ADD16 (r : Reg16) (inp : Operand) (x : Exec) (hr : r ≠ .AF)
    (h : lowNibbleZero x.m) : lowNibbleZero (ADD16 r inp x).m := by
  unfold ADD16
  refine lnz_of_F_eq (setRR_F _ _ _ hr) ?_
  refine lnz_ite _ _ _ (lnz_SETFLAG _ _ ?_ rfl) (lnz_RESETFLAG _ _ ?_) <;>
  exact lnz_ite _ _ _ (lnz_SETFLAG _ _ (lnz_RESETFLAG _ _ h) rfl)
    (lnz_RESETFLAG _ _ (lnz_RESETFLAG _ _ h))

theorem lnz_BIT (b : Nat) (r : Reg8) (x : Exec) (h : lowNibbleZero x.m) :
    lowNibbleZero (BIT b r x).m := by
  unfold BIT
  exact lnz_RESETFLAG _ _ (lnz_SETFLAG _ _
    (lnz_ite _ _ _ (lnz_RESETFLAG _ _ h) (lnz_SETFLAG _ _ h rfl)) rfl)

theorem lnz_RES (b : Nat) (r : Reg8) (x : Exec) (hr : r ≠ .F) (h : lowNibbleZero x.m) :
    lowNibbleZero (RES b r x).m :=
  lnz_of_F_eq (setR_F _ _ _ hr) h

theorem lnz_SET (b : Nat) (r : Reg8) (x : Exec) (hr : r ≠ .F) (h : lowNibbleZero x.m) :
    lowNibbleZero (SET b r x).m :=
  lnz_of_F_eq (setR_F _ _ _ hr) h

theorem lnz_SLA (r : Reg8) (x : Exec) (hr : r ≠ .F) : lowNibbleZero (SLA r x).m := by
  unfold SLA
  refine lnz_RESETFLAG _ _ (lnz_ite _ _ _ (lnz_SETFLAG _ _ ?_ rfl) ?_) <;>
  refine lnz_of_F_eq (setR_F _ _ _ hr) ?_ <;>
  exact lnz_ite _ _ _ (lnz_SETFLAG _ _ (lnz_F0 _ rfl) rfl) (lnz_F0 _ rfl)

theorem lnz_SWAP (r : Reg8) (x : Exec) (hr : r ≠ .F) (h : lowNibbleZero x.m) :
    lowNibbleZero (SWAP r x).m := by
  unfold SWAP
  refine lnz_RESETFLAG _ _ (lnz_of_F_eq (setR_F _ _ _ hr) ?_)
  exact lnz_ite _ _ _ (lnz_SETFLAG _ _ h rfl) h

theorem lnz_RL (r : Reg8) (x : Exec) : lowNibbleZero (RL r x).m := by
  unfold RL
  exact lnz_SETFLAG _ _ (lnz_F0 _ rfl)
    (or_flags_low _ _ (ite_low _ _ _ rfl rfl) (ite_low _ _ _ rfl rfl))

theorem lnz_DEC8 (r : Reg8) (x : Exec) : lowNibbleZero (DEC8 r x).m := by
  unfold DEC8
  refine lnz_SETFLAG _ _ (lnz_SETFLAG _ _ (lnz_SETFLAG _ _ ?_ rfl) (ite_flag_low _ _ rfl))
    (ite_flag_low _ _ rfl)
  exact FLAG_CARRY_low _

theorem lnz_CCF (x : Exec) (h : lowNibbleZero x.m) : lowNibbleZero (CCF x).m :=
  lnz_FLIPFLAG _ _ (lnz_RESETFLAG _ _ h) rfl

theorem lnz_CPL (x : Exec) (h : lowNibbleZero x.m) : lowNibbleZero (CPL x).m :=
  lnz_SETFLAG _ _ (lnz_of_F_eq rfl h) rfl

theorem lnz_DAA (x : Exec) (h : lowNibbleZero x.m) : lowNibbleZero (DAA x).m := by
  unfold DAA
  refine lnz_ite _ _ _ (lnz_SETFLAG _ _ (lnz_RESETFLAG _ _ ?_) rfl) (lnz_RESETFLAG _ _ ?_) <;>
  refine lnz_ite _ _ _ (lnz_SETFLAG _ _ (lnz_of_F_eq rfl ?_) rfl) (lnz_RESETFLAG _ _ ?_) <;>
  refine lnz_ite _ _ _ (lnz_of_F_eq rfl (lnz_SETFLAG _ _ (lnz_of_F_eq rfl h)
    (or_flags_low _ _ (FLAG_CARRY_low _) (CADD_low _ _)))) (lnz_of_F_eq rfl h)

theorem lnz_DI (x : Exec) (h : lowNibbleZero x.m) : lowNibbleZero (DI x).m := h
theorem lnz_EI (x : Exec) (h : lowNibbleZero x.m) : lowNibbleZero (EI x).m := h

theorem lnz_JP (p : Pred) (x : Exec) (h : lowNibbleZero x.m) : lowNibbleZero (JP p x).m := by
  unfold JP
  dsimp only
  split <;> exact h

theorem lnz_JR (p : Pred) (x : Exec) (h : lowNibbleZero x.m) : lowNibbleZero (JR p x).m := by
  unfold JR
  dsimp only
  split <;> exact h

theorem set_PC_F (s : Machine) (v : Nat) : ({ s with PC := v } : Machine).F = s.F := rfl

theorem CALL_F (p : Pred) (x : Exec) : (CALL p x).m.F = x.m.F := by
  by_cases hp : p x.m = true
  · have h1 : (CALL p x).m =
        { PUSHWORD x.m ((x.m.PC + 2) % 65536) with
          PC := GET16 (PUSHWORD x.m ((x.m.PC + 2) % 65536))
            (PUSHWORD x.m ((x.m.PC + 2) % 65536)).PC } := by
      unfold CALL
      simp only [hp, if_true]
      rfl
    rw [h1]
    exact (set_PC_F _ _).trans (PUSHWORD_F _ _)
  · have h1 : (CALL p x).m = { x.m with PC := (x.m.PC + 2) % 65536 } := by
      unfold CALL
      simp only [hp]
      rfl
    rw [h1]

theorem lnz_CALL (p : Pred) (x : Exec) (h : lowNibbleZero x.m) :
    lowNibbleZero (CALL p x).m :=
  lnz_of_F_eq (CALL_F p x) h

theorem lnz_RET (p : Pred) (x : Exec) (h : lowNibbleZero x.m) : lowNibbleZero (RET p x).m := by
  unfold RET
  dsimp only
  split <;> exact h

theorem RST_F (n : Nat) (x : Exec) : (RST n x).m.F = x.m.F := by
  have h1 : (RST n x).m = { PUSHWORD x.m x.m.PC with PC := n } := rfl
  rw [h1]
  exact (set_PC_F _ _).trans (PUSHWORD_F _ _)

theorem lnz_RST (n : Nat) (x : Exec) (h : lowNibbleZero x.m) : lowNibbleZero (RST n x).m :=
  lnz_of_F_eq (RST_F n x) h

theorem lnz_POP (r : Reg16) (x : Exec) (hr : r ≠ .AF) (h : lowNibbleZero x.m) :
    lowNibbleZero (POP r x).m :=
  lnz_of_F_eq (setRR_F _ _ _ hr) h

theorem PUSH_F (inp : Operand) (x : Exec) : (PUSH inp x).m.F = (inp x.m).2.F := by
  simp only [PUSH, CLK, PUSHWORD_F]

theorem lnz_PUSH (inp : Operand) (x : Exec) (hq : QuietF inp) (h : lowNibbleZero x.m) :
    lowNibbleZero (PUSH inp x).m :=
  lnz_of_F_eq (PUSH_F inp x) (lnz_quiet hq h)

theorem lnz_setA (s : Machine) (v : Nat) (h : lowNibbleZero s) :
    lowNibbleZero { s with A := v } := h

theorem lnz_setPC (s : Machine) (v : Nat) (h : lowNibbleZero s) :
    lowNibbleZero { s with PC := v } := h

theorem lnz_setIME (s : Machine) (v : Nat) (h : lowNibbleZero s) :
    lowNibbleZero { s with IME := v } := h

theorem lnz_setT3 (s : Machine) (v : Nat) (h : lowNibbleZero s) :
    lowNibbleZero { s with T3 := v } := h

theorem lnz_setT4 (s : Machine) (v : Nat) (h : lowNibbleZero s) :
    lowNibbleZero { s with T4 := v } := h

theorem lnz_setF (s : Machine) (v : Nat) (hv : v &&& 15 = 0) :
    lowNibbleZero { s with F := v } := hv

theorem good_ite (c : Prop) [Decidable c] (a b : Outcome) (ha : c → a.lowNibbleZero)
    (hb : ¬ c → b.lowNibbleZero) : (if c then a else b).lowNibbleZero := by
  split
  · exact ha ‹_›
  · exact hb ‹_›

theorem good_done (y : Exec) (h : lowNibbleZero y.m) : (Outcome.done y).lowNibbleZero := h
theorem good_spin (m : Machine) (h : lowNibbleZero m) : (Outcome.spin m).lowNibbleZero := h

theorem lnz_fetch (x : Exec) (h : lowNibbleZero x.m) : lowNibbleZero (fetch x).1.m := h

set_option maxRecDepth 16384 in
set_option maxHeartbeats 1000000 in
theorem z80_cb_case_lnz (x : Exec) (op : Nat) (hx : lowNibbleZero x.m) :
    (z80_cb_case x op).lowNibbleZero := by
  unfold z80_cb_case
  with_reducible repeat' first
    | refine good_ite _ _ _ (fun _ => ?_) (fun _ => ?_)
    | apply good_done
    | apply good_spin
    | exact hx
    | apply lnz_CLK
    | apply lnz_BIT
    | apply lnz_RES
    | apply lnz_SET
    | apply lnz_SLA
    | apply lnz_SWAP
    | apply lnz_RL
    | decide

theorem z80_cb_lnz (x : Exec) (hx : lowNibbleZero x.m) : (z80_cb (fetch x)).lowNibbleZero :=
  z80_cb_case_lnz _ _ (lnz_fetch x hx)

set_option maxRecDepth 16384 in
set_option maxHeartbeats 4000000 in
theorem z80_case_lnz (x : Exec) (op : Nat) (hx : lowNibbleZero x.m)
    (hop : ∀ k ∈ lowNibbleBreakers, op ≠ k) : (z80_case x op).lowNibbleZero := by
  unfold z80_case
  with_reducible repeat' first
    | refine good_ite _ _ _ (fun h => ?_) (fun _ => ?_)
    | apply good_done
    | apply good_spin
    | exact hx
    | apply z80_cb_lnz
    | apply lnz_CLK
    | apply lnz_on
    | apply lnz_ADD
    | apply lnz_ADC
    | apply lnz_SUB
    | apply lnz_SBC
    | apply lnz_AND
    | apply lnz_OR
    | apply lnz_CP
    | apply lnz_XOR
    | apply lnz_LD
    | apply lnz_LD16
    | apply lnz_LDMEMIN
    | apply lnz_LDMEMOUT
    | apply lnz_SCF
    | apply lnz_RLCA
    | apply lnz_PUT8
    | apply lnz_PUT16
    | apply lnz_INC16
    | apply lnz_DEC16
    | apply lnz_ADD16
    | apply lnz_DEC8
    | apply lnz_CCF
    | apply lnz_CPL
    | apply lnz_DAA
    | apply lnz_DI
    | apply lnz_EI
    | apply lnz_JP
    | apply lnz_JR
    | apply lnz_CALL
    | apply lnz_RET
    | apply lnz_RST
    | apply lnz_POP
    | apply lnz_PUSH
    | apply quiet_reg
    | apply quiet_pair
    | apply quiet_lit
    | apply quiet_tmp3
    | apply quiet_postInc
    | apply quiet_postDec
    | apply quiet_mem8
    | apply quiet_mem16
    | apply quiet_plus
    | apply quiet_plusInt8
    | apply lnz_quiet
    | apply lnz_ite
    | apply lnz_SETFLAG
    | apply lnz_setF
    | apply lnz_setA
    | apply lnz_setPC
    | apply lnz_setIME
    | apply lnz_setT3
    | apply lnz_setT4
    | decide
    | exact absurd h (hop _ (by decide))


/-! ## The low nibble of `F`: claims -/

theorem z80_step_lnz (x : Exec) (hx : lowNibbleZero x.m)
    (hop : ∀ k ∈ lowNibbleBreakers, (fetch x).2 ≠ k) : (z80_step x).lowNibbleZero :=
  z80_case_lnz _ _ (lnz_fetch x hx) hop

/-- A call of `z80_execute` that enters the outer `switch` on no `INC r8` and no `POP AF`
keeps the low nibble of `F` zero, however the call ends. -/
theorem z80_loop_lnz (fuel : Nat) (x : Exec) (hx : lowNibbleZero x.m)
    (hops : ∀ op ∈ z80_loop_ops fuel x, ∀ k ∈ lowNibbleBreakers, op ≠ k) :
    lowNibbleZero (z80_loop fuel x).machine := by
  induction fuel generalizing x with
  | zero => exact hx
  | succ n ih =>
    have hstep := z80_step_lnz x hx (hops _ (by simp [z80_loop_ops]))
    rw [z80_loop]
    rw [z80_loop_ops] at hops
    cases hs : z80_step x with
    | spin m =>
      rw [hs] at hstep
      exact hstep
    | done y =>
      rw [hs] at hstep hops
      by_cases hy : y.actual = 0
      · simp only [hy, if_true] at hops ⊢
        exact ih y hstep (fun op hop => hops op (List.mem_cons_of_mem _ hop))
      · simp only [hy, if_false]
        exact hstep

theorem Result.eq_returned (r : Result) (h : r.isReturned = true) :
    r = .returned r.machine r.cycles := by
  cases r with
  | returned m c => rfl
  | spins m => simp [Result.isReturned] at h
  | unfinished m => simp [Result.isReturned] at h

/-- C7 (as the code has it): in every state reached from the boot state, over any ROM
contents, by calls of `z80_execute` in which neither `POP AF` (`0xF1`) nor an `INC r8`
(`0x04, 0x0C, 0x14, 0x1C, 0x24, 0x2C, 0x3C`) is dispatched, the low 4 bits of `F` are
zero. -/
theorem F_low_nibble_zero (rom : Nat → Nat) (s : Machine)
    (h : ReachableAvoiding lowNibbleBreakers rom s) : s.F &&& 0x0f = 0 := by
  induction h with
  | boot =>
    have hb : (boot rom).F = 0xb0 := rfl
    rw [hb]
    decide
  | @call fuel s t cycles _ he hops ih =>
    have h2 : lowNibbleZero (z80_loop fuel { m := s, actual := 0 }).machine :=
      z80_loop_lnz fuel { m := s, actual := 0 } ih hops
    unfold z80_execute at he
    rw [he] at h2
    exact h2

set_option maxRecDepth 100000 in
theorem F_low_nibble_zero_witness :
    (z80_execute 1 (boot nopRom)).machine.F &&& 0x0f = 0 :=
  F_low_nibble_zero nopRom _
    (ReachableAvoiding.call 1 ReachableAvoiding.boot
      (Result.eq_returned (z80_execute 1 (boot nopRom)) (by decide)) (by decide))

set_option maxRecDepth 100000 in
/-- C7 (fails on the code): from the boot state on `popAFRom`, three calls of
`z80_execute` run `LD BC,0x00FF; PUSH BC; POP AF`, each returns, and the state reached
has `F == 0xFF`: `POP AF` stores the popped low byte in `F` unmasked. -/
theorem POP_AF_sets_low_nibble :
    Reachable popAFRom popAFRun ∧ popAFRun.F &&& 0x0f = 0x0f := by
  have none : ∀ (l : List Nat), ∀ op ∈ l, ∀ k ∈ ([] : List Nat), op ≠ k :=
    fun _ _ _ _ hk => absurd hk (List.not_mem_nil _)
  refine ⟨?_, by decide⟩
  exact ReachableAvoiding.call 1
    (ReachableAvoiding.call 1
      (ReachableAvoiding.call 1 ReachableAvoiding.boot
        (Result.eq_returned (z80_execute 1 (boot popAFRom)) (by decide)) (none _))
      (Result.eq_returned (z80_execute 1 (z80_execute 1 (boot popAFRom)).machine) (by decide))
      (none _))
    (Result.eq_returned
      (z80_execute 1 (z80_execute 1 (z80_execute 1 (boot popAFRom)).machine).machine)
      (by decide))
    (none _)

/-! ## Arithmetic through the decoder: evaluations -/

set_option maxRecDepth 100000 in
/-- C11 (fails on the code): `ADC A,B` (opcode `0x88`) with `A = 0x00`, `B = 0xFF` and the
carry flag set returns with `A == 0x00` and `F == 0x80`: only `Z` is set, while
`(a & 0xF) + (b & 0xF) + c = 0x10 > 0xF` and `a + b + c = 0x100 > 0xFF`, so `H` and `C`
had to be set. The operand `b + c` is truncated to 8 bits before the addition. -/
theorem ADC_loses_carry_in :
    (z80_execute 1
        (withProgram { zeroMachine with A := 0x00, B := 0xff, F := 0x10 } [0x88])).isReturned
        = true ∧
      (z80_execute 1
        (withProgram { zeroMachine with A := 0x00, B := 0xff, F := 0x10 } [0x88])).machine.A
        = 0x00 ∧
      (z80_execute 1
        (withProgram { zeroMachine with A := 0x00, B := 0xff, F := 0x10 } [0x88])).machine.F
        = 0x80 ∧
      (ADC (reg .B) { zeroMachine with A := 0x00, B := 0xff, F := 0x10 }).F = 0x80 := by
  decide

set_option maxRecDepth 100000 in
/-- C12 (fails on the code): `XOR B` (opcode `0xA8`) with `A = 0x01`, `B = 0x00` and
`F == 0xF0` before returns with `A == 0x01` and `F == 0xF0`, where the result is
non-zero and `F` had to be `0x00`: the macro only sets bits of `F`. -/
theorem XOR_keeps_stale_flags :
    (z80_execute 1
        (withProgram { zeroMachine with A := 0x01, B := 0x00, F := 0xf0 } [0xa8])).isReturned
        = true ∧
      (z80_execute 1
        (withProgram { zeroMachine with A := 0x01, B := 0x00, F := 0xf0 } [0xa8])).machine.A
        = 0x01 ∧
      (z80_execute 1
        (withProgram { zeroMachine with A := 0x01, B := 0x00, F := 0xf0 } [0xa8])).machine.F
        = 0xf0 ∧
      (XOR (reg .B) { zeroMachine with A := 0x01, B := 0x00, F := 0xf0 }).F = 0xf0 := by
  decide

set_option maxRecDepth 100000 in
/-- C13 (fails on the code): `INC B` (opcode `0x04`) with `B = 0x00` and `F == 0x10`
(carry set) returns with `B == 0x01` and `F == 0x01`: the carry flag is cleared, not
kept, and bit 0 of `F` is set. The saved carry in `T1` is overwritten by `ADD8`. -/
theorem INC_loses_carry :
    (z80_execute 1
        (withProgram { zeroMachine with B := 0x00, F := 0x10 } [0x04])).isReturned = true ∧
      (z80_execute 1
        (withProgram { zeroMachine with B := 0x00, F := 0x10 } [0x04])).machine.B = 0x01 ∧
      (z80_execute 1
        (withProgram { zeroMachine with B := 0x00, F := 0x10 } [0x04])).machine.F = 0x01 ∧
      FLAG (z80_execute 1
        (withProgram { zeroMachine with B := 0x00, F := 0x10 } [0x04])).machine CARRY = 0 := by
  decide

set_option maxRecDepth 100000 in
/-- C14 (fails on the code): `ADD HL,BC` (opcode `0x09`) with `HL = 0x0000`,
`BC = 0x0100` returns with `HL == 0x0100` and `H` set, where
`(h & 0x0FFF) + (r & 0x0FFF) = 0x0100`; with `HL = 0x0FFF`, `BC = 0x0001` it returns with
`HL == 0x1000` and `H` clear, where the sum of the low twelve bits is `0x1000`. -/
theorem ADD16_half_carry_wrong :
    (z80_execute 1
        (withProgram { zeroMachine with B := 0x01, C := 0x00 } [0x09])).isReturned = true ∧
      HL (z80_execute 1
        (withProgram { zeroMachine with B := 0x01, C := 0x00 } [0x09])).machine = 0x0100 ∧
      FLAG (z80_execute 1
        (withProgram { zeroMachine with B := 0x01, C := 0x00 } [0x09])).machine HALFCARRY
        ≠ 0 ∧
      (z80_execute 1
        (withProgram { zeroMachine with H := 0x0f, L := 0xff, B := 0x00, C := 0x01 }
          [0x09])).isReturned = true ∧
      HL (z80_execute 1
        (withProgram { zeroMachine with H := 0x0f, L := 0xff, B := 0x00, C := 0x01 }
          [0x09])).machine = 0x1000 ∧
      FLAG (z80_execute 1
        (withProgram { zeroMachine with H := 0x0f, L := 0xff, B := 0x00, C := 0x01 }
          [0x09])).machine HALFCARRY = 0 := by
  decide

set_option maxRecDepth 100000 in
/-- C16 (fails on the code): `SUB B; DAA` (opcodes `0x90`, `0x27`) with `A = 0x10`,
`B = 0x01`: both calls return, `SUB B` leaves `A == 0x0F` with `N` and `H` set, and
`DAA` then leaves `A == 0x15`, not the packed-BCD difference `0x09`. `DAA` never reads
the `N` flag. -/
theorem SUB_DAA_adds_six :
    isBCD 0x10 ∧ isBCD 0x01 ∧ bcdEncode ((bcdValue 0x10 - bcdValue 0x01) % 100) = 0x09 ∧
      (z80_execute 1
        (withProgram { zeroMachine with A := 0x10, B := 0x01 } [0x90, 0x27])).isReturned
        = true ∧
      (z80_execute 1
        (withProgram { zeroMachine with A := 0x10, B := 0x01 } [0x90, 0x27])).machine.A
        = 0x0f ∧
      (z80_execute 1 (z80_execute 1
        (withProgram { zeroMachine with A := 0x10, B := 0x01 } [0x90, 0x27])).machine).isReturned
        = true ∧
      (z80_execute 1 (z80_execute 1
        (withProgram { zeroMachine with A := 0x10, B := 0x01 } [0x90, 0x27])).machine).machine.A
        = 0x15 := by
  decide

set_option maxRecDepth 100000 in
/-- C18 (fails on the code): on the bytes `CB 30` (`SWAP B`) followed by `00` (`NOP`)
with `B = 0x12`, the inner `switch` has no `case 0x30`: no cycle is counted, the loop
of `z80_execute` goes on to the `NOP`, and the call returns 4 T-cycles with
`PC == 0x0103` and `B == 0x12` unchanged (one pass of the loop does not return). The
claim has `B == 0x21`, 8 T-cycles and `PC == 0x0102`. -/
theorem SWAP_B_missing :
    (z80_execute 1
        (withProgram { zeroMachine with B := 0x12 } [0xcb, 0x30, 0x00])).isReturned = false ∧
      (z80_execute 1
        (withProgram { zeroMachine with B := 0x12 } [0xcb, 0x30, 0x00])).machine.B = 0x12 ∧
      (z80_execute 2
        (withProgram { zeroMachine with B := 0x12 } [0xcb, 0x30, 0x00])).isReturned = true ∧
      (z80_execute 2
        (withProgram { zeroMachine with B := 0x12 } [0xcb, 0x30, 0x00])).cycles = 4 ∧
      (z80_execute 2
        (withProgram { zeroMachine with B := 0x12 } [0xcb, 0x30, 0x00])).machine.B = 0x12 ∧
      (z80_execute 2
        (withProgram { zeroMachine with B := 0x12 } [0xcb, 0x30, 0x00])).machine.PC = 0x0103 := by
  decide

set_option maxRecDepth 100000 in
/-- C20 (fails on the code): the unconditional `RET` (opcode `0xC9`) makes `z80_execute`
return 20 T-cycles, not 16 (here with `SP = 0xC000` and the return address `0x0200` on
the stack, which ends in `PC`). -/
theorem RET_returns_20 :
    (z80_execute 1 (setMem (setMem (withProgram { zeroMachine with SP := 0xc000 } [0xc9])
        0xc000 0x00) 0xc001 0x02)).cycles = 20 ∧
      (z80_execute 1 (setMem (setMem (withProgram { zeroMachine with SP := 0xc000 } [0xc9])
        0xc000 0x00) 0xc001 0x02)).isReturned = true ∧
      (z80_execute 1 (setMem (setMem (withProgram { zeroMachine with SP := 0xc000 } [0xc9])
        0xc000 0x00) 0xc001 0x02)).machine.PC = 0x0200 := by
  decide

/-! ## Control transfers -/

/-- One pass of the loop of `z80_execute` whose `case` reaches its `break`: the call
returns when the pass counted a cycle, and goes on otherwise. -/
theorem z80_execute_done (s : Machine) (fuel op : Nat) (y : Exec)
    (hop : GET8 s s.PC = op) (h : z80_case (fetch { m := s, actual := 0 }).1 op = .done y) :
    z80_execute (fuel + 1) s =
      if y.actual = 0 then z80_loop fuel y else .returned y.m y.actual := by
  have hs : z80_step { m := s, actual := 0 } = .done y := by
    unfold z80_step
    rw [show (fetch { m := s, actual := 0 }).2 = op from hop]
    exact h
  rw [z80_execute, z80_loop, hs]

set_option maxRecDepth 16384 in
/-- The sixteen conditional control transfers in the decoder. -/
theorem z80_case_cond (x : Exec) :
    (z80_case x 0x20 = .done (JR (flagClear ZERO) x) ∧
      z80_case x 0x28 = .done (JR (flagSet ZERO) x) ∧
      z80_case x 0x30 = .done (JR (flagClear CARRY) x) ∧
      z80_case x 0x38 = .done (JR (flagSet CARRY) x)) ∧
    (z80_case x 0xc2 = .done (JP (flagClear ZERO) x) ∧
      z80_case x 0xca = .done (JP (flagSet ZERO) x) ∧
      z80_case x 0xd2 = .done (JP (flagClear CARRY) x) ∧
      z80_case x 0xda = .done (JP (flagSet CARRY) x)) ∧
    (z80_case x 0xc4 = .done (CALL (flagClear ZERO) x) ∧
      z80_case x 0xcc = .done (CALL (flagSet ZERO) x) ∧
      z80_case x 0xd4 = .done (CALL (flagClear CARRY) x) ∧
      z80_case x 0xdc = .done (CALL (flagSet CARRY) x)) ∧
    (z80_case x 0xc0 = .done (RET (flagClear ZERO) x) ∧
      z80_case x 0xc8 = .done (RET (flagSet ZERO) x) ∧
      z80_case x 0xd0 = .done (RET (flagClear CARRY) x) ∧
      z80_case x 0xd8 = .done (RET (flagSet CARRY) x)) :=
  ⟨⟨rfl, rfl, rfl, rfl⟩, ⟨rfl, rfl, rfl, rfl⟩, ⟨rfl, rfl, rfl, rfl⟩, ⟨rfl, rfl, rfl, rfl⟩⟩

/-- The conditions of the decoder are those of the table; fetching the opcode does not
change them. -/
theorem cond_pred (s : Machine) (n : Nat) :
    (flagClear ZERO (fetch { m := s, actual := n }).1.m = true ↔ Cond.holds s .NZ) ∧
      (flagSet ZERO (fetch { m := s, actual := n }).1.m = true ↔ Cond.holds s .Z) ∧
      (flagClear CARRY (fetch { m := s, actual := n }).1.m = true ↔ Cond.holds s .NC) ∧
      (flagSet CARRY (fetch { m := s, actual := n }).1.m = true ↔ Cond.holds s .C) := by
  simp [flagClear, flagSet, Cond.holds, fetch, FLAG]

/-- What `JR(PRED)` does right after the fetch of its opcode in a call of `z80_execute`. -/
theorem JR_fetched (p : Pred) (s : Machine) :
    (p (fetch { m := s, actual := 0 }).1.m = true →
        (JR p (fetch { m := s, actual := 0 }).1).actual = 12) ∧
      (¬ p (fetch { m := s, actual := 0 }).1.m = true →
        JR p (fetch { m := s, actual := 0 }).1 =
          { m := { s with PC := (s.PC + 1 + 1) % 65536 }, actual := 8 }) := by
  constructor
  · intro h
    simp only [JR, h, if_true]
    rfl
  · intro h
    have h2 : p (fetch { m := s, actual := 0 }).1.m = false := by simpa using h
    have e : ∀ n : Nat, (n % 65536 + 2) % 65536 = (n + 2) % 65536 := fun n => by omega
    have e1 : ∀ n : Nat, (n % 65536 + 1) % 65536 = (n + 1) % 65536 := fun n => by omega
    simp only [JR, h2, Bool.false_eq_true, if_false]
    simp [CLK, fetch, setRR, e, e1]

/-- What `JP(PRED)` does right after the fetch of its opcode in a call of `z80_execute`. -/
theorem JP_fetched (p : Pred) (s : Machine) :
    (p (fetch { m := s, actual := 0 }).1.m = true →
        (JP p (fetch { m := s, actual := 0 }).1).actual = 16) ∧
      (¬ p (fetch { m := s, actual := 0 }).1.m = true →
        JP p (fetch { m := s, actual := 0 }).1 =
          { m := { s with PC := (s.PC + 1 + 2) % 65536 }, actual := 12 }) := by
  constructor
  · intro h
    simp only [JP, h, if_true]
    rfl
  · intro h
    have h2 : p (fetch { m := s, actual := 0 }).1.m = false := by simpa using h
    have e : ∀ n : Nat, (n % 65536 + 2) % 65536 = (n + 2) % 65536 := fun n => by omega
    have e1 : ∀ n : Nat, (n % 65536 + 1) % 65536 = (n + 1) % 65536 := fun n => by omega
    simp only [JP, h2, Bool.false_eq_true, if_false]
    simp [CLK, fetch, setRR, e, e1]

/-- What `CALL(PRED)` does right after the fetch of its opcode in a call of
`z80_execute`. -/
theorem CALL_fetched (p : Pred) (s : Machine) :
    (p (fetch { m := s, actual := 0 }).1.m = true →
        (CALL p (fetch { m := s, actual := 0 }).1).actual = 24) ∧
      (¬ p (fetch { m := s, actual := 0 }).1.m = true →
        CALL p (fetch { m := s, actual := 0 }).1 =
          { m := { s with PC := (s.PC + 1 + 2) % 65536 }, actual := 12 }) := by
  constructor
  · intro h
    simp only [CALL, h, if_true]
    rfl
  · intro h
    have h2 : p (fetch { m := s, actual := 0 }).1.m = false := by simpa using h
    have e : ∀ n : Nat, (n % 65536 + 2) % 65536 = (n + 2) % 65536 := fun n => by omega
    have e1 : ∀ n : Nat, (n % 65536 + 1) % 65536 = (n + 1) % 65536 := fun n => by omega
    simp only [CALL, h2, Bool.false_eq_true, if_false]
    simp [CLK, fetch, setRR, e, e1]

/-- What `RET(PRED)` does right after the fetch of its opcode in a call of `z80_execute`. -/
theorem RET_fetched (p : Pred) (s : Machine) :
    (p (fetch { m := s, actual := 0 }).1.m = true →
        (RET p (fetch { m := s, actual := 0 }).1).actual = 20) ∧
      (¬ p (fetch { m := s, actual := 0 }).1.m = true →
        RET p (fetch { m := s, actual := 0 }).1 =
          { m := { s with PC := (s.PC + 1 + 0) % 65536 }, actual := 8 }) := by
  constructor
  · intro h
    simp only [RET, h, if_true]
    rfl
  · intro h
    have h2 : p (fetch { m := s, actual := 0 }).1.m = false := by simpa using h
    simp only [RET, h2, Bool.false_eq_true, if_false]
    simp [CLK, fetch]

/-- A conditional control transfer in a call of `z80_execute`, from what its macro does
after the fetch. -/
theorem cond_run (s : Machine) (fuel op : Nat) (y : Exec) (p : Pred) (c : Cond)
    (len t u : Nat) (hop : GET8 s s.PC = op)
    (hcase : z80_case (fetch { m := s, actual := 0 }).1 op = .done y)
    (hp : p (fetch { m := s, actual := 0 }).1.m = true ↔ Cond.holds s c)
    (hf : (p (fetch { m := s, actual := 0 }).1.m = true → y.actual = t) ∧
      (¬ p (fetch { m := s, actual := 0 }).1.m = true →
        y = { m := { s with PC := (s.PC + 1 + len) % 65536 }, actual := u }))
    (ht : t ≠ 0) (hu : u ≠ 0) :
    (Cond.holds s c →
        (z80_execute (fuel + 1) s).isReturned = true ∧
          (z80_execute (fuel + 1) s).cycles = t) ∧
      (¬ Cond.holds s c →
        z80_execute (fuel + 1) s =
          .returned { s with PC := (s.PC + 1 + len) % 65536 } u) := by
  have hd := z80_execute_done s fuel op y hop hcase
  refine ⟨fun hc => ?_, fun hc => ?_⟩
  · have ha := hf.1 (hp.2 hc)
    rw [hd, if_neg (by rw [ha]; exact ht)]
    exact ⟨rfl, ha⟩
  · have hy := hf.2 (fun h => hc (hp.1 h))
    rw [hd, hy]
    exact if_neg hu

/-- C19: the conditional control transfers `JR cc`, `JP cc`, `CALL cc`, `RET cc` with `cc`
one of `NZ`, `Z`, `NC`, `C`. A call of `z80_execute` (of at least one pass) on such an
opcode returns; when the condition holds it returns 12, 16, 24, 20 T-cycles
respectively, and when it does not hold it returns 8, 12, 12, 8 T-cycles in the state
it started from with only `PC` changed, to just past the immediate operand: `SP`, memory
and every other register are as before. -/
theorem cond_transfer_cycles (e : CondTransfer) (he : e ∈ condTransfers) (s : Machine)
    (fuel : Nat) (hop : GET8 s s.PC = e.opcode) :
    (e.cc.holds s →
        (z80_execute (fuel + 1) s).isReturned = true ∧
          (z80_execute (fuel + 1) s).cycles = e.taken) ∧
      (¬ e.cc.holds s →
        z80_execute (fuel + 1) s =
          .returned { s with PC := (s.PC + 1 + e.immediate) % 65536 } e.untaken) := by
  have hx := z80_case_cond (fetch { m := s, actual := 0 }).1
  have hq := cond_pred s 0
  simp only [condTransfers, List.mem_cons, List.mem_singleton, List.not_mem_nil, or_false] at he
  rcases he with rfl | rfl | rfl | rfl | rfl | rfl | rfl | rfl | rfl | rfl | rfl | rfl | rfl |
    rfl | rfl | rfl
  · exact cond_run s fuel _ _ _ _ _ _ _ hop hx.1.1 hq.1 (JR_fetched _ s) (by decide) (by decide)
  · exact cond_run s fuel _ _ _ _ _ _ _ hop hx.1.2.1 hq.2.1 (JR_fetched _ s) (by decide)
      (by decide)
  · exact cond_run s fuel _ _ _ _ _ _ _ hop hx.1.2.2.1 hq.2.2.1 (JR_fetched _ s) (by decide)
      (by decide)
  · exact cond_run s fuel _ _ _ _ _ _ _ hop hx.1.2.2.2 hq.2.2.2 (JR_fetched _ s) (by decide)
      (by decide)
  · exact cond_run s fuel _ _ _ _ _ _ _ hop hx.2.1.1 hq.1 (JP_fetched _ s) (by decide)
      (by decide)
  · exact cond_run s fuel _ _ _ _ _ _ _ hop hx.2.1.2.1 hq.2.1 (JP_fetched _ s) (by decide)
      (by decide)
  · exact cond_run s fuel _ _ _ _ _ _ _ hop hx.2.1.2.2.1 hq.2.2.1 (JP_fetched _ s) (by decide)
      (by decide)
  · exact cond_run s fuel _ _ _ _ _ _ _ hop hx.2.1.2.2.2 hq.2.2.2 (JP_fetched _ s) (by decide)
      (by decide)
  · exact cond_run s fuel _ _ _ _ _ _ _ hop hx.2.2.1.1 hq.1 (CALL_fetched _ s) (by decide)
      (by decide)
  · exact cond_run s fuel _ _ _ _ _ _ _ hop hx.2.2.1.2.1 hq.2.1 (CALL_fetched _ s) (by decide)
      (by decide)
  · exact cond_run s fuel _ _ _ _ _ _ _ hop hx.2.2.1.2.2.1 hq.2.2.1 (CALL_fetched _ s)
      (by decide) (by decide)
  · exact cond_run s fuel _ _ _ _ _ _ _ hop hx.2.2.1.2.2.2 hq.2.2.2 (CALL_fetched _ s)
      (by decide) (by decide)
  · exact cond_run s fuel _ _ _ _ _ _ _ hop hx.2.2.2.1 hq.1 (RET_fetched _ s) (by decide)
      (by decide)
  · exact cond_run s fuel _ _ _ _ _ _ _ hop hx.2.2.2.2.1 hq.2.1 (RET_fetched _ s) (by decide)
      (by decide)
  · exact cond_run s fuel _ _ _ _ _ _ _ hop hx.2.2.2.2.2.1 hq.2.2.1 (RET_fetched _ s)
      (by decide) (by decide)
  · exact cond_run s fuel _ _ _ _ _ _ _ hop hx.2.2.2.2.2.2 hq.2.2.2 (RET_fetched _ s)
      (by decide) (by decide)

set_option maxRecDepth 100000 in
theorem cond_transfer_cycles_witness :
    (⟨0x28, .Z, 1, 12, 8⟩ : CondTransfer) ∈ condTransfers ∧
      GET8 (withProgram zeroMachine [0x28, 0x05]) 0x0100 = 0x28 ∧
      ¬ Cond.holds (withProgram zeroMachine [0x28, 0x05]) .Z ∧
      z80_execute 1 (withProgram zeroMachine [0x28, 0x05]) =
        .returned
          { withProgram zeroMachine [0x28, 0x05] with PC := (0x0100 + 1 + 1) % 65536 } 8 ∧
      Cond.holds (withProgram { zeroMachine with F := 0x80 } [0x28, 0x05]) .Z ∧
      (z80_execute 1 (withProgram { zeroMachine with F := 0x80 } [0x28, 0x05])).isReturned
        = true ∧
      (z80_execute 1 (withProgram { zeroMachine with F := 0x80 } [0x28, 0x05])).cycles = 12 :=
  ⟨by simp [condTransfers], by decide, by decide,
    (cond_transfer_cycles ⟨0x28, .Z, 1, 12, 8⟩ (by simp [condTransfers])
      (withProgram zeroMachine [0x28, 0x05]) 0 (by decide)).2 (by decide),
    by decide,
    (cond_transfer_cycles ⟨0x28, .Z, 1, 12, 8⟩ (by simp [condTransfers])
      (withProgram { zeroMachine with F := 0x80 } [0x28, 0x05]) 0 (by decide)).1 (by decide)⟩

set_option maxRecDepth 16384 in
/-- The unconditional `RET` costs five machine cycles from any state: a call of
`z80_execute` (of at least one pass) on opcode `0xC9` returns 20 T-cycles. -/
theorem RET_always_cycles (s : Machine) (fuel : Nat) (hop : GET8 s s.PC = 0xc9) :
    (z80_execute (fuel + 1) s).isReturned = true ∧ (z80_execute (fuel + 1) s).cycles = 20 := by
  have hcase : z80_case (fetch { m := s, actual := 0 }).1 0xc9 =
      .done (RET always (fetch { m := s, actual := 0 }).1) := rfl
  have ha : (RET always (fetch { m := s, actual := 0 }).1).actual = 20 := rfl
  rw [z80_execute_done s fuel _ _ hop hcase, if_neg (by rw [ha]; decide)]
  exact ⟨rfl, ha⟩

/-! ## Rotation -/

theorem and_mod_256 (x g : Nat) (hg : g < 256) : x % 256 &&& g = x &&& g := by
  have h1 : x % 256 = x &&& 255 := (Nat.and_pow_two_sub_one_eq_mod x 8).symm
  have h2 : 255 &&& g = g := by
    rw [Nat.and_comm]
    exact (Nat.and_pow_two_sub_one_eq_mod g 8).trans (Nat.mod_eq_of_lt hg)
  rw [h1, Nat.and_assoc, h2]

/-- Reading a flag after `SETFLAG`. -/
theorem FLAG_SETFLAG (s : Machine) (f g : Nat) (hg : g < 256) :
    FLAG (SETFLAG s f) g = FLAG s g ||| (f &&& g) := by
  show (s.F ||| f) % 256 &&& g = (s.F &&& g) ||| (f &&& g)
  rw [and_mod_256 _ _ hg, Nat.and_comm, Nat.and_or_distrib_left, Nat.and_comm g, Nat.and_comm g]

/-- Reading a flag after `RESETFLAG`. -/
theorem FLAG_RESETFLAG (s : Machine) (f g : Nat) :
    FLAG (RESETFLAG s f) g = FLAG s ((255 - f % 256) &&& g) := by
  show s.F &&& (255 - f % 256) &&& g = s.F &&& ((255 - f % 256) &&& g)
  rw [Nat.and_assoc]

theorem FLAG_zero (s : Machine) : FLAG s 0 = 0 := Nat.and_zero _

/-- The C expression `ROTL(a, 1)` truncated to a byte is the byte rotated left. -/
theorem ROTL_one (a : Nat) (ha : a < 256) : ROTL a 1 % 256 = rotl8 a := by
  unfold ROTL rotl8
  interval_cases a <;> rfl

/-- Reading a flag after the macro `RLCA`. -/
theorem RLCA_FLAG (s : Machine) (ha : s.A < 256) (g : Nat) (hg : g < 256) :
    FLAG (RLCA s) g =
      FLAG s ((255 - (SUBTRACTION ||| HALFCARRY) % 256) &&& g) |||
        (((if rotl8 s.A ≠ 0 then 0 else ZERO) |||
          (if rotl8 s.A &&& 1 ≠ 0 then CARRY else 0)) &&& g) := by
  unfold RLCA
  simp only [setR]
  rw [FLAG_SETFLAG _ _ _ hg, FLAG_RESETFLAG, ← ROTL_one s.A ha]
  rfl

/-- The macro `RLCA` in closed form, from a state with `Z` and `C` clear. -/
theorem RLCA_closed (s : Machine) (ha : s.A < 256) (hz : FLAG s ZERO = 0)
    (hc : FLAG s CARRY = 0) :
    (RLCA s).A = rotl8 s.A ∧ FLAG (RLCA s) SUBTRACTION = 0 ∧ FLAG (RLCA s) HALFCARRY = 0 ∧
      (FLAG (RLCA s) CARRY ≠ 0 ↔ s.A / 128 = 1) ∧
      (FLAG (RLCA s) ZERO ≠ 0 ↔ rotl8 s.A = 0) := by
  have h1 : rotl8 s.A &&& 1 = rotl8 s.A % 2 := Nat.and_one_is_mod _
  have hr : rotl8 s.A = (2 * s.A) % 256 + s.A / 128 := rfl
  have k1 : (255 - (SUBTRACTION ||| HALFCARRY) % 256) &&& SUBTRACTION = 0 := by decide
  have k2 : (255 - (SUBTRACTION ||| HALFCARRY) % 256) &&& HALFCARRY = 0 := by decide
  have k3 : (255 - (SUBTRACTION ||| HALFCARRY) % 256) &&& CARRY = CARRY := by decide
  have k4 : (255 - (SUBTRACTION ||| HALFCARRY) % 256) &&& ZERO = ZERO := by decide
  have a1 : (144 &&& 16 : Nat) = 16 := by decide
  have a2 : (128 &&& 16 : Nat) = 0 := by decide
  have a3 : (144 &&& 128 : Nat) = 128 := by decide
  have a4 : (16 &&& 128 : Nat) = 0 := by decide
  refine ⟨ROTL_one s.A ha, ?_, ?_, ?_, ?_⟩
  · rw [RLCA_FLAG s ha _ (by decide), k1, FLAG_zero]
    split_ifs <;> decide
  · rw [RLCA_FLAG s ha _ (by decide), k2, FLAG_zero]
    split_ifs <;> decide
  · rw [RLCA_FLAG s ha _ (by decide), k3, hc, h1]
    split_ifs with p q q <;> simp [ZERO, CARRY, a1, a2, a3, a4] <;> omega
  · rw [RLCA_FLAG s ha _ (by decide), k4, hz]
    split_ifs with p q q <;> simp [ZERO, CARRY, a1, a2, a3, a4] <;> omega

set_option maxRecDepth 16384 in
/-- The opcode `0x07` runs the macro `RLCA` and counts one machine cycle. -/
theorem z80_case_RLCA (x : Exec) : z80_case x 0x07 = .done (x |> Exec.on RLCA |> CLK 1) :=
  rfl

/-- C17 (amended): `RLCA` (opcode `0x07`) from a state whose `Z` and `C` flags are clear.
A call of `z80_execute` (of at least one pass) on it returns 4 T-cycles with
`A == a rotated left by one bit`, `N = 0`, `H = 0`, `C` equal to bit 7 of `a`, and `Z`
set iff the result is 0. -/
theorem RLCA_flags (s : Machine) (fuel : Nat) (hop : GET8 s s.PC = 0x07) (ha : s.A < 256)
    (hz : FLAG s ZERO = 0) (hc : FLAG s CARRY = 0) :
    ∃ m, z80_execute (fuel + 1) s = .returned m 4 ∧ m.A = rotl8 s.A ∧
      FLAG m SUBTRACTION = 0 ∧ FLAG m HALFCARRY = 0 ∧
      (FLAG m CARRY ≠ 0 ↔ s.A / 128 = 1) ∧ (FLAG m ZERO ≠ 0 ↔ rotl8 s.A = 0) := by
  refine ⟨RLCA (fetch { m := s, actual := 0 }).1.m, ?_,
    RLCA_closed (fetch { m := s, actual := 0 }).1.m ha hz hc⟩
  rw [z80_execute_done s fuel _ _ hop (z80_case_RLCA _)]
  rfl

set_option maxRecDepth 100000 in
theorem RLCA_flags_witness :
    GET8 (withProgram { zeroMachine with A := 0x85 } [0x07]) 0x0100 = 0x07 ∧
      ∃ m, z80_execute 1 (withProgram { zeroMachine with A := 0x85 } [0x07]) = .returned m 4 ∧
        m.A = rotl8 0x85 ∧ FLAG m SUBTRACTION = 0 ∧ FLAG m HALFCARRY = 0 ∧
        (FLAG m CARRY ≠ 0 ↔ 0x85 / 128 = 1) ∧ (FLAG m ZERO ≠ 0 ↔ rotl8 0x85 = 0) :=
  ⟨by decide,
    RLCA_flags (withProgram { zeroMachine with A := 0x85 } [0x07]) 0 (by decide) (by decide)
      (by decide) (by decide)⟩

set_option maxRecDepth 100000 in
/-- C17 (fails on the code): `RLCA` (opcode `0x07`) with `A = 0x00` and `F == 0x00`
returns with `A == 0x00` and `F == 0x80`: the `Z` flag is set, since the macro sets it
when the result is zero. -/
theorem RLCA_zero_sets_Z :
    (z80_execute 1 (withProgram zeroMachine [0x07])).isReturned = true ∧
      (z80_execute 1 (withProgram zeroMachine [0x07])).machine.A = 0x00 ∧
      (z80_execute 1 (withProgram zeroMachine [0x07])).machine.F = 0x80 ∧
      FLAG (z80_execute 1 (withProgram zeroMachine [0x07])).machine ZERO ≠ 0 := by
  decide

/-! ## Decimal adjustment -/

/-- The macro `ADD` in closed form. -/
theorem ADD_closed (s : Machine) (inp : Operand) (ha : (inp s).2.A < 256)
    (hb : (inp s).1 < 256) :
    (ADD inp s).A = ((inp s).2.A + (inp s).1) % 256 ∧
      (ADD inp s).F =
        mkF (((inp s).2.A + (inp s).1) % 256 = 0) false
          (((inp s).2.A &&& 0xf) + ((inp s).1 &&& 0xf) > 0xf)
          ((inp s).2.A + (inp s).1 > 0xff) := by
  constructor
  · unfold ADD ADD8
    simp only [getR, setR, setT1, setT2, setT3, setS1]
    split_ifs <;> simp [SETFLAG, RESETFLAG, Nat.mod_eq_of_lt hb]
  · unfold ADD ADD8 mkF
    simp only [getR, setR, setT1, setT2, setT3, setS1, Nat.mod_eq_of_lt hb,
      add_carry_iff _ _ ha hb]
    split_ifs <;>
      simp_all [SETFLAG, RESETFLAG, ZERO, CARRY, HALFCARRY, SUBTRACTION] <;>
      first | decide | omega

theorem or_CARRY_ne_zero (x : Nat) : x ||| CARRY ≠ 0 := by
  intro h
  have h2 : (x ||| CARRY).testBit 4 = true := by
    rw [Nat.testBit_or]
    have : CARRY.testBit 4 = true := by decide
    simp [this]
  rw [h] at h2
  simp at h2

/-- The accumulator after the macro `DAA`. -/
theorem DAA_A (x : Exec) :
    (DAA x).m.A =
      (x.m.A + (if (x.m.A &&& 0xf) > 9 ∨ FLAG x.m HALFCARRY ≠ 0 then 6 else 0) +
        (if x.m.A > 0x99 ∨ FLAG x.m CARRY ≠ 0 then 0x60 else 0)) % 256 := by
  unfold DAA
  simp only [setT1, setT2, setR, CLK]
  split_ifs <;> simp_all [SETFLAG, RESETFLAG, FLAG] <;> omega

/-- The carry and half-carry flags after the macro `DAA`. -/
theorem DAA_flags (x : Exec) :
    (FLAG (DAA x).m CARRY ≠ 0 ↔ (x.m.A > 0x99 ∨ FLAG x.m CARRY ≠ 0)) ∧
      FLAG (DAA x).m HALFCARRY = 0 := by
  have k1 : (255 - HALFCARRY % 256) &&& CARRY = CARRY := by decide
  have k2 : (255 - HALFCARRY % 256) &&& HALFCARRY = 0 := by decide
  have k3 : (255 - CARRY % 256) &&& CARRY = 0 := by decide
  have k4 : ZERO &&& CARRY = 0 := by decide
  have k5 : ZERO &&& HALFCARRY = 0 := by decide
  have k6 : CARRY &&& CARRY = CARRY := by decide
  have sC := fun (s : Machine) (f : Nat) => FLAG_SETFLAG s f CARRY (by decide)
  have sH := fun (s : Machine) (f : Nat) => FLAG_SETFLAG s f HALFCARRY (by decide)
  constructor
  · unfold DAA
    simp only [setT1, setT2, setR, CLK]
    split_ifs <;>
      simp only [sC, FLAG_RESETFLAG, k1, k3, k4, k6, FLAG_zero, Nat.or_zero] <;>
      first
        | exact iff_of_true (or_CARRY_ne_zero _) (by assumption)
        | exact iff_of_false (fun h => h rfl) (by assumption)
  · unfold DAA
    simp only [setT1, setT2, setR, CLK]
    split_ifs <;>
      simp only [sH, FLAG_RESETFLAG, k2, k5, FLAG_zero, Nat.or_zero]

theorem and_f_eq_mod (x : Nat) : x &&& 0xf = x % 16 := Nat.and_pow_two_sub_one_eq_mod x 4

/-- C15: BCD addition. For packed-BCD bytes `a` (the accumulator) and `b` (the operand
of `ADD A,b`; `(inp s).2` is the state once the operand is read), `ADD A,b` followed by
`DAA` (run in any state `x` holding the `A` and `F` that `ADD` left) leaves
`A == BCD((dec(a) + dec(b)) mod 100)`, `C` set iff `dec(a) + dec(b) >= 100`, and `H`
clear. -/
theorem ADD_DAA_bcd (s : Machine) (inp : Operand) (x : Exec) (ha : isBCD (inp s).2.A)
    (hb : isBCD (inp s).1) (hxA : x.m.A = (ADD inp s).A) (hxF : x.m.F = (ADD inp s).F) :
    (DAA x).m.A = bcdEncode ((bcdValue (inp s).2.A + bcdValue (inp s).1) % 100) ∧
      (FLAG (DAA x).m CARRY ≠ 0 ↔ bcdValue (inp s).2.A + bcdValue (inp s).1 ≥ 100) ∧
      FLAG (DAA x).m HALFCARRY = 0 := by
  obtain ⟨ha1, ha0⟩ := ha
  obtain ⟨hb1, hb0⟩ := hb
  have la : (inp s).2.A < 256 := by omega
  have lb : (inp s).1 < 256 := by omega
  obtain ⟨eA, eF⟩ := ADD_closed s inp la lb
  have hA : x.m.A = ((inp s).2.A + (inp s).1) % 256 := hxA.trans eA
  have hF := hxF.trans eF
  have bits := mkF_bits (((inp s).2.A + (inp s).1) % 256 = 0) false
    (((inp s).2.A &&& 0xf) + ((inp s).1 &&& 0xf) > 0xf) ((inp s).2.A + (inp s).1 > 0xff)
  have hH : FLAG x.m HALFCARRY ≠ 0 ↔ (inp s).2.A % 16 + (inp s).1 % 16 > 15 := by
    unfold FLAG
    rw [hF, bits.2.2.1, and_f_eq_mod, and_f_eq_mod]
    simp
  have hC : FLAG x.m CARRY ≠ 0 ↔ (inp s).2.A + (inp s).1 > 255 := by
    unfold FLAG
    rw [hF, bits.2.2.2.1]
    simp
  refine ⟨?_, ?_, (DAA_flags x).2⟩
  · rw [DAA_A]
    simp only [hH, hC, and_f_eq_mod, hA]
    unfold bcdEncode bcdValue
    generalize (inp s).2.A = a at *
    generalize (inp s).1 = b at *
    clear hH hC bits hF eF hA eA hxA hxF
    have ea : a = 16 * (a / 16) + a % 16 := by omega
    have eb : b = 16 * (b / 16) + b % 16 := by omega
    generalize a / 16 = a1 at *
    generalize a % 16 = a0 at *
    generalize b / 16 = b1 at *
    generalize b % 16 = b0 at *
    subst ea eb
    have e16 : 16 * a1 + a0 + (16 * b1 + b0) = 16 * (a1 + b1) + (a0 + b0) := by omega
    have e10 : 10 * a1 + a0 + (10 * b1 + b0) = 10 * (a1 + b1) + (a0 + b0) := by omega
    have hS : a1 + b1 ≤ 18 := by omega
    have hL : a0 + b0 ≤ 18 := by omega
    rw [e16, e10]
    generalize a1 + b1 = S at *
    generalize a0 + b0 = L at *
    clear e16 e10 la lb ha1 ha0 hb1 hb0
    interval_cases S <;> split_ifs <;> omega
  · rw [(DAA_flags x).1, hC, hA]
    unfold bcdValue
    generalize (inp s).2.A = a at *
    generalize (inp s).1 = b at *
    clear hH hC bits hF eF hA eA hxA hxF
    have ea : a = 16 * (a / 16) + a % 16 := by omega
    have eb : b = 16 * (b / 16) + b % 16 := by omega
    generalize a / 16 = a1 at *
    generalize a % 16 = a0 at *
    generalize b / 16 = b1 at *
    generalize b % 16 = b0 at *
    subst ea eb
    have e16 : 16 * a1 + a0 + (16 * b1 + b0) = 16 * (a1 + b1) + (a0 + b0) := by omega
    have e10 : 10 * a1 + a0 + (10 * b1 + b0) = 10 * (a1 + b1) + (a0 + b0) := by omega
    have hS : a1 + b1 ≤ 18 := by omega
    have hL : a0 + b0 ≤ 18 := by omega
    rw [e16, e10]
    generalize a1 + b1 = S at *
    generalize a0 + b0 = L at *
    clear e16 e10 la lb ha1 ha0 hb1 hb0
    interval_cases S <;> omega

theorem ADD_DAA_bcd_witness :
    isBCD 0x19 ∧ isBCD 0x28 ∧
      (DAA (Exec.mk (ADD (reg .B) { zeroMachine with A := 0x19, B := 0x28 }) 0)).m.A =
        bcdEncode ((bcdValue 0x19 + bcdValue 0x28) % 100) ∧
      (FLAG (DAA (Exec.mk (ADD (reg .B) { zeroMachine with A := 0x19, B := 0x28 }) 0)).m
          CARRY ≠ 0 ↔ bcdValue 0x19 + bcdValue 0x28 ≥ 100) ∧
      FLAG (DAA (Exec.mk (ADD (reg .B) { zeroMachine with A := 0x19, B := 0x28 }) 0)).m
        HALFCARRY = 0 :=
  ⟨by decide, by decide,
    ADD_DAA_bcd { zeroMachine with A := 0x19, B := 0x28 } (reg .B)
      (Exec.mk (ADD (reg .B) { zeroMachine with A := 0x19, B := 0x28 }) 0)
      (by decide) (by decide) rfl rfl⟩

set_option maxRecDepth 100000 in
/-- The same through the decoder: `ADD A,B; DAA` (opcodes `0x80`, `0x27`) with
`A = 0x19`, `B = 0x28` returns twice and leaves `A == 0x47` with `C` and `H` clear. -/
theorem ADD_DAA_run :
    (z80_execute 1
        (withProgram { zeroMachine with A := 0x19, B := 0x28 } [0x80, 0x27])).isReturned
        = true ∧
      (z80_execute 1 (z80_execute 1
        (withProgram { zeroMachine with A := 0x19, B := 0x28 } [0x80, 0x27])).machine).isReturned
        = true ∧
      (z80_execute 1 (z80_execute 1
        (withProgram { zeroMachine with A := 0x19, B := 0x28 } [0x80, 0x27])).machine).machine.A
        = 0x47 ∧
      (z80_execute 1 (z80_execute 1
        (withProgram { zeroMachine with A := 0x19, B := 0x28 } [0x80, 0x27])).machine).machine.F
        = 0x00 := by
  decide

/-! ## Cycle counts and the loop of `z80_execute`: evaluations -/

set_option maxRecDepth 100000 in
/-- C21 (fails on the code): `PUSH BC` (opcode `0xC5`) makes `z80_execute` return 32
T-cycles, where `PUSH DE`, `PUSH HL` and `PUSH AF` (`0xD5`, `0xE5`, `0xF5`) return 16:
`case 0xc5` has a `CLK(4)` after the macro `PUSH`, which already counts four. -/
theorem PUSH_BC_returns_32 :
    (z80_execute 1 (withProgram { zeroMachine with SP := 0xfffe } [0xc5])).isReturned = true ∧
      (z80_execute 1 (withProgram { zeroMachine with SP := 0xfffe } [0xc5])).cycles = 32 ∧
      (z80_execute 1 (withProgram { zeroMachine with SP := 0xfffe } [0xd5])).cycles = 16 ∧
      (z80_execute 1 (withProgram { zeroMachine with SP := 0xfffe } [0xe5])).cycles = 16 ∧
      (z80_execute 1 (withProgram { zeroMachine with SP := 0xfffe } [0xf5])).cycles = 16 := by
  decide

set_option maxRecDepth 100000 in
/-- C22 (fails on the code): on the bytes `37 04` (`SCF; INC B`) with `B = 0x00`, the
`case` of `SCF` counts no cycle, so the loop `while(!actual)` goes on: one pass does not
return, and the call returns 4 T-cycles with `PC == 0x0102`, `B == 0x01` and the carry
flag already recomputed by `INC B`. `PC` has advanced by 2 and the following opcode has
been executed. -/
theorem SCF_runs_on :
    (z80_execute 1 (withProgram zeroMachine [0x37, 0x04])).isReturned = false ∧
      (z80_execute 2 (withProgram zeroMachine [0x37, 0x04])).isReturned = true ∧
      (z80_execute 2 (withProgram zeroMachine [0x37, 0x04])).cycles = 4 ∧
      (z80_execute 2 (withProgram zeroMachine [0x37, 0x04])).machine.PC = 0x0102 ∧
      (z80_execute 2 (withProgram zeroMachine [0x37, 0x04])).machine.B = 0x01 := by
  decide

/-! ## Interrupts, timer and DIV: evaluations -/

set_option maxRecDepth 100000 in
/-- C24 (fails on the code): with `IME = 1`, `IE = IF = 0x01`, `PC = 0x02FF` and
`SP = 0xFF11`, both `SP-1 = 0xFF10` and `SP-2 = 0xFF0F` are plain-store addresses and
bit 0 is the only pending bit, but the push of `PC` stores its low byte `0xFF` at
`0xFF0F`, which is `IF`: after `gb_check_intrs`, `IF == 0xFF` and bit 0 is set. -/
theorem gb_check_intrs_push_overwrites_IF :
    (setMem (setMem { zeroMachine with IME := 1, SP := 0xff11, PC := 0x02ff } 0xff0f 0x01)
        0xffff 0x01).IME = 1 ∧
      0x01 &&& 0x01 &&& 0x1f = 1 <<< 0 ∧ plainStore (0xff11 - 1) ∧ plainStore (0xff11 - 2) ∧
      (gb_check_intrs (setMem (setMem
        { zeroMachine with IME := 1, SP := 0xff11, PC := 0x02ff } 0xff0f 0x01)
        0xffff 0x01)).z80_memory 0xff0f = 0xff ∧
      (gb_check_intrs (setMem (setMem
        { zeroMachine with IME := 1, SP := 0xff11, PC := 0x02ff } 0xff0f 0x01)
        0xffff 0x01)).SP = 0xff0f := by
  decide

set_option maxRecDepth 100000 in
/-- C25 (fails on the code): with `IME = 1`, `IE = IF = 0x03`, `PC = 0x0200` and
`SP = 0xFFFE`, `gb_check_intrs` services both pending sources in one call: both bits of
`IF` are cleared, `SP` has decreased by 4, the stack holds `0x0200` and then the vector
`0x0040` of the first source, and `PC` is the vector `0x48` of the second. -/
theorem gb_check_intrs_services_two :
    (gb_check_intrs (setMem (setMem
        { zeroMachine with IME := 1, SP := 0xfffe, PC := 0x0200 } 0xff0f 0x03)
        0xffff 0x03)).z80_memory 0xff0f = 0x00 ∧
      (gb_check_intrs (setMem (setMem
        { zeroMachine with IME := 1, SP := 0xfffe, PC := 0x0200 } 0xff0f 0x03)
        0xffff 0x03)).SP = 0xfffa ∧
      (gb_check_intrs (setMem (setMem
        { zeroMachine with IME := 1, SP := 0xfffe, PC := 0x0200 } 0xff0f 0x03)
        0xffff 0x03)).PC = 0x48 ∧
      GET16 (gb_check_intrs (setMem (setMem
        { zeroMachine with IME := 1, SP := 0xfffe, PC := 0x0200 } 0xff0f 0x03)
        0xffff 0x03)) 0xfffc = 0x0200 ∧
      GET16 (gb_check_intrs (setMem (setMem
        { zeroMachine with IME := 1, SP := 0xfffe, PC := 0x0200 } 0xff0f 0x03)
        0xffff 0x03)) 0xfffa = 0x0040 := by
  decide

set_option maxRecDepth 100000 in
/-- C29 (fails on the code): with the accumulator at 200, `gb_update(100)` increments
`DIV` and leaves the accumulator at 0, not at `200 + 100 - 256 = 44`. -/
theorem gb_update_div_drops_remainder :
    (gb_update { zeroMachine with div_reg := 200 } 100).z80_memory 0xff04 = 1 ∧
      (gb_update { zeroMachine with div_reg := 200 } 100).div_reg = 0 := by
  decide

set_option maxRecDepth 100000 in
/-- C30 (fails on the code): with `TAC == 0x00` and `timer_counter == 500`,
`PUT8(0xFF07, 0x04)` stores `0x04` and sets `timer_counter` to 1024, although the low
two bits of `TAC` are unchanged: `PUT8` compares the whole byte. -/
theorem PUT8_TAC_resets_on_enable :
    (0x00 &&& 3 : Nat) = 0x04 &&& 3 ∧
      GET8 (PUT8 { zeroMachine with timer_counter := 500 } 0xff07 0x04) 0xff07 = 0x04 ∧
      (PUT8 { zeroMachine with timer_counter := 500 } 0xff07 0x04).timer_counter = 1024 := by
  decide

/-! ## Halting opcodes -/

/-- One pass of the loop of `z80_execute` whose `case` never reaches its `break`: the
call does not return. -/
theorem z80_execute_spin (s : Machine) (fuel op : Nat) (m : Machine)
    (hop : GET8 s s.PC = op) (h : z80_case (fetch { m := s, actual := 0 }).1 op = .spin m) :
    z80_execute (fuel + 1) s = .spins m := by
  have hs : z80_step { m := s, actual := 0 } = .spin m := by
    unfold z80_step
    rw [show (fetch { m := s, actual := 0 }).2 = op from hop]
    exact h
  rw [z80_execute, z80_loop, hs]

set_option maxRecDepth 16384 in
/-- The cases of the illegal opcodes, of `STOP` and of `HALT` are endless loops. -/
theorem z80_case_halting (x : Exec) :
    (z80_case x 0xd3 = .spin x.m ∧ z80_case x 0xdb = .spin x.m ∧ z80_case x 0xdd = .spin x.m ∧
      z80_case x 0xe3 = .spin x.m ∧ z80_case x 0xe4 = .spin x.m ∧ z80_case x 0xeb = .spin x.m) ∧
    (z80_case x 0xec = .spin x.m ∧ z80_case x 0xed = .spin x.m ∧ z80_case x 0xf4 = .spin x.m ∧
      z80_case x 0xfc = .spin x.m ∧ z80_case x 0xfd = .spin x.m) ∧
    z80_case x 0x10 = .spin x.m ∧ z80_case x 0x76 = .spin x.m :=
  ⟨⟨rfl, rfl, rfl, rfl, rfl, rfl⟩, ⟨rfl, rfl, rfl, rfl, rfl⟩, rfl, rfl⟩

/-- C23: the illegal opcodes `0xD3, 0xDB, 0xDD, 0xE3, 0xE4, 0xEB, 0xEC, 0xED, 0xF4, 0xFC,
0xFD`, `0x10` (`STOP`) and `0x76` (`HALT`). With such an opcode at `PC`, `z80_execute`
never returns a cycle count, however many passes of its loop are allowed: its first
pass enters an endless loop, in the state it started from with only `PC` incremented by
the fetch (no memory and no other register is modified). -/
theorem halting_opcodes_spin (op : Nat) (hmem : op ∈ haltingOpcodes) (s : Machine)
    (hop : GET8 s s.PC = op) (fuel : Nat) :
    (z80_execute fuel s).isReturned = false ∧
      z80_execute (fuel + 1) s = .spins { s with PC := (s.PC + 1) % 65536 } := by
  have hx := z80_case_halting (fetch { m := s, actual := 0 }).1
  have key : z80_case (fetch { m := s, actual := 0 }).1 op =
      .spin { s with PC := (s.PC + 1) % 65536 } := by
    simp only [haltingOpcodes, List.mem_cons, List.mem_singleton, List.not_mem_nil,
      or_false] at hmem
    rcases hmem with rfl | rfl | rfl | rfl | rfl | rfl | rfl | rfl | rfl | rfl | rfl | rfl | rfl
    · exact hx.1.1
    · exact hx.1.2.1
    · exact hx.1.2.2.1
    · exact hx.1.2.2.2.1
    · exact hx.1.2.2.2.2.1
    · exact hx.1.2.2.2.2.2
    · exact hx.2.1.1
    · exact hx.2.1.2.1
    · exact hx.2.1.2.2.1
    · exact hx.2.1.2.2.2.1
    · exact hx.2.1.2.2.2.2
    · exact hx.2.2.1
    · exact hx.2.2.2
  refine ⟨?_, z80_execute_spin s fuel op _ hop key⟩
  cases fuel with
  | zero => rfl
  | succ n => rw [z80_execute_spin s n op _ hop key]; rfl

set_option maxRecDepth 100000 in
theorem halting_opcodes_spin_witness :
    0x76 ∈ haltingOpcodes ∧ GET8 (withProgram zeroMachine [0x76]) 0x0100 = 0x76 ∧
      (z80_execute 7 (withProgram zeroMachine [0x76])).isReturned = false ∧
      z80_execute (7 + 1) (withProgram zeroMachine [0x76]) =
        .spins { withProgram zeroMachine [0x76] with PC := (0x0100 + 1) % 65536 } :=
  ⟨by simp [haltingOpcodes], by decide,
    halting_opcodes_spin 0x76 (by simp [haltingOpcodes]) (withProgram zeroMachine [0x76])
      (by decide) 7⟩

/-! ## Interrupt dispatch -/

/-- The macro `TESTBIT` is non-zero exactly when the bit is set. -/
theorem TESTBIT_ne_zero (x i : Nat) : TESTBIT x i ≠ 0 ↔ x.testBit i = true := by
  unfold TESTBIT
  rw [Nat.shiftLeft_eq, Nat.one_mul]
  constructor
  · intro h
    obtain ⟨j, hj⟩ := Nat.ne_zero_implies_bit_true h
    rw [Nat.testBit_and, Nat.testBit_two_pow] at hj
    simp only [Bool.and_eq_true, decide_eq_true_eq] at hj
    rw [hj.2]
    exact hj.1
  · intro h h0
    have h2 : (x &&& 2 ^ i).testBit i = true := by
      rw [Nat.testBit_and, Nat.testBit_two_pow, h]
      simp
    rw [h0] at h2
    simp at h2

/-- With bit `i` the only bit of `IF & IE & 0x1F`, source `j < 5` is pending iff `j = i`. -/
theorem pending_iff (x y i j : Nat) (h : x &&& y &&& 0x1f = 1 <<< i) (hj : j < 5) :
    (TESTBIT y j ≠ 0 ∧ TESTBIT x j ≠ 0) ↔ j = i := by
  have e : (0x1f : Nat) = 2 ^ 5 - 1 := rfl
  have h2 := congrArg (fun n => n.testBit j) h
  simp only [e, Nat.testBit_and, Nat.testBit_two_pow_sub_one, Nat.shiftLeft_eq, Nat.one_mul,
    Nat.testBit_two_pow, hj, decide_True, Bool.and_true] at h2
  rw [TESTBIT_ne_zero, TESTBIT_ne_zero]
  constructor
  · rintro ⟨hy, hx⟩
    rw [hx, hy] at h2
    exact (by simpa using h2.symm : i = j).symm
  · intro hji
    rw [hji] at h2
    simp only [decide_True, Bool.and_eq_true] at h2
    rw [hji]
    exact ⟨h2.2, h2.1⟩

/-- With `IF & IE & 0x1F == 0`, no source `j < 5` is pending. -/
theorem pending_none (x y j : Nat) (h : x &&& y &&& 0x1f = 0) (hj : j < 5) :
    ¬ (TESTBIT y j ≠ 0 ∧ TESTBIT x j ≠ 0) := by
  have e : (0x1f : Nat) = 2 ^ 5 - 1 := rfl
  have h2 := congrArg (fun n => n.testBit j) h
  simp only [e, Nat.testBit_and, Nat.testBit_two_pow_sub_one, hj, decide_True, Bool.and_true,
    Nat.zero_testBit] at h2
  rw [TESTBIT_ne_zero, TESTBIT_ne_zero]
  rintro ⟨hy, hx⟩
  rw [hx, hy] at h2
  simp at h2

/-- Clearing bits of `IF` makes no source pending that was not. -/
theorem TESTBIT_and_left (x m j : Nat) (h : TESTBIT (x &&& m) j ≠ 0) : TESTBIT x j ≠ 0 := by
  rw [TESTBIT_ne_zero] at *
  rw [Nat.testBit_and] at h
  simp only [Bool.and_eq_true] at h
  exact h.1

/-- The loop of `gb_check_intrs` over sources none of which is pending does nothing. -/
theorem gb_check_intr_skip (l : List Nat) (s : Machine)
    (h : ∀ j ∈ l, ¬ (TESTBIT (s.z80_memory 0xffff) j ≠ 0 ∧ TESTBIT (s.z80_memory 0xff0f) j ≠ 0)) :
    l.foldl gb_check_intr s = s := by
  induction l with
  | nil => rfl
  | cons j l ih =>
    have hj : gb_check_intr s j = s := if_neg (h j (List.mem_cons_self _ _))
    rw [List.foldl_cons, hj]
    exact ih (fun k hk => h k (List.mem_cons_of_mem _ hk))

/-- C26: `gb_check_intrs` changes nothing when servicing is not due. In every state in
which `IME == 0`, or in which `IF & IE & 0x1F == 0`, it returns the state unchanged:
`IME`, `IF`, `IE`, `PC`, `SP` and all of memory are as before. -/
theorem gb_check_intrs_idle (s : Machine)
    (h : s.IME = 0 ∨ s.z80_memory 0xff0f &&& s.z80_memory 0xffff &&& 0x1f = 0) :
    gb_check_intrs s = s := by
  unfold gb_check_intrs
  split_ifs with h1 h2
  · rcases h with h | h
    · exact absurd h h1
    · refine gb_check_intr_skip _ s (fun j hj => pending_none _ _ j h ?_)
      simpa using hj
  · rfl
  · rfl

theorem gb_check_intrs_idle_witness :
    ((setMem (setMem { zeroMachine with IME := 1 } 0xff0f 0x04) 0xffff 0x03).IME = 0 ∨
        (setMem (setMem { zeroMachine with IME := 1 } 0xff0f 0x04) 0xffff 0x03).z80_memory
            0xff0f &&&
          (setMem (setMem { zeroMachine with IME := 1 } 0xff0f 0x04) 0xffff 0x03).z80_memory
            0xffff &&& 0x1f = 0) ∧
      gb_check_intrs (setMem (setMem { zeroMachine with IME := 1 } 0xff0f 0x04) 0xffff 0x03) =
        setMem (setMem { zeroMachine with IME := 1 } 0xff0f 0x04) 0xffff 0x03 :=
  ⟨Or.inr (by decide),
    gb_check_intrs_idle (setMem (setMem { zeroMachine with IME := 1 } 0xff0f 0x04) 0xffff 0x03)
      (Or.inr (by decide))⟩

/-- The function `gb_service` when both stack slots are plain stores. -/
theorem gb_service_plain (s : Machine) (i : Nat)
    (h1 : plainStore ((s.SP + 65535) % 65536)) (h2 : plainStore ((s.SP + 65534) % 65536)) :
    (gb_service s i).IME = 0 ∧ (gb_service s i).SP = (s.SP + 65534) % 65536 ∧
      (∀ a, (gb_service s i).z80_memory a =
        if a = (s.SP + 65534) % 65536 then (s.PC >>> 0) &&& 0xff
        else if a = (s.SP + 65535) % 65536 then (s.PC >>> 8) &&& 0xff
        else if a = 0xff0f then s.z80_memory 0xff0f &&& (255 - i % 256)
        else s.z80_memory a) ∧
      (gb_service s i).PC =
        if i = intr_vblank then 0x40 else if i = intr_lcd then 0x48
        else if i = intr_timer then 0x50 else if i = intr_pad then 0x60 else s.PC := by
  have hp : PUSHWORD (setMem (setIME s 0) 0xff0f (s.z80_memory 0xff0f &&& (255 - i % 256))) s.PC =
      setMem (setMem { setMem (setIME s 0) 0xff0f (s.z80_memory 0xff0f &&& (255 - i % 256)) with
          SP := (s.SP + 65534) % 65536 }
        ((s.SP + 65535) % 65536) ((s.PC >>> 8) &&& 0xff))
        ((s.SP + 65534) % 65536) ((s.PC >>> 0) &&& 0xff) :=
    PUSHWORD_plain _ _ h1 h2
  have hg : gb_service s i =
      (if i = intr_vblank then setRR (PUSHWORD (setMem (setIME s 0) 0xff0f
          (s.z80_memory 0xff0f &&& (255 - i % 256))) s.PC) .PC 0x40
        else if i = intr_lcd then setRR (PUSHWORD (setMem (setIME s 0) 0xff0f
          (s.z80_memory 0xff0f &&& (255 - i % 256))) s.PC) .PC 0x48
        else if i = intr_timer then setRR (PUSHWORD (setMem (setIME s 0) 0xff0f
          (s.z80_memory 0xff0f &&& (255 - i % 256))) s.PC) .PC 0x50
        else if i = intr_pad then setRR (PUSHWORD (setMem (setIME s 0) 0xff0f
          (s.z80_memory 0xff0f &&& (255 - i % 256))) s.PC) .PC 0x60
        else PUSHWORD (setMem (setIME s 0) 0xff0f
          (s.z80_memory 0xff0f &&& (255 - i % 256))) s.PC) := rfl
  rw [hg, hp]
  refine ⟨?_, ?_, ?_, ?_⟩
  · split_ifs <;> rfl
  · split_ifs <;> rfl
  · intro a
    clear h1 h2 hp hg
    have e : ∀ t : Machine,
        (if i = intr_vblank then setRR t .PC 0x40 else if i = intr_lcd then setRR t .PC 0x48
          else if i = intr_timer then setRR t .PC 0x50 else if i = intr_pad then setRR t .PC 0x60
          else t).z80_memory a = t.z80_memory a := by
      intro t
      split_ifs <;> rfl
    rw [e]
    rfl
  · split_ifs <;> simp only [setRR, setMem, setIME]

/-- With a single pending source `i` and the stack slots away from `IF` and `IE`,
`gb_check_intrs` is one call of `gb_service`. -/
theorem gb_check_intrs_one (s : Machine) (i : Nat) (hi : i < 5) (hime : s.IME ≠ 0)
    (hpend : s.z80_memory 0xff0f &&& s.z80_memory 0xffff &&& 0x1f = 1 <<< i)
    (h1 : plainStore ((s.SP + 65535) % 65536)) (h2 : plainStore ((s.SP + 65534) % 65536))
    (hn1 : (s.SP + 65535) % 65536 ≠ 0xff0f) (hn2 : (s.SP + 65534) % 65536 ≠ 0xff0f)
    (hn3 : (s.SP + 65535) % 65536 ≠ 0xffff) (hn4 : (s.SP + 65534) % 65536 ≠ 0xffff) :
    gb_check_intrs s = gb_service s (1 <<< i) := by
  have hIF : s.z80_memory 0xff0f ≠ 0 := by
    intro h0
    have := (pending_iff _ _ i i hpend hi).2 rfl
    rw [h0] at this
    exact this.2 (by simp [TESTBIT])
  obtain ⟨-, -, hm, -⟩ := gb_service_plain s (1 <<< i) h1 h2
  have hIE : (gb_service s (1 <<< i)).z80_memory 0xffff = s.z80_memory 0xffff := by
    rw [hm, if_neg (Ne.symm hn4), if_neg (Ne.symm hn3), if_neg (by decide)]
  have hIF2 : (gb_service s (1 <<< i)).z80_memory 0xff0f =
      s.z80_memory 0xff0f &&& (255 - (1 <<< i) % 256) := by
    rw [hm, if_neg (Ne.symm hn2), if_neg (Ne.symm hn1), if_pos rfl]
  have hsplit : List.range 5 = List.range i ++ i :: (List.range 5).filter (fun j => i < j) := by
    interval_cases i <;> decide
  have hbefore : (List.range i).foldl gb_check_intr s = s :=
    gb_check_intr_skip _ s (fun j hj h => by
      have hji := (pending_iff _ _ i j hpend (by have := List.mem_range.1 hj; omega)).1 h
      have := List.mem_range.1 hj
      omega)
  have hat : gb_check_intr s i = gb_service s (1 <<< i) :=
    if_pos ((pending_iff _ _ i i hpend hi).2 rfl)
  have hafter : ((List.range 5).filter (fun j => i < j)).foldl gb_check_intr
      (gb_service s (1 <<< i)) = gb_service s (1 <<< i) :=
    gb_check_intr_skip _ _ (fun j hj h => by
      rw [hIE, hIF2] at h
      have hj2 := List.mem_filter.1 hj
      have hlt : i < j := by simpa using hj2.2
      have hji := (pending_iff _ _ i j hpend (List.mem_range.1 hj2.1)).1
        ⟨h.1, TESTBIT_and_left _ _ _ h.2⟩
      omega)
  unfold gb_check_intrs
  rw [if_pos hime, if_pos hIF, hsplit, List.foldl_append, List.foldl_cons, hbefore, hat, hafter]

/-- C24 (amended): interrupt service. For each source `i` in `0` VBlank, `1` LCD STAT,
`2` Timer, `4` Joypad: if `IME == 1`, bit `i` is the only bit set in `IF & IE & 0x1F`,
and `SP-1`, `SP-2` are plain-store addresses other than `0xFF0F` (`IF`) and `0xFFFF`
(`IE`), then after `gb_check_intrs`: `IME == 0`, bit `i` of `IF` is clear with the other
`IF` bits unchanged, `SP` has decreased by 2, the previous `PC` is stored little-endian
at the new `SP`, and `PC` equals the vector `0x40`, `0x48`, `0x50` or `0x60` of that
source. -/
theorem gb_check_intrs_single (s : Machine) (i : Nat) (hi : i = 0 ∨ i = 1 ∨ i = 2 ∨ i = 4)
    (hime : s.IME = 1)
    (hpend : s.z80_memory 0xff0f &&& s.z80_memory 0xffff &&& 0x1f = 1 <<< i)
    (hpc : s.PC < 65536)
    (h1 : plainStore ((s.SP + 65535) % 65536)) (h2 : plainStore ((s.SP + 65534) % 65536))
    (hn1 : (s.SP + 65535) % 65536 ≠ 0xff0f) (hn2 : (s.SP + 65534) % 65536 ≠ 0xff0f)
    (hn3 : (s.SP + 65535) % 65536 ≠ 0xffff) (hn4 : (s.SP + 65534) % 65536 ≠ 0xffff) :
    (gb_check_intrs s).IME = 0 ∧
      (gb_check_intrs s).z80_memory 0xff0f = s.z80_memory 0xff0f &&& (255 - (1 <<< i)) ∧
      (gb_check_intrs s).SP = (s.SP + 65534) % 65536 ∧
      GET8 (gb_check_intrs s) ((s.SP + 65534) % 65536) = s.PC % 256 ∧
      GET8 (gb_check_intrs s) ((s.SP + 65535) % 65536) = s.PC / 256 ∧
      (gb_check_intrs s).PC = intrVector i := by
  have elo : (s.PC >>> 0) &&& 0xff = s.PC % 256 := by rw [and_ff_eq_mod]; rfl
  have ehi : (s.PC >>> 8) &&& 0xff = s.PC / 256 := by
    rw [and_ff_eq_mod, Nat.shiftRight_eq_div_pow]; omega
  have hne : (s.SP + 65535) % 65536 ≠ (s.SP + 65534) % 65536 := by omega
  have hi5 : i < 5 := by omega
  rw [gb_check_intrs_one s i hi5 (by rw [hime]; decide) hpend h1 h2 hn1 hn2 hn3 hn4]
  obtain ⟨hI, hS, hm, hP⟩ := gb_service_plain s (1 <<< i) h1 h2
  refine ⟨hI, ?_, hS, ?_, ?_, ?_⟩
  · rw [hm, if_neg (Ne.symm hn2), if_neg (Ne.symm hn1), if_pos rfl]
    rcases hi with rfl | rfl | rfl | rfl <;> rfl
  · rw [GET8, hm, if_pos rfl, elo]
  · rw [GET8, hm, if_neg hne, if_pos rfl, ehi]
  · rw [hP]
    rcases hi with rfl | rfl | rfl | rfl <;> rfl

set_option maxRecDepth 100000 in
theorem gb_check_intrs_single_witness :
    (setMem (setMem { zeroMachine with IME := 1, SP := 0xfffe, PC := 0x0200 } 0xff0f 0x05)
        0xffff 0x04).IME = 1 ∧
      (0x05 &&& 0x04 &&& 0x1f : Nat) = 1 <<< 2 ∧
      plainStore ((0xfffe + 65535) % 65536) ∧ plainStore ((0xfffe + 65534) % 65536) ∧
      (gb_check_intrs (setMem (setMem
        { zeroMachine with IME := 1, SP := 0xfffe, PC := 0x0200 } 0xff0f 0x05)
        0xffff 0x04)).IME = 0 ∧
      (gb_check_intrs (setMem (setMem
        { zeroMachine with IME := 1, SP := 0xfffe, PC := 0x0200 } 0xff0f 0x05)
        0xffff 0x04)).z80_memory 0xff0f = 0x05 &&& (255 - (1 <<< 2)) ∧
      (gb_check_intrs (setMem (setMem
        { zeroMachine with IME := 1, SP := 0xfffe, PC := 0x0200 } 0xff0f 0x05)
        0xffff 0x04)).SP = (0xfffe + 65534) % 65536 ∧
      GET8 (gb_check_intrs (setMem (setMem
        { zeroMachine with IME := 1, SP := 0xfffe, PC := 0x0200 } 0xff0f 0x05)
        0xffff 0x04)) ((0xfffe + 65534) % 65536) = 0x0200 % 256 ∧
      GET8 (gb_check_intrs (setMem (setMem
        { zeroMachine with IME := 1, SP := 0xfffe, PC := 0x0200 } 0xff0f 0x05)
        0xffff 0x04)) ((0xfffe + 65535) % 65536) = 0x0200 / 256 ∧
      (gb_check_intrs (setMem (setMem
        { zeroMachine with IME := 1, SP := 0xfffe, PC := 0x0200 } 0xff0f 0x05)
        0xffff 0x04)).PC = intrVector 2 :=
  ⟨rfl, by decide, by decide, by decide,
    gb_check_intrs_single
      (setMem (setMem { zeroMachine with IME := 1, SP := 0xfffe, PC := 0x0200 } 0xff0f 0x05)
        0xffff 0x04)
      2 (by decide) rfl (by decide) (by decide) (by decide) (by decide) (by decide) (by decide)
      (by decide) (by decide)⟩

/-! ## Timer and DIV: the blocks of `gb_update` -/

theorem or_and_four (x i : Nat) (hi : i &&& 4 = 0) : (x ||| i) % 256 &&& 4 = x &&& 4 := by
  rw [and_mod_256 _ _ (by decide), Nat.and_comm, Nat.and_or_distrib_left, Nat.and_comm 4 i, hi,
    Nat.or_zero, Nat.and_comm]

theorem or_four_and_four (x : Nat) : (x ||| 4) % 256 &&& 4 = 4 := by
  rw [and_mod_256 _ _ (by decide), Nat.and_comm, Nat.and_or_distrib_left, Nat.and_self]
  apply Nat.eq_of_testBit_eq
  intro j
  rw [Nat.testBit_or, Nat.testBit_and]
  cases (Nat.testBit 4 j) <;> simp

theorem tf_refl (s : Machine) : TimerFrame s s := ⟨rfl, fun _ _ _ _ _ => rfl, rfl⟩

theorem tf_setMem (s x : Machine) (b v : Nat) (h : TimerFrame s x)
    (hb : b = 0xff04 ∨ b = 0xff41 ∨ b = 0xff44) : TimerFrame s (setMem x b v) := by
  obtain ⟨h1, h2, h3⟩ := h
  refine ⟨h1, fun a a1 a2 a3 a4 => ?_, ?_⟩
  · rw [setMem_other _ _ _ _ (by rcases hb with rfl | rfl | rfl <;> assumption)]
    exact h2 a a1 a2 a3 a4
  · rw [setMem_other _ _ _ _ (by rcases hb with rfl | rfl | rfl <;> decide)]
    exact h3

theorem tf_gb_intr (s x : Machine) (i : Nat) (h : TimerFrame s x) (hi : i &&& 4 = 0) :
    TimerFrame s (gb_intr x i) := by
  obtain ⟨h1, h2, h3⟩ := h
  refine ⟨h1, fun a a1 a2 a3 a4 => ?_, ?_⟩
  · rw [gb_intr, setMem_other _ _ _ _ a2]
    exact h2 a a1 a2 a3 a4
  · rw [gb_intr, setMem_same, or_and_four _ _ hi]
    exact h3

theorem tf_setScanline (s x : Machine) (v : Int) (h : TimerFrame s x) :
    TimerFrame s (setScanline x v) := h

theorem tf_setDivReg (s x : Machine) (v : Int) (h : TimerFrame s x) :
    TimerFrame s (setDivReg x v) := h

theorem tf_ite (s a b : Machine) (c : Prop) [Decidable c] (ha : TimerFrame s a)
    (hb : TimerFrame s b) : TimerFrame s (if c then a else b) := by
  split_ifs
  · exact ha
  · exact hb

theorem tf_gb_set_lcd_mode (s x : Machine) (h : TimerFrame s x) :
    TimerFrame s (gb_set_lcd_mode x).1 := by
  unfold gb_set_lcd_mode
  split_ifs <;>
    repeat first
      | exact h
      | refine tf_setMem _ _ _ _ ?_ (by decide)

theorem tf_gb_set_lcd_lyc (s x : Machine) (h : TimerFrame s x) :
    TimerFrame s (gb_set_lcd_lyc x) := by
  unfold gb_set_lcd_lyc
  with_reducible repeat first
    | exact h
    | refine tf_ite _ _ _ _ ?_ ?_
    | refine tf_setMem _ _ _ _ ?_ (by decide)
    | refine tf_gb_intr _ _ _ ?_ (by decide)
    | dsimp only

theorem tf_gb_set_lcd (s x : Machine) (h : TimerFrame s x) : TimerFrame s (gb_set_lcd x) := by
  unfold gb_set_lcd
  with_reducible repeat first
    | exact h
    | refine tf_ite _ _ _ _ ?_ ?_
    | refine tf_setMem _ _ _ _ ?_ (by decide)
    | refine tf_gb_intr _ _ _ ?_ (by decide)
    | refine tf_gb_set_lcd_lyc _ _ ?_
    | refine tf_gb_set_lcd_mode _ _ ?_
    | dsimp only

theorem tf_gb_update_lcd (s x : Machine) (c : Nat) (h : TimerFrame s x) :
    TimerFrame s (gb_update_lcd x c) := by
  unfold gb_update_lcd gb_draw_scanline
  with_reducible repeat first
    | exact h
    | refine tf_ite _ _ _ _ ?_ ?_
    | refine tf_setMem _ _ _ _ ?_ (by decide)
    | refine tf_gb_intr _ _ _ ?_ (by decide)
    | refine tf_setScanline _ _ _ ?_
    | refine tf_gb_set_lcd _ _ ?_
    | dsimp only

theorem tf_gb_update_div (s x : Machine) (c : Nat) (h : TimerFrame s x) :
    TimerFrame s (gb_update_div x c) := by
  unfold gb_update_div
  with_reducible repeat first
    | exact h
    | refine tf_ite _ _ _ _ ?_ ?_
    | refine tf_setMem _ _ _ _ ?_ (by decide)
    | refine tf_setDivReg _ _ _ ?_
    | dsimp only

theorem and_three_eq_mod (x : Nat) : x &&& 0x3 = x % 4 := Nat.and_pow_two_sub_one_eq_mod x 2

/-- The function `gb_set_clock` reloads `timer_counter` with the period selected by
`TAC[1:0]`; its `switch` covers every value of `TAC & 3`. -/
theorem gb_set_clock_eq (s : Machine) :
    gb_set_clock s = setTimerCounter s (timerPeriod (s.z80_memory 0xff07)) := by
  have h4 : s.z80_memory 0xff07 % 4 < 4 := Nat.mod_lt _ (by decide)
  unfold gb_set_clock timerPeriod setTimerCounter
  rw [and_three_eq_mod]
  split <;> simp_all
  omega

/-- The clock block of `gb_update`, case by case. -/
theorem gb_update_timer_cases (s : Machine) (c : Nat) :
    (gb_update_timer s c).z80_memory 0xff07 = s.z80_memory 0xff07 ∧
      (gb_update_timer s c).z80_memory 0xff06 = s.z80_memory 0xff06 ∧
      (TESTBIT (s.z80_memory 0xff07) 2 = 0 → gb_update_timer s c = s) ∧
      (TESTBIT (s.z80_memory 0xff07) 2 ≠ 0 → 0 < s.timer_counter - c →
        gb_update_timer s c = setTimerCounter s (s.timer_counter - c)) ∧
      (TESTBIT (s.z80_memory 0xff07) 2 ≠ 0 → s.timer_counter - c ≤ 0 →
        (gb_update_timer s c).timer_counter = timerPeriod (s.z80_memory 0xff07) ∧
        (s.z80_memory 0xff05 = 255 →
          (gb_update_timer s c).z80_memory 0xff05 = s.z80_memory 0xff06 ∧
          (gb_update_timer s c).z80_memory 0xff0f = (s.z80_memory 0xff0f ||| 4) % 256) ∧
        (s.z80_memory 0xff05 ≠ 255 →
          (gb_update_timer s c).z80_memory 0xff05 = (s.z80_memory 0xff05 + 1) % 256 ∧
          (gb_update_timer s c).z80_memory 0xff0f = s.z80_memory 0xff0f)) := by
  unfold gb_update_timer
  simp only [gb_set_clock_eq]
  by_cases h1 : TESTBIT (s.z80_memory 0xff07) 2 ≠ 0
  · by_cases h2 : s.timer_counter - c ≤ 0
    · by_cases h3 : s.z80_memory 0xff05 = 255 <;>
        simp [h1, h2, h3, setTimerCounter, setMem, gb_intr, intr_timer] <;>
        intro h4 <;> omega
    · have h2b : 0 < s.timer_counter - c := by omega
      simp [h1, h2, h2b, setTimerCounter, setMem, gb_intr, intr_timer]
  · have h1b : TESTBIT (s.z80_memory 0xff07) 2 = 0 := by simpa using h1
    simp [h1b]

/-- The timer after `gb_update`, case by case: the DIV and LCD blocks leave it alone. -/
theorem gb_update_timer_view (s : Machine) (c : Nat) (hc : c < 256) :
    (gb_update s c).z80_memory 0xff07 = s.z80_memory 0xff07 ∧
      (gb_update s c).z80_memory 0xff06 = s.z80_memory 0xff06 ∧
      (TESTBIT (s.z80_memory 0xff07) 2 = 0 →
        (gb_update s c).timer_counter = s.timer_counter ∧
        (gb_update s c).z80_memory 0xff05 = s.z80_memory 0xff05 ∧
        (gb_update s c).z80_memory 0xff0f &&& 4 = s.z80_memory 0xff0f &&& 4) ∧
      (TESTBIT (s.z80_memory 0xff07) 2 ≠ 0 → 0 < s.timer_counter - c →
        (gb_update s c).timer_counter = s.timer_counter - c ∧
        (gb_update s c).z80_memory 0xff05 = s.z80_memory 0xff05 ∧
        (gb_update s c).z80_memory 0xff0f &&& 4 = s.z80_memory 0xff0f &&& 4) ∧
      (TESTBIT (s.z80_memory 0xff07) 2 ≠ 0 → s.timer_counter - c ≤ 0 →
        (gb_update s c).timer_counter = timerPeriod (s.z80_memory 0xff07) ∧
        (s.z80_memory 0xff05 = 255 →
          (gb_update s c).z80_memory 0xff05 = s.z80_memory 0xff06 ∧
          (gb_update s c).z80_memory 0xff0f &&& 4 = 4) ∧
        (s.z80_memory 0xff05 ≠ 255 →
          (gb_update s c).z80_memory 0xff05 = (s.z80_memory 0xff05 + 1) % 256 ∧
          (gb_update s c).z80_memory 0xff0f &&& 4 = s.z80_memory 0xff0f &&& 4)) := by
  obtain ⟨d1, d2, d3⟩ := tf_gb_update_div s s c (tf_refl s)
  obtain ⟨l1, l2, l3⟩ :=
    tf_gb_update_lcd (gb_update_timer (gb_update_div s c) c)
      (gb_update_timer (gb_update_div s c) c) c (tf_refl _)
  obtain ⟨t1, t2, t3, t4, t5⟩ := gb_update_timer_cases (gb_update_div s c) c
  have e7 := d2 0xff07 (by decide) (by decide) (by decide) (by decide)
  have e6 := d2 0xff06 (by decide) (by decide) (by decide) (by decide)
  have e5 := d2 0xff05 (by decide) (by decide) (by decide) (by decide)
  have f7 := l2 0xff07 (by decide) (by decide) (by decide) (by decide)
  have f6 := l2 0xff06 (by decide) (by decide) (by decide) (by decide)
  have f5 := l2 0xff05 (by decide) (by decide) (by decide) (by decide)
  have hg : gb_update s c =
      gb_update_lcd (gb_update_timer (gb_update_div s c) c) c := by
    unfold gb_update
    rw [Nat.mod_eq_of_lt hc]
  rw [hg, l1, f7, f6, f5, l3, ← e7, ← e6, ← e5, ← d1, ← d3]
  refine ⟨t1, t2, fun h => ?_, fun h h2 => ?_, fun h h2 => ?_⟩
  · rw [t3 h]
    exact ⟨rfl, rfl, rfl⟩
  · rw [t4 h h2]
    exact ⟨rfl, rfl, rfl⟩
  · obtain ⟨u1, u2, u3⟩ := t5 h h2
    refine ⟨u1, fun h3 => ?_, fun h3 => ?_⟩
    · obtain ⟨v1, v2⟩ := u2 h3
      exact ⟨v1, by rw [v2, or_four_and_four]⟩
    · obtain ⟨v1, v2⟩ := u3 h3
      exact ⟨v1, by rw [v2]⟩

theorem timerPeriod_pos (tac : Nat) : 0 < timerPeriod tac := by
  unfold timerPeriod
  split_ifs <;> decide

/-- C27: the timer step of `gb_update` equals the specified algorithm. For every state
and every step `c` (a byte): if `TAC` bit 2 is clear, `gb_update` leaves `timer_counter`,
`TIMA` and the timer bit of `IF` unchanged; if it is set then, with
`n = timer_counter - c`, when `n > 0` of these only `timer_counter` changes (to `n`), and
when `n <= 0` `timer_counter` becomes the period selected by `TAC[1:0]` and `TIMA`
becomes `TMA` with `IF` bit 2 set if `TIMA` was `0xFF`, else `TIMA + 1`. This is the
result of the specification's step with its `while` loop, which ends at its second test
at the latest: its body runs at most once. -/
theorem gb_update_timer_refines (s : Machine) (c : Nat) (hc : c < 256)
    (htima : s.z80_memory 0xff05 < 256) :
    ((s.z80_memory 0xff07).testBit 2 = false →
        (gb_update s c).timer_counter = s.timer_counter ∧
        (gb_update s c).z80_memory 0xff05 = s.z80_memory 0xff05 ∧
        (gb_update s c).z80_memory 0xff0f &&& 4 = s.z80_memory 0xff0f &&& 4) ∧
      ((s.z80_memory 0xff07).testBit 2 = true → 0 < s.timer_counter - c →
        (gb_update s c).timer_counter = s.timer_counter - c ∧
        (gb_update s c).z80_memory 0xff05 = s.z80_memory 0xff05 ∧
        (gb_update s c).z80_memory 0xff0f &&& 4 = s.z80_memory 0xff0f &&& 4) ∧
      ((s.z80_memory 0xff07).testBit 2 = true → s.timer_counter - c ≤ 0 →
        (gb_update s c).timer_counter = timerPeriod (s.z80_memory 0xff07) ∧
        (s.z80_memory 0xff05 = 0xff →
          (gb_update s c).z80_memory 0xff05 = s.z80_memory 0xff06 ∧
          (gb_update s c).z80_memory 0xff0f &&& 4 ≠ 0) ∧
        (s.z80_memory 0xff05 ≠ 0xff →
          (gb_update s c).z80_memory 0xff05 = s.z80_memory 0xff05 + 1 ∧
          (gb_update s c).z80_memory 0xff0f &&& 4 = s.z80_memory 0xff0f &&& 4)) ∧
      ∀ fuel, specTimerStep (s.z80_memory 0xff07) (s.z80_memory 0xff06) c (fuel + 2) (timerOf s) =
        some (timerOf (gb_update s c)) := by
  obtain ⟨-, -, v1, v2, v3⟩ := gb_update_timer_view s c hc
  have hb : (s.z80_memory 0xff07).testBit 2 = false → TESTBIT (s.z80_memory 0xff07) 2 = 0 := by
    intro h
    by_contra h0
    rw [(TESTBIT_ne_zero _ _).1 h0] at h
    exact Bool.noConfusion h
  have ht : (s.z80_memory 0xff07).testBit 2 = true → TESTBIT (s.z80_memory 0xff07) 2 ≠ 0 :=
    (TESTBIT_ne_zero _ _).2
  have hp := timerPeriod_pos (s.z80_memory 0xff07)
  refine ⟨fun h => v1 (hb h), fun h h2 => v2 (ht h) h2, fun h h2 => ?_, fun fuel => ?_⟩
  · obtain ⟨u1, u2, u3⟩ := v3 (ht h) h2
    refine ⟨u1, fun h3 => ?_, fun h3 => ?_⟩
    · obtain ⟨w1, w2⟩ := u2 h3
      exact ⟨w1, by rw [w2]; decide⟩
    · obtain ⟨w1, w2⟩ := u3 h3
      exact ⟨by rw [w1]; omega, w2⟩
  · cases h : (s.z80_memory 0xff07).testBit 2 with
    | false =>
      obtain ⟨u1, u2, u3⟩ := v1 (hb h)
      simp [specTimerStep, h, timerOf, u1, u2, u3]
    | true =>
      by_cases h2 : s.timer_counter - c ≤ 0
      · obtain ⟨u1, u2, u3⟩ := v3 (ht h) h2
        by_cases h3 : s.z80_memory 0xff05 = 255
        · obtain ⟨w1, w2⟩ := u2 h3
          simp [specTimerStep, specTimerLoop, h, timerOf, h2, h3, u1, w1, w2, hp]
        · obtain ⟨w1, w2⟩ := u3 h3
          have e : (s.z80_memory 0xff05 + 1) % 256 = s.z80_memory 0xff05 + 1 := by omega
          simp [specTimerStep, specTimerLoop, h, timerOf, h2, h3, u1, w1, w2, hp, e]
      · obtain ⟨u1, u2, u3⟩ := v2 (ht h) (by omega)
        simp [specTimerStep, specTimerLoop, h, timerOf, h2, u1, u2, u3]

theorem gb_update_timer_refines_witness :
    (16 : Nat) < 256 ∧
      (setMem (setMem (setMem { zeroMachine with timer_counter := 12 } 0xff07 0x05)
        0xff05 0xff) 0xff06 0x7c).z80_memory 0xff05 < 256 ∧
      ∀ fuel, specTimerStep 0x05 0x7c 16 (fuel + 2)
          (timerOf (setMem (setMem (setMem { zeroMachine with timer_counter := 12 } 0xff07 0x05)
            0xff05 0xff) 0xff06 0x7c)) =
        some (timerOf (gb_update (setMem (setMem (setMem
          { zeroMachine with timer_counter := 12 } 0xff07 0x05) 0xff05 0xff) 0xff06 0x7c) 16)) :=
  ⟨by decide, by decide,
    (gb_update_timer_refines
      (setMem (setMem (setMem { zeroMachine with timer_counter := 12 } 0xff07 0x05)
        0xff05 0xff) 0xff06 0x7c) 16 (by decide) (by decide)).2.2.2⟩

/-- The timer along a run of `gb_update` in equal steps of `c` T-cycles, with `c` one of
4, 8, 16, 32, from `TAC = 0x04`, `TMA = 0`, `timer_counter = 1024`, `TIMA = 0` and the
timer bit of `IF` clear: after `k` steps `TIMA` is the number of whole periods of 1024
T-cycles elapsed, modulo 256, and the timer bit is set iff 262144 T-cycles have passed. -/
theorem gb_update_n_timer (c : Nat) (hc : c = 4 ∨ c = 8 ∨ c = 16 ∨ c = 32) (s : Machine)
    (h7 : s.z80_memory 0xff07 = 0x04) (h6 : s.z80_memory 0xff06 = 0)
    (htc : s.timer_counter = 1024) (h5 : s.z80_memory 0xff05 = 0)
    (hif : s.z80_memory 0xff0f &&& 4 = 0) (k : Nat) :
    (gb_update_n c k s).z80_memory 0xff07 = 0x04 ∧
      (gb_update_n c k s).z80_memory 0xff06 = 0 ∧
      (gb_update_n c k s).timer_counter = 1024 - ((k * c % 1024 : Nat) : Int) ∧
      (gb_update_n c k s).z80_memory 0xff05 = k * c / 1024 % 256 ∧
      ((gb_update_n c k s).z80_memory 0xff0f &&& 4 ≠ 0 ↔ 262144 ≤ k * c) := by
  have hp : timerPeriod 0x04 = 1024 := by decide
  have hb : TESTBIT 0x04 2 ≠ 0 := by decide
  induction k with
  | zero =>
    have e : gb_update_n c 0 s = s := rfl
    rw [e, h7, h6, htc, h5, hif]
    simp
  | succ k ih =>
    obtain ⟨i7, i6, itc, i5, iif⟩ := ih
    obtain ⟨v7, v6, -, v2, v3⟩ :=
      gb_update_timer_view (gb_update_n c k s) c (by omega)
    rw [i7] at v7 v2 v3
    rw [i6] at v6 v3
    rw [hp] at v3
    have e : gb_update_n c (k + 1) s = gb_update (gb_update_n c k s) c := rfl
    rw [e]
    refine ⟨v7, v6, ?_⟩
    generalize (gb_update (gb_update_n c k s) c).timer_counter = tc2 at *
    generalize (gb_update (gb_update_n c k s) c).z80_memory 0xff05 = tima2 at *
    generalize (gb_update (gb_update_n c k s) c).z80_memory 0xff0f &&& 4 = if2 at *
    generalize (gb_update_n c k s).timer_counter = tc at *
    generalize (gb_update_n c k s).z80_memory 0xff05 = tima at *
    generalize (gb_update_n c k s).z80_memory 0xff0f &&& 4 = if1 at *
    by_cases hfire : tc - (c : Int) ≤ 0
    · obtain ⟨u1, u2, u3⟩ := v3 hb hfire
      by_cases hw : tima = 255
      · obtain ⟨w1, w2⟩ := u2 hw
        rcases hc with rfl | rfl | rfl | rfl <;> omega
      · obtain ⟨w1, w2⟩ := u3 hw
        rcases hc with rfl | rfl | rfl | rfl <;> omega
    · obtain ⟨u1, u2, u3⟩ := v2 hb (by omega)
      rcases hc with rfl | rfl | rfl | rfl <;> omega

/-- C28: the timer invariant. From `TAC = 0x04`, `timer_counter = 1024`, `TIMA = 0`,
`TMA = 0` and the timer bit of `IF` clear, stepping `gb_update` in equal steps of `c`
T-cycles, `c` one of 4, 8, 16, 32, up to a total of 262144 T-cycles: after `k` steps
`TIMA` is the number `k * c / 1024` of whole periods elapsed while fewer than 262144
T-cycles have passed, and `0 = TMA` at 262144; `TIMA` changes at a step exactly when
that step completes a multiple of 1024 T-cycles; and the timer bit of `IF` is set
exactly at 262144 T-cycles, so that the wrap from `0xFF` and the request of the Timer
interrupt happen once, on the last step. -/
theorem timer_invariant (c : Nat) (hc : c = 4 ∨ c = 8 ∨ c = 16 ∨ c = 32) (s : Machine)
    (h7 : s.z80_memory 0xff07 = 0x04) (h6 : s.z80_memory 0xff06 = 0)
    (htc : s.timer_counter = 1024) (h5 : s.z80_memory 0xff05 = 0)
    (hif : s.z80_memory 0xff0f &&& 4 = 0) (k : Nat) (hk : k * c ≤ 262144) :
    (gb_update_n c k s).z80_memory 0xff05 = (if k * c = 262144 then 0 else k * c / 1024) ∧
      ((gb_update_n c k s).z80_memory 0xff0f &&& 4 ≠ 0 ↔ k * c = 262144) ∧
      ((k + 1) * c ≤ 262144 →
        ((gb_update_n c (k + 1) s).z80_memory 0xff05 ≠ (gb_update_n c k s).z80_memory 0xff05 ↔
          (k + 1) * c % 1024 = 0)) := by
  obtain ⟨-, -, -, a5, aif⟩ := gb_update_n_timer c hc s h7 h6 htc h5 hif k
  obtain ⟨-, -, -, b5, -⟩ := gb_update_n_timer c hc s h7 h6 htc h5 hif (k + 1)
  rw [a5, b5, aif]
  refine ⟨?_, ?_, fun h => ?_⟩
  · split_ifs <;> rcases hc with rfl | rfl | rfl | rfl <;> omega
  · omega
  · rcases hc with rfl | rfl | rfl | rfl <;> omega

theorem timer_invariant_witness :
    (setMem { zeroMachine with timer_counter := 1024 } 0xff07 0x04).z80_memory 0xff07 = 0x04 ∧
      (setMem { zeroMachine with timer_counter := 1024 } 0xff07 0x04).timer_counter = 1024 ∧
      (8192 * 32 ≤ 262144) ∧
      (gb_update_n 32 8192
        (setMem { zeroMachine with timer_counter := 1024 } 0xff07 0x04)).z80_memory 0xff05 =
        (if 8192 * 32 = 262144 then 0 else 8192 * 32 / 1024) ∧
      ((gb_update_n 32 8192
        (setMem { zeroMachine with timer_counter := 1024 } 0xff07 0x04)).z80_memory 0xff0f
          &&& 4 ≠ 0 ↔ 8192 * 32 = 262144) :=
  ⟨by decide, by decide, by decide,
    (timer_invariant 32 (by decide)
      (setMem { zeroMachine with timer_counter := 1024 } 0xff07 0x04)
      (by decide) (by decide) (by decide) (by decide) (by decide) 8192 (by decide)).1,
    (timer_invariant 32 (by decide)
      (setMem { zeroMachine with timer_counter := 1024 } 0xff07 0x04)
      (by decide) (by decide) (by decide) (by decide) (by decide) 8192 (by decide)).2.1⟩

/-! ## DIV -/

theorem df_refl (s : Machine) : DivFrame s s := ⟨rfl, rfl⟩

theorem df_setMem (s x : Machine) (b v : Nat) (h : DivFrame s x) (hb : b ≠ 0xff04) :
    DivFrame s (setMem x b v) :=
  ⟨h.1, by rw [setMem_other _ _ _ _ (Ne.symm hb)]; exact h.2⟩

theorem df_gb_intr (s x : Machine) (i : Nat) (h : DivFrame s x) : DivFrame s (gb_intr x i) :=
  df_setMem s x _ _ h (by decide)

theorem df_setScanline (s x : Machine) (v : Int) (h : DivFrame s x) :
    DivFrame s (setScanline x v) := h

theorem df_setTimerCounter (s x : Machine) (v : Int) (h : DivFrame s x) :
    DivFrame s (setTimerCounter x v) := h

theorem df_ite (s a b : Machine) (c : Prop) [Decidable c] (ha : DivFrame s a)
    (hb : DivFrame s b) : DivFrame s (if c then a else b) := by
  split_ifs
  · exact ha
  · exact hb

theorem df_gb_set_lcd_mode (s x : Machine) (h : DivFrame s x) :
    DivFrame s (gb_set_lcd_mode x).1 := by
  unfold gb_set_lcd_mode
  split_ifs <;> exact h

theorem df_gb_set_lcd_lyc (s x : Machine) (h : DivFrame s x) :
    DivFrame s (gb_set_lcd_lyc x) := by
  unfold gb_set_lcd_lyc
  with_reducible repeat first
    | exact h
    | refine df_ite _ _ _ _ ?_ ?_
    | refine df_setMem _ _ _ _ ?_ (by decide)
    | refine df_gb_intr _ _ _ ?_
    | dsimp only

theorem df_gb_set_lcd (s x : Machine) (h : DivFrame s x) : DivFrame s (gb_set_lcd x) := by
  unfold gb_set_lcd
  with_reducible repeat first
    | exact h
    | refine df_ite _ _ _ _ ?_ ?_
    | refine df_setMem _ _ _ _ ?_ (by decide)
    | refine df_gb_intr _ _ _ ?_
    | refine df_gb_set_lcd_lyc _ _ ?_
    | refine df_gb_set_lcd_mode _ _ ?_
    | dsimp only

theorem df_gb_update_lcd (s x : Machine) (c : Nat) (h : DivFrame s x) :
    DivFrame s (gb_update_lcd x c) := by
  unfold gb_update_lcd gb_draw_scanline
  with_reducible repeat first
    | exact h
    | refine df_ite _ _ _ _ ?_ ?_
    | refine df_setMem _ _ _ _ ?_ (by decide)
    | refine df_gb_intr _ _ _ ?_
    | refine df_setScanline _ _ _ ?_
    | refine df_gb_set_lcd _ _ ?_
    | dsimp only

theorem df_gb_update_timer (s x : Machine) (c : Nat) (h : DivFrame s x) :
    DivFrame s (gb_update_timer x c) := by
  unfold gb_update_timer
  simp only [gb_set_clock_eq]
  with_reducible repeat first
    | exact h
    | refine df_ite _ _ _ _ ?_ ?_
    | refine df_setMem _ _ _ _ ?_ (by decide)
    | refine df_gb_intr _ _ _ ?_
    | refine df_setTimerCounter _ _ _ ?_
    | dsimp only

/-- The division-register block of `gb_update` is the only one that touches `div_reg`
and the byte `DIV`. -/
theorem gb_update_div_view (s : Machine) (c : Nat) (hc : c < 256) :
    (gb_update s c).div_reg = (gb_update_div s c).div_reg ∧
      (gb_update s c).z80_memory 0xff04 = (gb_update_div s c).z80_memory 0xff04 := by
  have hg : gb_update s c =
      gb_update_lcd (gb_update_timer (gb_update_div s c) c) c := by
    unfold gb_update
    rw [Nat.mod_eq_of_lt hc]
  rw [hg]
  exact df_gb_update_lcd _ _ c (df_gb_update_timer _ _ c (df_refl _))

/-- C29 (amended): DIV accumulation. For every accumulator value `d` (in `0..255` or
not) and every step `c` (a byte) with `d + c` other than 255, `gb_update` increments the
`DIV` byte at `0xFF04` (mod 256) iff `d + c >= 256`, in which case the accumulator
becomes 0; otherwise `DIV` is unchanged and the accumulator becomes `d + c`. -/
theorem gb_update_div_acc (s : Machine) (c : Nat) (hc : c < 256)
    (hne : s.div_reg + c ≠ 255) :
    (256 ≤ s.div_reg + c →
        (gb_update s c).z80_memory 0xff04 = (s.z80_memory 0xff04 + 1) % 256 ∧
        (gb_update s c).div_reg = 0) ∧
      (s.div_reg + c < 256 →
        (gb_update s c).z80_memory 0xff04 = s.z80_memory 0xff04 ∧
        (gb_update s c).div_reg = s.div_reg + c) := by
  obtain ⟨e1, e2⟩ := gb_update_div_view s c hc
  rw [e1, e2]
  unfold gb_update_div
  constructor
  · intro h
    have h2 : s.div_reg + c ≥ 255 := by omega
    simp [setDivReg, setMem, h2]
  · intro h
    have h2 : ¬ s.div_reg + c ≥ 255 := by omega
    simp [setDivReg, setMem, h2]

theorem gb_update_div_acc_witness :
    (100 : Nat) < 256 ∧ (200 : Int) + (100 : Nat) ≠ 255 ∧
      (gb_update { zeroMachine with div_reg := 200 } 100).z80_memory 0xff04 = (0 + 1) % 256 ∧
      (gb_update { zeroMachine with div_reg := 200 } 100).div_reg = 0 :=
  ⟨by decide, by decide,
    (gb_update_div_acc { zeroMachine with div_reg := 200 } 100 (by decide) (by decide)).1
      (by decide)⟩

/-! ## The `TAC` register -/

/-- C30 (amended): for every previous `TAC` value `t` and every written byte `v`,
`PUT8(0xFF07, v)` stores `v` at `0xFF07`, and sets `timer_counter` to the period selected
by `v & 3` if `t != v`; when the byte is unchanged (`t == v`) `timer_counter` is left
unchanged. -/
theorem PUT8_TAC (s : Machine) (v : Nat) :
    GET8 (PUT8 s 0xff07 v) 0xff07 = v ∧
      (s.z80_memory 0xff07 ≠ v → (PUT8 s 0xff07 v).timer_counter = timerPeriod v) ∧
      (s.z80_memory 0xff07 = v → (PUT8 s 0xff07 v).timer_counter = s.timer_counter) := by
  have e : PUT8 s 0xff07 v =
      if s.z80_memory 0xff07 ≠ v then gb_set_clock (setMem s 0xff07 v)
      else setMem s 0xff07 v := by
    rw [PUT8, PUT8F]
    simp
  rw [e, gb_set_clock_eq]
  refine ⟨?_, fun h => ?_, fun h => ?_⟩
  · split_ifs <;> simp [GET8, setMem, setTimerCounter]
  · rw [if_pos h]
    simp [setMem, setTimerCounter]
  · rw [if_neg (by simpa using h)]
    rfl

/-! ## Boot state and the restricted area -/

set_option maxRecDepth 100000 in
/-- C36: the boot state. From the statically initialised globals (zeroed memory,
`IME = 1`), after `gb_init` the registers are `AF=0x01B0`, `BC=0x0013`, `DE=0x00D8`,
`HL=0x014D`, `SP=0xFFFE`, `PC=0x0100` with `IME=1`, every I/O byte of the table holds its
listed value, and every other byte of memory is still zero. -/
theorem gb_init_boot_state :
    AF (gb_init powerOn) = 0x01b0 ∧ BC (gb_init powerOn) = 0x0013 ∧
      DE (gb_init powerOn) = 0x00d8 ∧ HL (gb_init powerOn) = 0x014d ∧
      (gb_init powerOn).SP = 0xfffe ∧ (gb_init powerOn).PC = 0x0100 ∧
      (gb_init powerOn).IME = 1 ∧
      (∀ p ∈ bootIOValues, (gb_init powerOn).z80_memory p.1 = p.2) ∧
      ∀ a, (∀ p ∈ bootIOValues, a ≠ p.1) → (gb_init powerOn).z80_memory a = 0 := by
  refine ⟨by decide, by decide, by decide, by decide, rfl, rfl, rfl, by decide, ?_⟩
  intro a ha
  simp only [bootIOValues, List.forall_mem_cons, List.not_mem_nil, false_implies,
    implies_true, and_true] at ha
  simp only [gb_init, setMem, powerOn]
  simp [ha]
  rfl

/-- C38: the restricted region has exact bounds. For every address `a` in
`0xFEA0..0xFEFE` and every byte `v`, `PUT8(a, v)` leaves the whole state, so all of
memory, unchanged; at the adjacent addresses `0xFE9F` and `0xFEFF` it is a plain store:
after `PUT8(a, v)` there, `GET8(a) == v`. -/
theorem PUT8_restricted_bounds (s : Machine) (a v : Nat) (h1 : 0xfea0 ≤ a) (h2 : a ≤ 0xfefe) :
    PUT8 s a v = s ∧ GET8 (PUT8 s 0xfe9f v) 0xfe9f = v ∧ GET8 (PUT8 s 0xfeff v) 0xfeff = v := by
  refine ⟨?_, ?_, ?_⟩
  · rw [PUT8, PUT8F]
    simp only [ite_self]
    rw [if_neg (by omega), if_pos (by omega)]
  · rw [PUT8_else s 0xfe9f v (by decide) (by decide) (by decide) (by decide) (by decide)
      (by decide)]
    exact setMem_same _ _ _
  · rw [PUT8_else s 0xfeff v (by decide) (by decide) (by decide) (by decide) (by decide)
      (by decide)]
    exact setMem_same _ _ _

theorem PUT8_restricted_bounds_witness :
    (0xfea0 : Nat) ≤ 0xfefe ∧ PUT8 zeroMachine 0xfefe 0x5a = zeroMachine ∧
      GET8 (PUT8 zeroMachine 0xfe9f 0x5a) 0xfe9f = 0x5a ∧
      GET8 (PUT8 zeroMachine 0xfeff 0x5a) 0xfeff = 0x5a :=
  ⟨by decide, PUT8_restricted_bounds zeroMachine 0xfefe 0x5a (by decide) (by decide)⟩

/-! ## The tile rasteriser -/

/-- Without the window, every store of `gb_render_tiles` is to row `23 + y` of the
frame buffer, with `y = SCY + LY` (a byte). -/
theorem gb_render_tiles_rows (s : Machine) (hw : use_window s = 0) (p : Pixel)
    (hp : p ∈ gb_render_tiles s) :
    p.row = 23 + (s.z80_memory 0xff42 + s.z80_memory 0xff44) % 256 := by
  simp only [gb_render_tiles, List.mem_flatMap, List.mem_map] at hp
  obtain ⟨i, -, hi⟩ := hp
  simp only [gb_render_tile, List.mem_map] at hi
  obtain ⟨b, -, rfl⟩ := hi
  simp [gb_render_tiles_fetch, hw]

set_option maxRecDepth 100000 in
/-- C33 (fails on the code): on scanline `LY = 0` with the window disabled
(`LCDC = 0x91`), `gb_render_tiles` makes 160 stores; with `SCY = 0` they are all to row
`23` of the frame buffer, the row of `LY = 0`, and with `SCY = 8` they are all to row
`31`: the output row is that of `y = SCY + LY`, not of `LY`. The columns are those of the
claim: for the first tile `47 + 0 .. 47 + 7`. -/
theorem gb_render_tiles_row_follows_SCY :
    use_window (setMem (setMem zeroMachine 0xff40 0x91) 0xff42 0x08) = 0 ∧
      (setMem (setMem zeroMachine 0xff40 0x91) 0xff42 0x08).z80_memory 0xff44 = 0 ∧
      (gb_render_tiles (setMem (setMem zeroMachine 0xff40 0x91) 0xff42 0x00)).map
          (fun p => p.row) = List.replicate 160 23 ∧
      (gb_render_tiles (setMem (setMem zeroMachine 0xff40 0x91) 0xff42 0x08)).map
          (fun p => p.row) = List.replicate 160 31 ∧
      ((gb_render_tiles (setMem (setMem zeroMachine 0xff40 0x91) 0xff42 0x08)).take 8).map
          (fun p => p.col) = [47, 48, 49, 50, 51, 52, 53, 54] := by
  decide

/-- C34 (fails on the code): with `BGP = 0xFC`, colour id 1 selects the field
`(0xFC >> 2) & 3 = 3`, the darkest shade `RGB15(0, 0, 0)` that `gb_get_color` gives for
3, but the shade emitted for id 1 is `RGB15(25, 25, 25)`: `gb_get_color` never reads its
parameter `palette`, so the shade is that of the colour id itself for every `BGP`. -/
theorem gb_get_color_ignores_palette :
    (0xfc >>> (2 * 1)) &&& 3 = 3 ∧
      gb_get_color 1 0xfc = { r := 25, g := 25, b := 25 } ∧
      gb_get_color ((0xfc >>> (2 * 1)) &&& 3) 0xfc = { r := 0, g := 0, b := 0 } ∧
      (∀ c p q, gb_get_color c p = gb_get_color c q) ∧
      ((gb_render_tile (setMem zeroMachine 0xff47 0xfc) 0 0 0xff 0x00).map
        (fun p => p.colour) = List.replicate 8 { r := 25, g := 25, b := 25 }) := by
  refine ⟨by decide, by decide, by decide, fun _ _ _ => rfl, by decide⟩

/-- C35: tile-row addressing. In every iteration of `gb_render_tiles`, with `m` the map
byte and `y` the map row, the two bytes of the tile row are read from `a` and `a + 1`
where `a = 0x8000 + 16*m + 2*(y mod 8)` when `LCDC` bit 4 is set, and
`a = 0x9000 + 16*s + 2*(y mod 8) = 0x8800 + 16*(s + 128) + 2*(y mod 8)` when it is clear,
`s` being `m` as a signed 8-bit integer; both reads stay inside `0x8000..0x8FFF` resp.
`0x8800..0x97FF`. -/
theorem tile_row_address (s : Machine) (i : Nat) :
    (gb_render_tiles_fetch s i).tile0 = GET8 s (gb_render_tiles_fetch s i).addr0 ∧
      (gb_render_tiles_fetch s i).tile1 = GET8 s (gb_render_tiles_fetch s i).addr1 ∧
      (gb_render_tiles_fetch s i).addr1 = (gb_render_tiles_fetch s i).addr0 + 1 ∧
      (TESTBIT (s.z80_memory 0xff40) 4 ≠ 0 →
        (gb_render_tiles_fetch s i).addr0 =
          0x8000 + 16 * (GET8 s (gb_render_tiles_fetch s i).map_addr % 256) +
            2 * ((gb_render_tiles_fetch s i).y % 8) ∧
        0x8000 ≤ (gb_render_tiles_fetch s i).addr0 ∧
        (gb_render_tiles_fetch s i).addr1 ≤ 0x8fff) ∧
      (TESTBIT (s.z80_memory 0xff40) 4 = 0 →
        ((gb_render_tiles_fetch s i).addr0 : Int) =
          0x9000 + 16 * toInt8 (GET8 s (gb_render_tiles_fetch s i).map_addr) +
            2 * (((gb_render_tiles_fetch s i).y % 8 : Nat) : Int) ∧
        ((gb_render_tiles_fetch s i).addr0 : Int) =
          0x8800 + 16 * (toInt8 (GET8 s (gb_render_tiles_fetch s i).map_addr) + 128) +
            2 * (((gb_render_tiles_fetch s i).y % 8 : Nat) : Int) ∧
        0x8800 ≤ (gb_render_tiles_fetch s i).addr0 ∧
        (gb_render_tiles_fetch s i).addr1 ≤ 0x97ff) := by
  refine ⟨rfl, rfl, ?_, fun h => ?_, fun h => ?_⟩
  · simp only [gb_render_tiles_fetch]
    split_ifs <;> omega
  · simp only [gb_render_tiles_fetch, h, if_false]
    simp only [if_neg (show ¬ ((0 : Nat) ≠ 0) from fun h => h rfl)]
    refine ⟨?_, ?_, ?_⟩ <;> omega
  · simp only [gb_render_tiles_fetch, h, if_true, toInt8]
    simp only [if_pos (show (1 : Nat) ≠ 0 from by decide)]
    generalize GET8 s _ = g
    generalize (if use_window s ≠ 0 then _ else _) = y
    refine ⟨?_, ?_, ?_, ?_⟩ <;> split_ifs <;> omega

/-! ## The cycle count of one call of `z80_execute` -/

theorem cyc_base (x : Exec) (n : Nat) (hx : x.actual = 0) : CycLe x n := ⟨0, Nat.zero_le _, hx⟩

/-- The macro `CLK(m)` after a statement that leaves `actual` alone. -/
theorem cyc_CLK_after (y z : Exec) (m n : Nat) (ha : z.actual = y.actual)
    (h : CycLe y (n - m)) (hm : m ≤ n) (hn : n ≤ 63) : CycLe (CLK m z) n := by
  obtain ⟨k, hk, e⟩ := h
  refine ⟨k + m, by omega, ?_⟩
  show (z.actual + m * 4) % 256 = 4 * (k + m)
  rw [ha, e]
  omega

theorem cyc_CLK (y : Exec) (m n : Nat) (h : CycLe y (n - m)) (hm : m ≤ n) (hn : n ≤ 63) :
    CycLe (CLK m y) n := cyc_CLK_after y y m n rfl h hm hn

theorem cyc_on (f : Machine → Machine) (y : Exec) (n : Nat) (h : CycLe y n) :
    CycLe (Exec.on f y) n := h

theorem cyc_mono (y : Exec) (a b : Nat) (h : CycLe y a) (hab : a ≤ b) : CycLe y b := by
  obtain ⟨k, hk, e⟩ := h
  exact ⟨k, by omega, e⟩

theorem cyc_ADD16 (out : Reg16) (inp : Operand) (y : Exec) (n : Nat) (h : CycLe y (n - 2))
    (hm : 2 ≤ n) (hn : n ≤ 63) : CycLe (ADD16 out inp y) n :=
  cyc_CLK_after y _ 2 n rfl h hm hn

theorem cyc_BIT (b : Nat) (r : Reg8) (y : Exec) (n : Nat) (h : CycLe y (n - 2))
    (hm : 2 ≤ n) (hn : n ≤ 63) : CycLe (BIT b r y) n :=
  cyc_CLK_after y _ 2 n rfl h hm hn

theorem cyc_CCF (y : Exec) (n : Nat) (h : CycLe y (n - 1)) (hm : 1 ≤ n) (hn : n ≤ 63) :
    CycLe (CCF y) n :=
  cyc_CLK_after y _ 1 n rfl h hm hn

theorem cyc_CPL (y : Exec) (n : Nat) (h : CycLe y (n - 1)) (hm : 1 ≤ n) (hn : n ≤ 63) :
    CycLe (CPL y) n :=
  cyc_CLK_after y _ 1 n rfl h hm hn

theorem cyc_DAA (y : Exec) (n : Nat) (h : CycLe y (n - 1)) (hm : 1 ≤ n) (hn : n ≤ 63) :
    CycLe (DAA y) n :=
  cyc_CLK_after y _ 1 n rfl h hm hn

theorem cyc_DEC8 (r : Reg8) (y : Exec) (n : Nat) (h : CycLe y (n - 1)) (hm : 1 ≤ n)
    (hn : n ≤ 63) : CycLe (DEC8 r y) n :=
  cyc_CLK_after y _ 1 n rfl h hm hn

theorem cyc_INC8 (r : Reg8) (y : Exec) (n : Nat) (h : CycLe y (n - 1)) (hm : 1 ≤ n)
    (hn : n ≤ 63) : CycLe (INC8 r y) n :=
  cyc_CLK_after y _ 1 n rfl h hm hn

theorem cyc_DEC16 (r : Reg16) (y : Exec) (n : Nat) (h : CycLe y (n - 2)) (hm : 2 ≤ n)
    (hn : n ≤ 63) : CycLe (DEC16 r y) n :=
  cyc_CLK_after y _ 2 n rfl h hm hn

theorem cyc_INC16 (r : Reg16) (y : Exec) (n : Nat) (h : CycLe y (n - 2)) (hm : 2 ≤ n)
    (hn : n ≤ 63) : CycLe (INC16 r y) n :=
  cyc_CLK_after y _ 2 n rfl h hm hn

theorem cyc_DI (y : Exec) (n : Nat) (h : CycLe y (n - 1)) (hm : 1 ≤ n) (hn : n ≤ 63) :
    CycLe (DI y) n :=
  cyc_CLK_after y _ 1 n rfl h hm hn

theorem cyc_EI (y : Exec) (n : Nat) (h : CycLe y (n - 1)) (hm : 1 ≤ n) (hn : n ≤ 63) :
    CycLe (EI y) n :=
  cyc_CLK_after y _ 1 n rfl h hm hn

theorem cyc_POP (r : Reg16) (y : Exec) (n : Nat) (h : CycLe y (n - 3)) (hm : 3 ≤ n)
    (hn : n ≤ 63) : CycLe (POP r y) n :=
  cyc_CLK_after y _ 3 n rfl h hm hn

theorem cyc_PUSH (inp : Operand) (y : Exec) (n : Nat) (h : CycLe y (n - 4)) (hm : 4 ≤ n)
    (hn : n ≤ 63) : CycLe (PUSH inp y) n :=
  cyc_CLK_after y _ 4 n rfl h hm hn

theorem cyc_RES (b : Nat) (r : Reg8) (y : Exec) (n : Nat) (h : CycLe y (n - 2))
    (hm : 2 ≤ n) (hn : n ≤ 63) : CycLe (RES b r y) n :=
  cyc_CLK_after y _ 2 n rfl h hm hn

theorem cyc_SET (b : Nat) (r : Reg8) (y : Exec) (n : Nat) (h : CycLe y (n - 2))
    (hm : 2 ≤ n) (hn : n ≤ 63) : CycLe (SET b r y) n :=
  cyc_CLK_after y _ 2 n rfl h hm hn

theorem cyc_RL (r : Reg8) (y : Exec) (n : Nat) (h : CycLe y (n - 2)) (hm : 2 ≤ n)
    (hn : n ≤ 63) : CycLe (RL r y) n :=
  cyc_CLK_after y _ 2 n rfl h hm hn

theorem cyc_SLA (r : Reg8) (y : Exec) (n : Nat) (h : CycLe y (n - 2)) (hm : 2 ≤ n)
    (hn : n ≤ 63) : CycLe (SLA r y) n :=
  cyc_CLK_after y _ 2 n rfl h hm hn

theorem cyc_SWAP (r : Reg8) (y : Exec) (n : Nat) (h : CycLe y (n - 2)) (hm : 2 ≤ n)
    (hn : n ≤ 63) : CycLe (SWAP r y) n :=
  cyc_CLK_after y _ 2 n rfl h hm hn

theorem cyc_RST (v : Nat) (y : Exec) (n : Nat) (h : CycLe y (n - 4)) (hm : 4 ≤ n)
    (hn : n ≤ 63) : CycLe (RST v y) n :=
  cyc_CLK_after y _ 4 n rfl h hm hn

theorem cyc_JR (p : Pred) (y : Exec) (n : Nat) (h : CycLe y (n - 3)) (hm : 3 ≤ n)
    (hn : n ≤ 63) : CycLe (JR p y) n := by
  unfold JR
  dsimp only
  split_ifs
  · exact cyc_CLK_after y _ 3 n rfl h hm hn
  · exact cyc_CLK_after y _ 2 n rfl (cyc_mono y _ _ h (by omega)) (by omega) hn

theorem cyc_JP (p : Pred) (y : Exec) (n : Nat) (h : CycLe y (n - 4)) (hm : 4 ≤ n)
    (hn : n ≤ 63) : CycLe (JP p y) n := by
  unfold JP
  dsimp only
  split_ifs
  · exact cyc_CLK_after y _ 4 n rfl h hm hn
  · exact cyc_CLK_after y _ 3 n rfl (cyc_mono y _ _ h (by omega)) (by omega) hn

theorem cyc_CALL (p : Pred) (y : Exec) (n : Nat) (h : CycLe y (n - 6)) (hm : 6 ≤ n)
    (hn : n ≤ 63) : CycLe (CALL p y) n := by
  unfold CALL
  dsimp only
  split_ifs
  · exact cyc_CLK_after y _ 6 n rfl h hm hn
  · exact cyc_CLK_after y _ 3 n rfl (cyc_mono y _ _ h (by omega)) (by omega) hn

theorem cyc_RET (p : Pred) (y : Exec) (n : Nat) (h : CycLe y (n - 5)) (hm : 5 ≤ n)
    (hn : n ≤ 63) : CycLe (RET p y) n := by
  unfold RET
  dsimp only
  split_ifs
  · exact cyc_CLK_after y _ 5 n rfl h hm hn
  · exact cyc_CLK_after y _ 2 n rfl (cyc_mono y _ _ h (by omega)) (by omega) hn

theorem cyc_ite (n : Nat) (c : Prop) [Decidable c] (a b : Outcome) (ha : c → a.cycLe n)
    (hb : ¬ c → b.cycLe n) : (if c then a else b).cycLe n := by
  split
  · exact ha ‹_›
  · exact hb ‹_›

theorem cyc_done (n : Nat) (y : Exec) (h : CycLe y n) : (Outcome.done y).cycLe n := h

theorem cyc_spin (n : Nat) (m : Machine) : (Outcome.spin m).cycLe n := trivial

set_option maxRecDepth 16384 in
set_option maxHeartbeats 1000000 in
theorem z80_cb_case_cyc (x : Exec) (op : Nat) (hx : x.actual = 0) :
    (z80_cb_case x op).cycLe 8 := by
  unfold z80_cb_case
  with_reducible repeat' first
    | refine cyc_ite _ _ _ _ (fun _ => ?_) (fun _ => ?_)
    | exact cyc_spin _ _
    | apply cyc_done
    | exact cyc_base _ _ hx
    | refine cyc_BIT _ _ _ _ ?_ (by decide) (by decide)
    | refine cyc_RES _ _ _ _ ?_ (by decide) (by decide)
    | refine cyc_SET _ _ _ _ ?_ (by decide) (by decide)
    | refine cyc_SLA _ _ _ ?_ (by decide) (by decide)
    | refine cyc_SWAP _ _ _ ?_ (by decide) (by decide)
    | refine cyc_RL _ _ _ ?_ (by decide) (by decide)

theorem z80_cb_cyc (x : Exec) (hx : x.actual = 0) : (z80_cb (fetch x)).cycLe 8 :=
  z80_cb_case_cyc _ _ hx

set_option maxRecDepth 16384 in
set_option maxHeartbeats 4000000 in
theorem z80_case_cyc (x : Exec) (op : Nat) (hx : x.actual = 0) : (z80_case x op).cycLe 8 := by
  unfold z80_case
  with_reducible repeat' first
    | refine cyc_ite _ _ _ _ (fun _ => ?_) (fun _ => ?_)
    | exact cyc_spin _ _
    | apply cyc_done
    | exact cyc_base _ _ hx
    | exact z80_cb_cyc _ hx
    | refine cyc_CLK _ _ _ ?_ (by decide) (by decide)
    | refine cyc_on _ _ _ ?_
    | refine cyc_ADD16 _ _ _ _ ?_ (by decide) (by decide)
    | refine cyc_CCF _ _ ?_ (by decide) (by decide)
    | refine cyc_CPL _ _ ?_ (by decide) (by decide)
    | refine cyc_DAA _ _ ?_ (by decide) (by decide)
    | refine cyc_DEC8 _ _ _ ?_ (by decide) (by decide)
    | refine cyc_INC8 _ _ _ ?_ (by decide) (by decide)
    | refine cyc_DEC16 _ _ _ ?_ (by decide) (by decide)
    | refine cyc_INC16 _ _ _ ?_ (by decide) (by decide)
    | refine cyc_DI _ _ ?_ (by decide) (by decide)
    | refine cyc_EI _ _ ?_ (by decide) (by decide)
    | refine cyc_POP _ _ _ ?_ (by decide) (by decide)
    | refine cyc_PUSH _ _ _ ?_ (by decide) (by decide)
    | refine cyc_RST _ _ _ ?_ (by decide) (by decide)
    | refine cyc_JR _ _ _ ?_ (by decide) (by decide)
    | refine cyc_JP _ _ _ ?_ (by decide) (by decide)
    | refine cyc_CALL _ _ _ ?_ (by decide) (by decide)
    | refine cyc_RET _ _ _ ?_ (by decide) (by decide)

/-- One pass of the loop of `z80_execute` entered with `actual == 0` leaves `actual` a
multiple of 4, at most 32. -/
theorem z80_step_cyc (x : Exec) (hx : x.actual = 0) : (z80_step x).cycLe 8 :=
  z80_case_cyc _ _ hx

/-- The value returned by the loop of `z80_execute` entered with `actual == 0`. -/
theorem z80_loop_cycles (fuel : Nat) (x : Exec) (hx : x.actual = 0) (m : Machine) (r : Nat)
    (h : z80_loop fuel x = .returned m r) : r % 4 = 0 ∧ 4 ≤ r ∧ r ≤ 32 := by
  induction fuel generalizing x with
  | zero => simp [z80_loop] at h
  | succ n ih =>
    have hs := z80_step_cyc x hx
    rw [z80_loop] at h
    cases hstep : z80_step x with
    | spin m2 => rw [hstep] at h; simp at h
    | done y =>
      rw [hstep] at h hs
      obtain ⟨k, hk, e⟩ := hs
      simp only at h
      by_cases h0 : y.actual = 0
      · rw [if_pos h0] at h
        exact ih y h0 h
      · rw [if_neg h0] at h
        injection h with h1 h2
        omega

/-- The value returned by `z80_execute`. -/
theorem z80_execute_cycles (fuel : Nat) (s m : Machine) (r : Nat)
    (h : z80_execute fuel s = .returned m r) : r % 4 = 0 ∧ 4 ≤ r ∧ r ≤ 32 :=
  z80_loop_cycles fuel _ rfl m r h

set_option maxRecDepth 100000 in
/-- C39: whenever `z80_execute` returns, whatever the state and the number of passes of
its loop, its result `r` is a multiple of 4 with `4 <= r <= 32`: it is never 0 and the
`uint8_t` counter has not wrapped. The value 32 is reached, by `PUSH BC`. -/
theorem z80_execute_result_range (fuel : Nat) (s : Machine)
    (h : (z80_execute fuel s).isReturned = true) :
    ((z80_execute fuel s).cycles % 4 = 0 ∧ 4 ≤ (z80_execute fuel s).cycles ∧
        (z80_execute fuel s).cycles ≤ 32) ∧
      (z80_execute 1 (withProgram { zeroMachine with SP := 0xfffe } [0xc5])).cycles = 32 :=
  ⟨z80_execute_cycles fuel s _ _ (Result.eq_returned _ h), by decide⟩

set_option maxRecDepth 100000 in
theorem z80_execute_result_range_witness :
    (z80_execute 2 (withProgram zeroMachine [0x37, 0x04])).isReturned = true ∧
      (((z80_execute 2 (withProgram zeroMachine [0x37, 0x04])).cycles % 4 = 0 ∧
          4 ≤ (z80_execute 2 (withProgram zeroMachine [0x37, 0x04])).cycles ∧
          (z80_execute 2 (withProgram zeroMachine [0x37, 0x04])).cycles ≤ 32) ∧
        (z80_execute 1 (withProgram { zeroMachine with SP := 0xfffe } [0xc5])).cycles = 32) :=
  ⟨by decide, z80_execute_result_range 2 (withProgram zeroMachine [0x37, 0x04]) (by decide)⟩

/-! ## The frame loop of `gb_run` -/

/-- With `cycles` a multiple of 4, the loop of `gb_run` does the same with the bound 70224
as with `MAX_CYCLES`. -/
theorem gb_run_loop_bound (zfuel fuel : Nat) (s : Machine) (b c : Nat) (hc : c % 4 = 0) :
    gb_run_loop MAX_CYCLES zfuel fuel s b c = gb_run_loop 70224 zfuel fuel s b c := by
  induction fuel generalizing s b c with
  | zero => rfl
  | succ n ih =>
    by_cases h : c < 70221
    · have h2 : c < 70224 := by omega
      cases hz : z80_execute zfuel s with
      | returned m t =>
        have ht := z80_execute_cycles zfuel s m t hz
        simp only [gb_run_loop, MAX_CYCLES, h, h2, if_true, hz]
        exact ih _ _ _ (by omega)
      | spins m => simp only [gb_run_loop, MAX_CYCLES, h, h2, if_true, hz]
      | unfinished m => simp only [gb_run_loop, MAX_CYCLES, h, h2, if_true, hz]
    · have h2 : ¬ c < 70224 := by omega
      simp only [gb_run_loop, MAX_CYCLES, h, h2, if_false]

/-- When the loop of `gb_run` is left, `cycles` was below 70224 at the start of the last
iteration and is at least 70224. -/
theorem gb_run_loop_stopped (zfuel fuel : Nat) (s : Machine) (b c : Nat) (hc : c % 4 = 0)
    (hb : b < 70221) (m : Machine) (b2 c2 : Nat)
    (h : gb_run_loop MAX_CYCLES zfuel fuel s b c = .stopped m b2 c2) :
    b2 < 70221 ∧ 70224 ≤ c2 ∧ c2 ≤ b2 + 32 ∨ (b2 = b ∧ c2 = c ∧ 70224 ≤ c) := by
  induction fuel generalizing s b c with
  | zero => simp [gb_run_loop] at h
  | succ n ih =>
    by_cases h1 : c < 70221
    · cases hz : z80_execute zfuel s with
      | returned m1 t =>
        have ht := z80_execute_cycles zfuel s m1 t hz
        simp only [gb_run_loop, MAX_CYCLES, h1, if_true, hz] at h
        have e : (c + t) % 2 ^ 32 = c + t := Nat.mod_eq_of_lt (by omega)
        rw [e] at h
        rcases ih _ c (c + t) (by omega) h1 h with h3 | ⟨h3, h4, h5⟩
        · exact Or.inl h3
        · exact Or.inl ⟨by omega, by omega, by omega⟩
      | spins m1 => simp [gb_run_loop, MAX_CYCLES, h1, hz] at h
      | unfinished m1 => simp [gb_run_loop, MAX_CYCLES, h1, hz] at h
    · simp only [gb_run_loop, MAX_CYCLES, h1, if_false] at h
      injection h with h3 h4 h5
      exact Or.inr ⟨h4.symm, h5.symm, by omega⟩

/-- The loop of `gb_run` is left or stuck once its condition may be tested
`(70224 - cycles) / 4 + 1` times. -/
theorem gb_run_loop_finishes (zfuel fuel : Nat) (s : Machine) (b c : Nat) (hc : c % 4 = 0)
    (hf : 70228 ≤ c + 4 * fuel) (hf1 : 1 ≤ fuel) (m : Machine) :
    gb_run_loop MAX_CYCLES zfuel fuel s b c ≠ .unfinished m := by
  induction fuel generalizing s b c with
  | zero => omega
  | succ n ih =>
    by_cases h1 : c < 70221
    · cases hz : z80_execute zfuel s with
      | returned m1 t =>
        have ht := z80_execute_cycles zfuel s m1 t hz
        simp only [gb_run_loop, MAX_CYCLES, h1, if_true, hz]
        have e : (c + t) % 2 ^ 32 = c + t := Nat.mod_eq_of_lt (by omega)
        rw [e]
        exact ih _ _ _ (by omega) (by omega) (by omega)
      | spins m1 => simp [gb_run_loop, MAX_CYCLES, h1, hz]
      | unfinished m1 => simp [gb_run_loop, MAX_CYCLES, h1, hz]
    · simp [gb_run_loop, MAX_CYCLES, h1]

theorem rf_refl (s : Machine) : RomFrame s s := ⟨rfl, rfl, fun _ _ => rfl⟩

theorem rf_setMem (s x : Machine) (b v : Nat) (h : RomFrame s x)
    (hb : 0x8000 ≤ b ∧ b ≠ 0xffff) : RomFrame s (setMem x b v) := by
  obtain ⟨h1, h2, h3⟩ := h
  refine ⟨h1, ?_, fun a ha => ?_⟩
  · rw [setMem_other _ _ _ _ (Ne.symm hb.2)]
    exact h2
  · rw [setMem_other _ _ _ _ (by omega)]
    exact h3 a ha

theorem rf_gb_intr (s x : Machine) (i : Nat) (h : RomFrame s x) : RomFrame s (gb_intr x i) :=
  rf_setMem s x _ _ h (by decide)

theorem rf_setScanline (s x : Machine) (v : Int) (h : RomFrame s x) :
    RomFrame s (setScanline x v) := h

theorem rf_setTimerCounter (s x : Machine) (v : Int) (h : RomFrame s x) :
    RomFrame s (setTimerCounter x v) := h

theorem rf_setDivReg (s x : Machine) (v : Int) (h : RomFrame s x) :
    RomFrame s (setDivReg x v) := h

theorem rf_ite (s a b : Machine) (c : Prop) [Decidable c] (ha : RomFrame s a)
    (hb : RomFrame s b) : RomFrame s (if c then a else b) := by
  split_ifs
  · exact ha
  · exact hb

theorem rf_gb_set_lcd_mode (s x : Machine) (h : RomFrame s x) :
    RomFrame s (gb_set_lcd_mode x).1 := by
  unfold gb_set_lcd_mode
  split_ifs
  · exact rf_setMem _ _ _ _ (rf_setMem _ _ _ _ h (by decide)) (by decide)
  · exact rf_setMem _ _ _ _ (rf_setMem _ _ _ _ h (by decide)) (by decide)
  · exact rf_setMem _ _ _ _ h (by decide)
  · exact rf_setMem _ _ _ _ h (by decide)

theorem rf_gb_set_lcd_lyc (s x : Machine) (h : RomFrame s x) :
    RomFrame s (gb_set_lcd_lyc x) := by
  unfold gb_set_lcd_lyc
  with_reducible repeat first
    | exact h
    | refine rf_ite _ _ _ _ ?_ ?_
    | refine rf_setMem _ _ _ _ ?_ (by decide)
    | refine rf_gb_intr _ _ _ ?_
    | dsimp only

theorem rf_gb_set_lcd (s x : Machine) (h : RomFrame s x) : RomFrame s (gb_set_lcd x) := by
  unfold gb_set_lcd
  with_reducible repeat first
    | exact h
    | refine rf_ite _ _ _ _ ?_ ?_
    | refine rf_setMem _ _ _ _ ?_ (by decide)
    | refine rf_gb_intr _ _ _ ?_
    | refine rf_gb_set_lcd_lyc _ _ ?_
    | refine rf_gb_set_lcd_mode _ _ ?_
    | dsimp only

theorem rf_gb_update_lcd (s x : Machine) (c : Nat) (h : RomFrame s x) :
    RomFrame s (gb_update_lcd x c) := by
  unfold gb_update_lcd gb_draw_scanline
  with_reducible repeat first
    | exact h
    | refine rf_ite _ _ _ _ ?_ ?_
    | refine rf_setMem _ _ _ _ ?_ (by decide)
    | refine rf_gb_intr _ _ _ ?_
    | refine rf_setScanline _ _ _ ?_
    | refine rf_gb_set_lcd _ _ ?_
    | dsimp only

theorem rf_gb_update_div (s x : Machine) (c : Nat) (h : RomFrame s x) :
    RomFrame s (gb_update_div x c) := by
  unfold gb_update_div
  with_reducible repeat first
    | exact h
    | refine rf_ite _ _ _ _ ?_ ?_
    | refine rf_setMem _ _ _ _ ?_ (by decide)
    | refine rf_setDivReg _ _ _ ?_
    | dsimp only

theorem rf_gb_update_timer (s x : Machine) (c : Nat) (h : RomFrame s x) :
    RomFrame s (gb_update_timer x c) := by
  unfold gb_update_timer
  simp only [gb_set_clock_eq]
  with_reducible repeat first
    | exact h
    | refine rf_ite _ _ _ _ ?_ ?_
    | refine rf_setMem _ _ _ _ ?_ (by decide)
    | refine rf_gb_intr _ _ _ ?_
    | refine rf_setTimerCounter _ _ _ ?_
    | dsimp only

/-- The function `gb_update` leaves `PC`, the ROM area and `IE` alone. -/
theorem rf_gb_update (s : Machine) (c : Nat) : RomFrame s (gb_update s c) :=
  rf_gb_update_lcd _ _ _ (rf_gb_update_timer _ _ _ (rf_gb_update_div _ _ _ (rf_refl s)))

/-- With no interrupt enabled, `gb_check_intrs` does nothing. -/
theorem gb_check_intrs_no_IE (s : Machine) (h : s.z80_memory 0xffff = 0) :
    gb_check_intrs s = s := by
  unfold gb_check_intrs
  split_ifs
  · refine gb_check_intr_skip _ s (fun j _ hj => hj.1 ?_)
    rw [h, TESTBIT, Nat.zero_and]
  · rfl
  · rfl

set_option maxRecDepth 16384 in
/-- A call of `z80_execute` on a `NOP` returns 4 with `PC` advanced by one. -/
theorem z80_execute_nop (fuel : Nat) (s : Machine) (h : GET8 s s.PC = 0) :
    z80_execute (fuel + 1) s = .returned { s with PC := (s.PC + 1) % 65536 } 4 := by
  rw [z80_execute_done s fuel 0 (CLK 1 (fetch { m := s, actual := 0 }).1) h rfl]
  rfl

/-- The loop of `gb_run` over `NOP`s in ROM with no interrupt enabled: with `4 * r`
T-cycles to go it executes `r` instructions and is left with the count at 70224. -/
theorem gb_run_loop_nops (zf k r : Nat) (s : Machine) (b : Nat) (hr : r ≤ 17556)
    (hie : s.z80_memory 0xffff = 0) (hrom : ∀ a, a < 0x8000 → s.z80_memory a = 0)
    (hpc : s.PC + r < 0x8000) :
    ∃ m, gb_run_loop MAX_CYCLES (zf + 1) (r + 1 + k) s b (70224 - 4 * r) =
      .stopped m (if r = 0 then b else 70220) 70224 := by
  induction r generalizing s b with
  | zero =>
    refine ⟨s, ?_⟩
    have e : 0 + 1 + k = k + 1 := by omega
    rw [e, gb_run_loop]
    simp [MAX_CYCLES]
  | succ r ih =>
    have hop : GET8 s s.PC = 0 := hrom _ (by omega)
    have e : r + 1 + 1 + k = (r + 1 + k) + 1 := by omega
    have hlt : 70224 - 4 * (r + 1) < MAX_CYCLES := by
      unfold MAX_CYCLES
      omega
    have hc : (70224 - 4 * (r + 1) + 4) % 2 ^ 32 = 70224 - 4 * r := by omega
    obtain ⟨f1, f2, f3⟩ := rf_gb_update { s with PC := (s.PC + 1) % 65536 } 4
    have hie2 : (gb_update { s with PC := (s.PC + 1) % 65536 } 4).z80_memory 0xffff = 0 := by
      rw [f2]
      exact hie
    have hpc2 : (gb_update { s with PC := (s.PC + 1) % 65536 } 4).PC = s.PC + 1 := by
      rw [f1]
      show (s.PC + 1) % 65536 = s.PC + 1
      omega
    obtain ⟨m, hm⟩ := ih (gb_update { s with PC := (s.PC + 1) % 65536 } 4)
      (70224 - 4 * (r + 1)) (by omega) hie2
      (fun a ha => by
        rw [f3 a ha]
        exact hrom a ha)
      (by omega)
    refine ⟨m, ?_⟩
    rw [e, gb_run_loop, if_pos hlt, z80_execute_nop zf s hop]
    simp only [hc, gb_check_intrs_no_IE _ hie2]
    rw [hm]
    by_cases h0 : r = 0
    · subst h0
      rfl
    · simp only [h0, if_false]
      have : ¬ (r + 1 = 0) := by omega
      simp only [this, if_false]

/-- The frame loop does stop: from the boot state over a ROM of `NOP`s, `gb_run` executes
17556 instructions and leaves its loop with the count at 70224, the count being 70220
before the last instruction. -/
theorem gb_run_nop_frame (k : Nat) :
    ∃ m, gb_run 1 (17557 + k) (boot (fun _ => 0)) = .stopped m 70220 70224 := by
  have h := gb_run_loop_nops 0 k 17556 (boot (fun _ => 0)) 0 (le_refl _) (by decide)
    (fun a ha => by simp [boot, load_file, ha]) (by decide)
  exact h

/-- C37: the frame length of `gb_run`. With room for 17557 tests of the loop condition,
`gb_run` either meets a call of `z80_execute` that does not return, or leaves its loop;
when it leaves the loop, the count of T-cycles was below 70224 before the last instruction
and is at least 70224 after it, and the loop with the bound 70224 in place of
`MAX_CYCLES = 70221` ends in the same state with the same counts (and does so whatever the
room given). The loop is left in some runs: from the boot state over a ROM of `NOP`s, with
the count at 70220 before the last instruction and 70224 after it. -/
theorem gb_run_frame_length (zfuel k : Nat) (s : Machine) :
    (∀ fuel, gb_run_loop 70224 zfuel fuel s 0 0 = gb_run zfuel fuel s) ∧
      (∀ m, gb_run zfuel (17557 + k) s ≠ .unfinished m) ∧
      (∀ fuel m b c, gb_run zfuel fuel s = .stopped m b c → b < 70224 ∧ 70224 ≤ c) ∧
      ∃ m, gb_run 1 17557 (boot (fun _ => 0)) = .stopped m 70220 70224 := by
  refine ⟨fun fuel => (gb_run_loop_bound zfuel fuel s 0 0 rfl).symm,
    fun m => gb_run_loop_finishes zfuel _ s 0 0 rfl (by omega) (by omega) m, ?_,
    gb_run_nop_frame 0⟩
  intro fuel m b c h
  rcases gb_run_loop_stopped zfuel fuel s 0 0 rfl (by decide) m b c h with h1 | ⟨_, _, h3⟩
  · omega
  · omega

/-! ## The LCD block of `gb_update` -/

theorem or_and_one (x i : Nat) (hi : i &&& 1 = 0) : (x ||| i) % 256 &&& 1 = x &&& 1 := by
  rw [and_mod_256 _ _ (by decide), Nat.and_comm, Nat.and_or_distrib_left, Nat.and_comm 1 i, hi,
    Nat.or_zero, Nat.and_comm]

theorem or_one_and_one (x : Nat) : (x ||| intr_vblank) % 256 &&& 1 = 1 := by
  have e : intr_vblank = 1 := rfl
  rw [e, and_mod_256 _ _ (by decide), Nat.and_comm, Nat.and_or_distrib_left, Nat.and_self]
  apply Nat.eq_of_testBit_eq
  intro j
  rw [Nat.testBit_or, Nat.testBit_and]
  cases (Nat.testBit 1 j) <;> simp

theorem lf_refl (s : Machine) : LcdFrame s s := ⟨rfl, rfl, rfl, rfl, rfl⟩

theorem lf_setMem (s x : Machine) (b v : Nat) (h : LcdFrame s x)
    (hb : b = 0xff04 ∨ b = 0xff05 ∨ b = 0xff41) : LcdFrame s (setMem x b v) := by
  obtain ⟨h1, h2, h3, h4, h5⟩ := h
  refine ⟨h1, ?_, ?_, ?_, ?_⟩
  · rw [setMem_other _ _ _ _ (by rcases hb with rfl | rfl | rfl <;> decide)]
    exact h2
  · rw [setMem_other _ _ _ _ (by rcases hb with rfl | rfl | rfl <;> decide)]
    exact h3
  · rw [setMem_other _ _ _ _ (by rcases hb with rfl | rfl | rfl <;> decide)]
    exact h4
  · rw [setMem_other _ _ _ _ (by rcases hb with rfl | rfl | rfl <;> decide)]
    exact h5

theorem lf_gb_intr (s x : Machine) (i : Nat) (h : LcdFrame s x) (hi : i &&& 1 = 0) :
    LcdFrame s (gb_intr x i) := by
  obtain ⟨h1, h2, h3, h4, h5⟩ := h
  refine ⟨h1, ?_, ?_, ?_, ?_⟩
  · rw [gb_intr, setMem_other _ _ _ _ (by decide)]
    exact h2
  · rw [gb_intr, setMem_other _ _ _ _ (by decide)]
    exact h3
  · rw [gb_intr, setMem_other _ _ _ _ (by decide)]
    exact h4
  · rw [gb_intr, setMem_same, or_and_one _ _ hi]
    exact h5

theorem lf_setTimerCounter (s x : Machine) (v : Int) (h : LcdFrame s x) :
    LcdFrame s (setTimerCounter x v) := h

theorem lf_setDivReg (s x : Machine) (v : Int) (h : LcdFrame s x) :
    LcdFrame s (setDivReg x v) := h

theorem lf_ite (s a b : Machine) (c : Prop) [Decidable c] (ha : LcdFrame s a)
    (hb : LcdFrame s b) : LcdFrame s (if c then a else b) := by
  split_ifs
  · exact ha
  · exact hb

theorem lf_gb_set_lcd_mode (s x : Machine) (h : LcdFrame s x) :
    LcdFrame s (gb_set_lcd_mode x).1 := by
  unfold gb_set_lcd_mode
  split_ifs
  · exact lf_setMem _ _ _ _ (lf_setMem _ _ _ _ h (by decide)) (by decide)
  · exact lf_setMem _ _ _ _ (lf_setMem _ _ _ _ h (by decide)) (by decide)
  · exact lf_setMem _ _ _ _ h (by decide)
  · exact lf_setMem _ _ _ _ h (by decide)

theorem lf_gb_set_lcd_lyc (s x : Machine) (h : LcdFrame s x) :
    LcdFrame s (gb_set_lcd_lyc x) := by
  unfold gb_set_lcd_lyc
  with_reducible repeat first
    | exact h
    | refine lf_ite _ _ _ _ ?_ ?_
    | refine lf_setMem _ _ _ _ ?_ (by decide)
    | refine lf_gb_intr _ _ _ ?_ (by decide)
    | dsimp only

/-- With the LCD on, `gb_set_lcd` leaves `scanline`, `LCDC`, `LY`, `LYC` and the VBlank
bit of `IF` alone. -/
theorem lf_gb_set_lcd (s x : Machine) (h : LcdFrame s x)
    (hon : TESTBIT (x.z80_memory 0xff40) 7 ≠ 0) : LcdFrame s (gb_set_lcd x) := by
  unfold gb_set_lcd
  rw [if_neg hon]
  with_reducible repeat first
    | exact h
    | refine lf_ite _ _ _ _ ?_ ?_
    | refine lf_gb_intr _ _ _ ?_ (by decide)
    | refine lf_gb_set_lcd_lyc _ _ ?_
    | refine lf_gb_set_lcd_mode _ _ ?_
    | dsimp only

theorem lf_gb_update_div (s x : Machine) (c : Nat) (h : LcdFrame s x) :
    LcdFrame s (gb_update_div x c) := by
  unfold gb_update_div
  with_reducible repeat first
    | exact h
    | refine lf_ite _ _ _ _ ?_ ?_
    | refine lf_setMem _ _ _ _ ?_ (by decide)
    | refine lf_setDivReg _ _ _ ?_
    | dsimp only

theorem lf_gb_update_timer (s x : Machine) (c : Nat) (h : LcdFrame s x) :
    LcdFrame s (gb_update_timer x c) := by
  unfold gb_update_timer
  simp only [gb_set_clock_eq]
  with_reducible repeat first
    | exact h
    | refine lf_ite _ _ _ _ ?_ ?_
    | refine lf_setMem _ _ _ _ ?_ (by decide)
    | refine lf_gb_intr _ _ _ ?_ (by decide)
    | refine lf_setTimerCounter _ _ _ ?_
    | dsimp only

/-- With the LCD off, `gb_set_lcd` zeroes `LY` and leaves `LCDC` alone. -/
theorem gb_set_lcd_off (x : Machine) (hoff : TESTBIT (x.z80_memory 0xff40) 7 = 0) :
    (gb_set_lcd x).z80_memory 0xff44 = 0 ∧
      (gb_set_lcd x).z80_memory 0xff40 = x.z80_memory 0xff40 := by
  unfold gb_set_lcd
  rw [if_pos hoff]
  simp [setMem]

/-- The LCD block of `gb_update` with the LCD on, seen through `scanline`, `LY`, `LCDC`,
`LYC` and the VBlank bit of `IF`. -/
theorem gb_update_lcd_on (x : Machine) (c : Nat)
    (hon : TESTBIT (x.z80_memory 0xff40) 7 ≠ 0) :
    (gb_update_lcd x c).z80_memory 0xff40 = x.z80_memory 0xff40 ∧
      (gb_update_lcd x c).z80_memory 0xff45 = x.z80_memory 0xff45 ∧
      (gb_update_lcd x c).scanline = (if x.scanline + c ≥ 456 then 0 else x.scanline + c) ∧
      (gb_update_lcd x c).z80_memory 0xff44 =
        (if x.scanline + c ≥ 456 then nextLY (x.z80_memory 0xff44) else x.z80_memory 0xff44) ∧
      (gb_update_lcd x c).z80_memory 0xff0f &&& 1 =
        (if x.scanline + c ≥ 456 ∧ (x.z80_memory 0xff44 + 1) % 256 = 144 then 1
          else x.z80_memory 0xff0f &&& 1) := by
  obtain ⟨f1, f2, f3, f4, f5⟩ := lf_gb_set_lcd x x (lf_refl x) hon
  have hon2 : TESTBIT ((gb_set_lcd x).z80_memory 0xff40) 7 ≠ 0 := by rw [f2]; exact hon
  unfold gb_update_lcd gb_draw_scanline
  generalize gb_set_lcd x = y at *
  simp only [hon2, ne_eq, not_false_eq_true, if_true, ite_self]
  simp only [setScanline, f1]
  by_cases hs : x.scanline + (c : Int) ≥ 456
  · simp only [hs, if_true, true_and]
    have e1 : (setMem { y with scanline := 0 } 0xff44 ((y.z80_memory 0xff44 + 1) % 256)).z80_memory
        0xff44 = (x.z80_memory 0xff44 + 1) % 256 := by rw [setMem_same, f3]
    by_cases h144 : (x.z80_memory 0xff44 + 1) % 256 = 144
    · simp only [e1, h144, if_true, nextLY]
      refine ⟨?_, ?_, rfl, ?_, ?_⟩
      · simp only [gb_intr, setMem]
        simpa using f2
      · simp only [gb_intr, setMem]
        simpa using f4
      · simp only [gb_intr, setMem]
        simpa [f3] using h144
      · rw [gb_intr, setMem_same]
        exact or_one_and_one _
    · simp only [e1, h144, if_false, nextLY]
      by_cases h153 : (x.z80_memory 0xff44 + 1) % 256 > 153
      · simp only [h153, if_true]
        refine ⟨?_, ?_, rfl, ?_, ?_⟩
        · simpa [setMem] using f2
        · simpa [setMem] using f4
        · simp [setMem]
        · simpa [setMem, Nat.and_one_is_mod] using f5
      · simp only [h153, if_false]
        refine ⟨?_, ?_, rfl, ?_, ?_⟩
        · simpa [setMem] using f2
        · simpa [setMem] using f4
        · simp [setMem, f3]
        · simpa [setMem, Nat.and_one_is_mod] using f5
  · simp only [hs, if_false, false_and]
    exact ⟨f2, f4, trivial, f3, f5⟩

/-- The blocks of `gb_update` that precede the LCD block leave the LCD's view alone. -/
theorem lf_gb_update_pre (s : Machine) (c : Nat) :
    LcdFrame s (gb_update_timer (gb_update_div s c) c) :=
  lf_gb_update_timer _ _ _ (lf_gb_update_div _ _ _ (lf_refl s))

/-- One call `gb_update(c)` with the LCD on, seen through `scanline`, `LY`, `LCDC`, `LYC`
and the VBlank bit of `IF`. -/
theorem gb_update_on (s : Machine) (c : Nat) (hc : c < 256)
    (hon : TESTBIT (s.z80_memory 0xff40) 7 ≠ 0) :
    (gb_update s c).z80_memory 0xff40 = s.z80_memory 0xff40 ∧
      (gb_update s c).z80_memory 0xff45 = s.z80_memory 0xff45 ∧
      (gb_update s c).scanline = (if s.scanline + c ≥ 456 then 0 else s.scanline + c) ∧
      (gb_update s c).z80_memory 0xff44 =
        (if s.scanline + c ≥ 456 then nextLY (s.z80_memory 0xff44) else s.z80_memory 0xff44) ∧
      (gb_update s c).z80_memory 0xff0f &&& 1 =
        (if s.scanline + c ≥ 456 ∧ (s.z80_memory 0xff44 + 1) % 256 = 144 then 1
          else s.z80_memory 0xff0f &&& 1) := by
  obtain ⟨f1, f2, f3, f4, f5⟩ := lf_gb_update_pre s c
  have hon2 : TESTBIT ((gb_update_timer (gb_update_div s c) c).z80_memory 0xff40) 7 ≠ 0 := by
    rw [f2]
    exact hon
  have h := gb_update_lcd_on _ c hon2
  rw [f1, f2, f3, f4, f5] at h
  rw [gb_update, Nat.mod_eq_of_lt hc]
  exact h

/-- One call `gb_update(c)` with the LCD off leaves `LY` at 0. -/
theorem gb_update_off (s : Machine) (c : Nat)
    (hoff : TESTBIT (s.z80_memory 0xff40) 7 = 0) : (gb_update s c).z80_memory 0xff44 = 0 := by
  obtain ⟨_, f2, _, _, _⟩ := lf_gb_update_pre s (c % 256)
  have hoff2 : TESTBIT ((gb_update_timer (gb_update_div s (c % 256)) (c % 256)).z80_memory
      0xff40) 7 = 0 := by
    rw [f2]
    exact hoff
  obtain ⟨g1, g2⟩ := gb_set_lcd_off _ hoff2
  rw [gb_update, gb_update_lcd]
  simp only [g2, hoff2, ne_eq, not_true_eq_false, if_false]
  exact g1

theorem nextLY_le (ly : Nat) : nextLY ly ≤ 153 := by
  unfold nextLY
  split_ifs <;> omega

theorem dmaCopy_other (src : Nat) (l : List Nat) (s : Machine) (a : Nat)
    (h : ∀ i ∈ l, 0xfe00 + i ≠ a) : (dmaCopy src l s).z80_memory a = s.z80_memory a := by
  induction l generalizing s with
  | nil => rfl
  | cons x xs ih =>
    have e : dmaCopy src (x :: xs) s =
        dmaCopy src xs (setMem s (0xfe00 + x) (GET8 s ((src + x) % 65536))) := rfl
    rw [e, ih _ (fun i hi => h i (List.mem_cons_of_mem x hi)),
      setMem_other _ _ _ _ (Ne.symm (h x (List.mem_cons_self x xs)))]

/-- The byte `LY` after a bus write: `PUT8` changes it only when the address is `0xff44`,
and then to 0. -/
theorem PUT8_LY (s : Machine) (a v : Nat) :
    (PUT8 s a v).z80_memory 0xff44 = if a = 0xff44 then 0 else s.z80_memory 0xff44 := by
  by_cases h46 : a = 0xff46
  · subst h46
    rw [PUT8_dma_eq, dmaCopy_other _ _ _ _ (fun i hi => by
      have := List.mem_range.mp hi
      omega)]
    simp
  · rw [PUT8, PUT8F]
    simp only [ite_self, if_neg h46, gb_set_clock_eq, setTimerCounter]
    by_cases h1 : a ≥ 0xe000 ∧ a ≤ 0xfdff
    · rw [if_pos h1, setMem_other _ _ _ _ (by omega), setMem_other _ _ _ _ (by omega),
        if_neg (by omega)]
    · rw [if_neg h1]
      by_cases h2 : a ≥ 0xfea0 ∧ a < 0xfeff
      · rw [if_pos h2, if_neg (by omega)]
      · rw [if_neg h2]
        by_cases h3 : a = 0xff04
        · rw [if_pos h3, setMem_other _ _ _ _ (by omega), if_neg (by omega)]
        · rw [if_neg h3]
          by_cases h4 : a = 0xff07
          · subst h4
            simp only [if_true]
            have e : ¬ (0xff07 = 0xff44) := by decide
            rw [if_neg e]
            have e2 : (setMem s 0xff07 v).z80_memory 0xff44 = s.z80_memory 0xff44 :=
              setMem_other _ _ _ _ (by decide)
            split_ifs <;> exact e2
          · rw [if_neg h4]
            by_cases h5 : a = 0xff44
            · rw [if_pos h5, if_pos h5, h5, setMem_same]
            · rw [if_neg h5, if_neg h5, setMem_other _ _ _ _ (Ne.symm h5)]

/-- C40: `LY <= 153` is an invariant of the machine. If it holds before, it holds after
`gb_update(c)` for every step `c`, whatever `LCDC` and `STAT` hold, and after `PUT8(a, v)`
for every address and value; the only bus write that changes the byte at `0xff44` is the
one to `0xff44` itself, which sets it to 0. -/
theorem LY_invariant (s : Machine) (h : s.z80_memory 0xff44 ≤ 153) :
    (∀ c, (gb_update s c).z80_memory 0xff44 ≤ 153) ∧
      (∀ a v, (PUT8 s a v).z80_memory 0xff44 ≤ 153) ∧
      ∀ a v, (PUT8 s a v).z80_memory 0xff44 ≠ s.z80_memory 0xff44 →
        a = 0xff44 ∧ (PUT8 s a v).z80_memory 0xff44 = 0 := by
  refine ⟨fun c => ?_, fun a v => ?_, fun a v hne => ?_⟩
  · by_cases hon : TESTBIT (s.z80_memory 0xff40) 7 = 0
    · rw [gb_update_off s c hon]
      exact Nat.zero_le _
    · have e : gb_update s c = gb_update s (c % 256) := by
        rw [gb_update, gb_update, Nat.mod_mod]
      rw [e, (gb_update_on s (c % 256) (Nat.mod_lt _ (by decide)) hon).2.2.2.1]
      split_ifs
      · exact nextLY_le _
      · exact h
  · rw [PUT8_LY]
    split_ifs
    · exact Nat.zero_le _
    · exact h
  · rw [PUT8_LY] at hne ⊢
    by_cases ha : a = 0xff44
    · simp [ha]
    · simp [ha] at hne

theorem LY_invariant_witness :
    (setMem (setMem zeroMachine 0xff40 0x91) 0xff44 153).z80_memory 0xff44 ≤ 153 ∧
      ((∀ c, (gb_update (setMem (setMem zeroMachine 0xff40 0x91) 0xff44 153) c).z80_memory
          0xff44 ≤ 153) ∧
        (∀ a v, (PUT8 (setMem (setMem zeroMachine 0xff40 0x91) 0xff44 153) a v).z80_memory
          0xff44 ≤ 153) ∧
        ∀ a v, (PUT8 (setMem (setMem zeroMachine 0xff40 0x91) 0xff44 153) a v).z80_memory
            0xff44 ≠ (setMem (setMem zeroMachine 0xff40 0x91) 0xff44 153).z80_memory 0xff44 →
          a = 0xff44 ∧
            (PUT8 (setMem (setMem zeroMachine 0xff40 0x91) 0xff44 153) a v).z80_memory
              0xff44 = 0) :=
  ⟨by decide, LY_invariant (setMem (setMem zeroMachine 0xff40 0x91) 0xff44 153) (by decide)⟩

/-! ## One frame of the LCD -/

/-- Whether `gb_update(c)` requests VBlank, with the LCD on: the line ends and `LY`
becomes 144. -/
theorem gb_update_vblank_on (s : Machine) (c : Nat) (hc : c < 256)
    (hon : TESTBIT (s.z80_memory 0xff40) 7 ≠ 0) :
    gb_update_vblank s c =
      decide (s.scanline + c ≥ 456 ∧ (s.z80_memory 0xff44 + 1) % 256 = 144) := by
  obtain ⟨f1, f2, f3, f4, f5⟩ := lf_gb_update_pre s c
  have hon2 : TESTBIT ((gb_update_timer (gb_update_div s c) c).z80_memory 0xff40) 7 ≠ 0 := by
    rw [f2]
    exact hon
  obtain ⟨g1, g2, g3, g4, g5⟩ := lf_gb_set_lcd _ _ (lf_refl _) hon2
  have hon3 : TESTBIT ((gb_set_lcd (gb_update_timer (gb_update_div s c) c)).z80_memory
      0xff40) 7 ≠ 0 := by
    rw [g2]
    exact hon2
  rw [gb_update_vblank, Nat.mod_eq_of_lt hc, gb_update_lcd_vblank]
  simp only [hon3, ne_eq, not_false_eq_true, if_true, setScanline, g1, f1, setMem_same, g3, f3]
  by_cases hs : s.scanline + (c : Int) ≥ 456
  · simp [hs]
  · simp [hs]

/-- The pair of `scanline` and `LY`, and the LCD switch, after a list of steps with the
LCD on. -/
theorem gb_update_seq_lcdRun (cs : List Nat) (hcs : ∀ c ∈ cs, c < 256) (s : Machine)
    (hon : TESTBIT (s.z80_memory 0xff40) 7 ≠ 0) (sl : Nat) (hsl : s.scanline = sl) :
    TESTBIT ((gb_update_seq cs s).z80_memory 0xff40) 7 ≠ 0 ∧
      (gb_update_seq cs s).scanline = ((lcdRun cs (sl, s.z80_memory 0xff44)).1 : Nat) ∧
      (gb_update_seq cs s).z80_memory 0xff44 = (lcdRun cs (sl, s.z80_memory 0xff44)).2 := by
  induction cs generalizing s sl with
  | nil => exact ⟨hon, hsl, rfl⟩
  | cons c cs ih =>
    have hc : c < 256 := hcs c (List.mem_cons_self c cs)
    obtain ⟨u1, _, u3, u4, _⟩ := gb_update_on s c hc hon
    have e : gb_update_seq (c :: cs) s = gb_update_seq cs (gb_update s c) := rfl
    have e2 : lcdRun (c :: cs) (sl, s.z80_memory 0xff44) =
        lcdRun cs (lcdStep (sl, s.z80_memory 0xff44) c) := rfl
    have hon2 : TESTBIT ((gb_update s c).z80_memory 0xff40) 7 ≠ 0 := by
      rw [u1]
      exact hon
    have key : (gb_update s c).scanline = ((lcdStep (sl, s.z80_memory 0xff44) c).1 : Nat) ∧
        (gb_update s c).z80_memory 0xff44 = (lcdStep (sl, s.z80_memory 0xff44) c).2 := by
      rw [u3, u4, hsl]
      unfold lcdStep
      by_cases h : sl + c ≥ 456
      · have h2 : (sl : Int) + (c : Int) ≥ 456 := by omega
        simp [h, h2]
      · have h2 : ¬ (sl : Int) + (c : Int) ≥ 456 := by omega
        simp only [h, h2, if_false]
        exact ⟨by push_cast; rfl, trivial⟩
    have := ih (fun k hk => hcs k (List.mem_cons_of_mem c hk)) (gb_update s c) hon2 _ key.1
    rw [e, e2]
    rw [key.2] at this
    exact this

theorem nextLY_mod (q : Nat) : nextLY (q % 154) = (q + 1) % 154 := by
  unfold nextLY
  split_ifs <;> omega

/-- One call `gb_update(c)` with the LCD on, `t` T-cycles into the frame, when the step
does not straddle a scanline boundary. -/
theorem gb_update_aligned (t c : Nat) (s : Machine)
    (hon : TESTBIT (s.z80_memory 0xff40) 7 ≠ 0) (hsl : s.scanline = ((t % 456 : Nat) : Int))
    (hly : s.z80_memory 0xff44 = t / 456 % 154) (hc : c < 256) (ha : t % 456 + c ≤ 456) :
    TESTBIT ((gb_update s c).z80_memory 0xff40) 7 ≠ 0 ∧
      (gb_update s c).scanline = (((t + c) % 456 : Nat) : Int) ∧
      (gb_update s c).z80_memory 0xff44 = (t + c) / 456 % 154 ∧
      (t + c ≤ 70224 → gb_update_vblank s c = decide (t < 65664 ∧ 65664 ≤ t + c)) ∧
      (t + c ≤ 70224 → (gb_update s c).z80_memory 0xff0f &&& 1 =
        if t < 65664 ∧ 65664 ≤ t + c then 1 else s.z80_memory 0xff0f &&& 1) := by
  obtain ⟨u1, _, u3, u4, u5⟩ := gb_update_on s c hc hon
  have v := gb_update_vblank_on s c hc hon
  rw [hsl] at u3 u4 u5 v
  rw [hly] at u4 u5 v
  rw [u1, u3, u4, u5, v]
  by_cases h : t % 456 + c = 456
  · have h1 : (t + c) % 456 = 0 := by omega
    have h2 : (t + c) / 456 = t / 456 + 1 := by omega
    have h3 : ((t % 456 : Nat) : Int) + (c : Int) ≥ 456 := by omega
    rw [if_pos h3, if_pos h3, h1, h2, nextLY_mod]
    refine ⟨hon, rfl, rfl, fun hb => ?_, fun hb => ?_⟩
    · have e : (((t % 456 : Nat) : Int) + (c : Int) ≥ 456 ∧ (t / 456 % 154 + 1) % 256 = 144) ↔
          (t < 65664 ∧ 65664 ≤ t + c) := by omega
      simp only [e]
    · have e : (((t % 456 : Nat) : Int) + (c : Int) ≥ 456 ∧ (t / 456 % 154 + 1) % 256 = 144) ↔
          (t < 65664 ∧ 65664 ≤ t + c) := by omega
      simp only [e]
  · have h1 : (t + c) % 456 = t % 456 + c := by omega
    have h2 : (t + c) / 456 = t / 456 := by omega
    have h3 : ¬ ((t % 456 : Nat) : Int) + (c : Int) ≥ 456 := by omega
    have e : ¬ (t < 65664 ∧ 65664 ≤ t + c) := by omega
    have e4 : ¬ (((t % 456 : Nat) : Int) + (c : Int) ≥ 456 ∧ (t / 456 % 154 + 1) % 256 = 144) :=
      fun hh => h3 hh.1
    rw [if_neg h3, if_neg h3, h1, h2, if_neg e4, if_neg e]
    refine ⟨hon, by push_cast; rfl, rfl, fun _ => ?_, fun _ => rfl⟩
    simp only [e4, e]

/-- The LCD over a list of steps none of which straddles a scanline boundary, from `t`
T-cycles into the frame. -/
theorem gb_update_seq_aligned (cs : List Nat) (t : Nat) (s : Machine)
    (hon : TESTBIT (s.z80_memory 0xff40) 7 ≠ 0) (hsl : s.scanline = ((t % 456 : Nat) : Int))
    (hly : s.z80_memory 0xff44 = t / 456 % 154) (hal : Aligned t cs) :
    (gb_update_seq cs s).z80_memory 0xff44 = (t + cs.sum) / 456 % 154 ∧
      (t + cs.sum ≤ 70224 →
        vblankRequests cs s = (if t < 65664 ∧ 65664 ≤ t + cs.sum then 1 else 0) ∧
        (gb_update_seq cs s).z80_memory 0xff0f &&& 1 =
          if t < 65664 ∧ 65664 ≤ t + cs.sum then 1 else s.z80_memory 0xff0f &&& 1) := by
  induction cs generalizing t s with
  | nil =>
    refine ⟨hly, fun _ => ⟨?_, ?_⟩⟩
    · have e : ¬ (t < 65664 ∧ 65664 ≤ t + ([] : List Nat).sum) := by
        simp only [List.sum_nil]
        omega
      rw [if_neg e]
      rfl
    · have e : ¬ (t < 65664 ∧ 65664 ≤ t + ([] : List Nat).sum) := by
        simp only [List.sum_nil]
        omega
      rw [if_neg e]
      rfl
  | cons c cs ih =>
    obtain ⟨hc, ha, hal2⟩ := hal
    obtain ⟨w1, w2, w3, w4, w5⟩ := gb_update_aligned t c s hon hsl hly hc ha
    obtain ⟨i1, i2⟩ := ih (t + c) (gb_update s c) w1 w2 w3 hal2
    have e : gb_update_seq (c :: cs) s = gb_update_seq cs (gb_update s c) := rfl
    have e2 : vblankRequests (c :: cs) s =
        (if gb_update_vblank s c then 1 else 0) + vblankRequests cs (gb_update s c) := rfl
    have e3 : t + (c :: cs).sum = t + c + cs.sum := by
      rw [List.sum_cons]
      omega
    rw [e, e2, e3]
    refine ⟨i1, fun hb => ?_⟩
    obtain ⟨j1, j2⟩ := i2 hb
    rw [j1, j2, w4 (by omega), w5 (by omega)]
    constructor
    · simp only [decide_eq_true_eq]
      split_ifs <;> omega
    · split_ifs <;> first | rfl | omega

theorem aligned_take (cs : List Nat) (t k : Nat) (h : Aligned t cs) : Aligned t (cs.take k) := by
  induction cs generalizing t k with
  | nil => simpa using h
  | cons c cs ih =>
    cases k with
    | zero => trivial
    | succ k => exact ⟨h.1, h.2.1, ih _ _ h.2.2⟩

/-- A list of steps none of which straddles a scanline boundary stops at each boundary
on its way. -/
theorem aligned_hits (cs : List Nat) (t j : Nat) (h : Aligned t cs) (h1 : t ≤ 456 * j)
    (h2 : 456 * j ≤ t + cs.sum) : ∃ k, t + (cs.take k).sum = 456 * j := by
  induction cs generalizing t with
  | nil =>
    refine ⟨0, ?_⟩
    simp only [List.sum_nil] at h2
    simp only [List.take_nil, List.sum_nil]
    omega
  | cons c cs ih =>
    by_cases h0 : t = 456 * j
    · exact ⟨0, by simp [h0]⟩
    · obtain ⟨_, ha, hal⟩ := h
      rw [List.sum_cons] at h2
      obtain ⟨k, hk⟩ := ih (t + c) hal (by omega) (by omega)
      refine ⟨k + 1, ?_⟩
      rw [List.take_succ_cons, List.sum_cons]
      omega

/-- C31 (as the code has it): the PPU frame invariant for step sequences that stop at each
scanline boundary. With the LCD on (`LCDC` bit 7 set), from `LY = 0` and `scanline = 0`, for
every sequence of step sizes whose sum is 70224 and none of which straddles a multiple of
456 T-cycles (steps of 4, 8, 12 or 24 throughout, for instance), stepping `gb_update`
through the sequence keeps `LY == total / 456 mod 154` after every prefix, `LY` takes each
of the values 0..153, it is 0 again at the end, and the VBlank interrupt is requested
exactly once: one call `gb_intr(intr_vblank)` is made, and bit 0 of `IF` is set at the
end. -/
theorem gb_update_seq_frame (cs : List Nat) (s : Machine)
    (hon : TESTBIT (s.z80_memory 0xff40) 7 ≠ 0) (hly : s.z80_memory 0xff44 = 0)
    (hsl : s.scanline = 0) (hal : Aligned 0 cs) (hsum : cs.sum = 70224) :
    (∀ k, (gb_update_seq (cs.take k) s).z80_memory 0xff44 = (cs.take k).sum / 456 % 154) ∧
      (∀ v, v ≤ 153 → ∃ k, (gb_update_seq (cs.take k) s).z80_memory 0xff44 = v) ∧
      (gb_update_seq cs s).z80_memory 0xff44 = 0 ∧
      vblankRequests cs s = 1 ∧ (gb_update_seq cs s).z80_memory 0xff0f &&& 1 = 1 := by
  have key : ∀ k, (gb_update_seq (cs.take k) s).z80_memory 0xff44 =
      (cs.take k).sum / 456 % 154 := by
    intro k
    have := (gb_update_seq_aligned (cs.take k) 0 s hon hsl hly (aligned_take cs 0 k hal)).1
    rw [Nat.zero_add] at this
    exact this
  obtain ⟨a1, a2⟩ := gb_update_seq_aligned cs 0 s hon hsl hly hal
  rw [Nat.zero_add, hsum] at a1 a2
  obtain ⟨a3, a4⟩ := a2 (le_refl _)
  refine ⟨key, fun v hv => ?_, a1, ?_, ?_⟩
  · obtain ⟨k, hk⟩ := aligned_hits cs 0 v hal (Nat.zero_le _) (by omega)
    refine ⟨k, ?_⟩
    rw [Nat.zero_add] at hk
    rw [key k, hk]
    omega
  · rw [a3]
    rfl
  · rw [a4]
    rfl

theorem aligned_replicate_24 (n t : Nat) (ht : t % 24 = 0) :
    Aligned t (List.replicate n 24) := by
  induction n generalizing t with
  | zero => trivial
  | succ n ih => exact ⟨by decide, by omega, ih (t + 24) (by omega)⟩

theorem gb_update_seq_frame_witness :
    TESTBIT ((setMem zeroMachine 0xff40 0x91).z80_memory 0xff40) 7 ≠ 0 ∧
      Aligned 0 (List.replicate 2926 24) ∧ (List.replicate 2926 24).sum = 70224 ∧
      ((∀ k, (gb_update_seq ((List.replicate 2926 24).take k)
            (setMem zeroMachine 0xff40 0x91)).z80_memory 0xff44 =
          ((List.replicate 2926 24).take k).sum / 456 % 154) ∧
        (∀ v, v ≤ 153 → ∃ k, (gb_update_seq ((List.replicate 2926 24).take k)
            (setMem zeroMachine 0xff40 0x91)).z80_memory 0xff44 = v) ∧
        (gb_update_seq (List.replicate 2926 24)
            (setMem zeroMachine 0xff40 0x91)).z80_memory 0xff44 = 0 ∧
        vblankRequests (List.replicate 2926 24) (setMem zeroMachine 0xff40 0x91) = 1 ∧
        (gb_update_seq (List.replicate 2926 24)
            (setMem zeroMachine 0xff40 0x91)).z80_memory 0xff0f &&& 1 = 1) :=
  ⟨by decide, aligned_replicate_24 2926 0 rfl,
    by simp only [List.sum_replicate, smul_eq_mul, Nat.reduceMul],
    gb_update_seq_frame (List.replicate 2926 24) (setMem zeroMachine 0xff40 0x91) (by decide)
      (by decide) (by decide) (aligned_replicate_24 2926 0 rfl)
      (by simp only [List.sum_replicate, smul_eq_mul, Nat.reduceMul])⟩

theorem lcdRun_append (a b : List Nat) (p : Nat × Nat) :
    lcdRun (a ++ b) p = lcdRun b (lcdRun a p) := List.foldl_append _ _ _ _

/-- The pair of `scanline` and `LY` after `n` steps of 32 T-cycles: a line takes 15 steps. -/
theorem lcdRun_replicate_32 (n : Nat) :
    lcdRun (List.replicate n 32) (0, 0) = (32 * (n % 15), n / 15 % 154) := by
  induction n with
  | zero => rfl
  | succ n ih =>
    rw [List.replicate_succ', lcdRun_append, ih]
    simp only [lcdRun, List.foldl_cons, List.foldl_nil, lcdStep, nextLY_mod]
    split_ifs
    · refine Prod.ext ?_ ?_
      · show 0 = 32 * ((n + 1) % 15)
        omega
      · show (n / 15 + 1) % 154 = (n + 1) / 15 % 154
        have : (n + 1) / 15 = n / 15 + 1 := by omega
        rw [this]
    · refine Prod.ext ?_ ?_
      · show 32 * (n % 15) + 32 = 32 * ((n + 1) % 15)
        omega
      · show n / 15 % 154 = (n + 1) / 15 % 154
        have : (n + 1) / 15 = n / 15 := by omega
        rw [this]

/-- C31 (counterexample): with steps of 32 T-cycles `scanline = 0` discards the 24 T-cycles
by which every 15th step overshoots the end of its line. The steps
`32, 32, .., 32, 16` (2194 times 32) are multiples of 4 between 4 and 32 and sum to 70224;
from `LY = 0`, `scanline = 0` with the LCD on, `LY` is 1 after 29 of them, when
`total / 456 mod 154` is 2, and 146 at the end, not 0. -/
theorem gb_update_seq_frame_drifts :
    (∀ c ∈ List.replicate 2194 32 ++ [16], c % 4 = 0 ∧ 4 ≤ c ∧ c ≤ 32) ∧
      (List.replicate 2194 32 ++ [16]).sum = 70224 ∧
      TESTBIT ((setMem zeroMachine 0xff40 0x91).z80_memory 0xff40) 7 ≠ 0 ∧
      (setMem zeroMachine 0xff40 0x91).z80_memory 0xff44 = 0 ∧
      (setMem zeroMachine 0xff40 0x91).scanline = 0 ∧
      (gb_update_seq ((List.replicate 2194 32 ++ [16]).take 29)
        (setMem zeroMachine 0xff40 0x91)).z80_memory 0xff44 = 1 ∧
      ((List.replicate 2194 32 ++ [16]).take 29).sum / 456 % 154 = 2 ∧
      (gb_update_seq (List.replicate 2194 32 ++ [16])
        (setMem zeroMachine 0xff40 0x91)).z80_memory 0xff44 = 146 := by
  have hs : ∀ c ∈ List.replicate 2194 32 ++ [16], c % 4 = 0 ∧ 4 ≤ c ∧ c ≤ 32 := by
    intro c hc
    rw [List.mem_append, List.mem_replicate, List.mem_singleton] at hc
    rcases hc with ⟨_, rfl⟩ | rfl <;> decide
  have hb : ∀ c ∈ List.replicate 2194 32 ++ [16], c < 256 := fun c hc => by
    have := hs c hc
    omega
  have ht : (List.replicate 2194 32 ++ [16]).take 29 = List.replicate 29 32 := rfl
  have hb2 : ∀ c ∈ List.replicate 29 32, c < 256 := fun c hc => by
    rw [List.mem_replicate] at hc
    omega
  have z : (setMem zeroMachine 0xff40 0x91).z80_memory 0xff44 = 0 := by decide
  refine ⟨hs, ?_, by decide, z, by decide, ?_, ?_, ?_⟩
  · rw [List.sum_append, List.sum_replicate]
    rfl
  · rw [ht, (gb_update_seq_lcdRun _ hb2 (setMem zeroMachine 0xff40 0x91) (by decide) 0
      (by decide)).2.2, z, lcdRun_replicate_32]
  · rw [ht]
    simp only [List.sum_replicate, smul_eq_mul]
  · rw [(gb_update_seq_lcdRun _ hb (setMem zeroMachine 0xff40 0x91) (by decide) 0
      (by decide)).2.2, z, lcdRun_append, lcdRun_replicate_32]
    decide

/-! ## The STAT register -/

set_option maxRecDepth 100000 in
theorem stat_bits_1 : ∀ x < 256,
    StatBits x ((x ||| 1) % 256 &&& 253) 1 (TESTBIT ((x ||| 1) % 256 &&& 253) 4)
      (x.testBit 4) := by
  decide

set_option maxRecDepth 100000 in
theorem stat_bits_2 : ∀ x < 256,
    StatBits x ((x ||| 2) % 256 &&& 254) 2 (TESTBIT ((x ||| 2) % 256 &&& 254) 5)
      (x.testBit 5) := by
  decide

set_option maxRecDepth 100000 in
theorem stat_bits_3 : ∀ x < 256, StatBits x ((x ||| 3) % 256) 3 0 false := by
  decide

set_option maxRecDepth 100000 in
theorem stat_bits_0 : ∀ x < 256,
    StatBits x (x &&& 252) 0 (TESTBIT (x &&& 252) 3) (x.testBit 3) := by
  decide

/-- Requesting an interrupt twice is requesting it once. -/
theorem or_mod_or (f i : Nat) : ((f ||| i) % 256 ||| i) % 256 = (f ||| i) % 256 := by
  have h : (256 : Nat) = 2 ^ 8 := rfl
  apply Nat.eq_of_testBit_eq
  intro j
  rw [h, Nat.testBit_mod_two_pow, Nat.testBit_or, Nat.testBit_mod_two_pow, Nat.testBit_or]
  cases decide (j < 8) <;> cases f.testBit j <;> cases i.testBit j <;> rfl

/-- The comparison of `LY` with `LYC`, seen through `STAT` and `IF`. -/
theorem gb_set_lcd_lyc_view (s : Machine) :
    (gb_set_lcd_lyc s).z80_memory 0xff41 =
        (if s.z80_memory 0xff44 = s.z80_memory 0xff45 then (s.z80_memory 0xff41 ||| 4) % 256
          else s.z80_memory 0xff41 &&& 251) ∧
      (gb_set_lcd_lyc s).z80_memory 0xff0f =
        (if s.z80_memory 0xff44 = s.z80_memory 0xff45 ∧
            TESTBIT ((s.z80_memory 0xff41 ||| 4) % 256) 6 ≠ 0 then
          (s.z80_memory 0xff0f ||| intr_lcd) % 256
        else s.z80_memory 0xff0f) := by
  unfold gb_set_lcd_lyc
  by_cases h : s.z80_memory 0xff44 = s.z80_memory 0xff45
  · simp only [h, if_true, true_and, setMem_same]
    by_cases h6 : TESTBIT ((s.z80_memory 0xff41 ||| 4) % 256) 6 ≠ 0
    · rw [if_pos h6, if_pos h6]
      exact ⟨by rw [gb_intr, setMem_other _ _ _ _ (by decide), setMem_same],
        by rw [gb_intr, setMem_same, setMem_other _ _ _ _ (by decide)]⟩
    · rw [if_neg h6, if_neg h6]
      exact ⟨setMem_same _ _ _, setMem_other _ _ _ _ (by decide)⟩
  · simp only [h, if_false, false_and]
    exact ⟨setMem_same _ _ _, setMem_other _ _ _ _ (by decide)⟩

/-- The function `gb_set_lcd` with the LCD on, seen through `STAT` and `IF`, from what
its mode selection produced. -/
theorem gb_set_lcd_view (s s1 : Machine) (mode intr y : Nat)
    (hon : TESTBIT (s.z80_memory 0xff40) 7 ≠ 0) (hr : gb_set_lcd_mode s = (s1, mode, intr))
    (h41 : s1.z80_memory 0xff41 = y)
    (hoth : ∀ a, a ≠ 0xff41 → s1.z80_memory a = s.z80_memory a) :
    (gb_set_lcd s).z80_memory 0xff41 =
        (if s.z80_memory 0xff44 = s.z80_memory 0xff45 then (y ||| 4) % 256 else y &&& 251) ∧
      (gb_set_lcd s).z80_memory 0xff0f =
        (if s.z80_memory 0xff44 = s.z80_memory 0xff45 ∧ TESTBIT ((y ||| 4) % 256) 6 ≠ 0 then
          ((if intr ≠ 0 ∧ s.z80_memory 0xff41 &&& 3 ≠ mode then
              (s.z80_memory 0xff0f ||| intr_lcd) % 256
            else s.z80_memory 0xff0f) ||| intr_lcd) % 256
        else if intr ≠ 0 ∧ s.z80_memory 0xff41 &&& 3 ≠ mode then
          (s.z80_memory 0xff0f ||| intr_lcd) % 256
        else s.z80_memory 0xff0f) := by
  unfold gb_set_lcd
  rw [if_neg hon]
  simp only [hr]
  have v := gb_set_lcd_lyc_view
    (if intr ≠ 0 ∧ s.z80_memory 0xff41 &&& 3 ≠ mode then gb_intr s1 intr_lcd else s1)
  have e41 : (if intr ≠ 0 ∧ s.z80_memory 0xff41 &&& 3 ≠ mode then gb_intr s1 intr_lcd
      else s1).z80_memory 0xff41 = y := by
    split_ifs
    · rw [gb_intr, setMem_other _ _ _ _ (by decide), h41]
    · exact h41
  have e44 : (if intr ≠ 0 ∧ s.z80_memory 0xff41 &&& 3 ≠ mode then gb_intr s1 intr_lcd
      else s1).z80_memory 0xff44 = s.z80_memory 0xff44 := by
    split_ifs
    · rw [gb_intr, setMem_other _ _ _ _ (by decide), hoth _ (by decide)]
    · exact hoth _ (by decide)
  have e45 : (if intr ≠ 0 ∧ s.z80_memory 0xff41 &&& 3 ≠ mode then gb_intr s1 intr_lcd
      else s1).z80_memory 0xff45 = s.z80_memory 0xff45 := by
    split_ifs
    · rw [gb_intr, setMem_other _ _ _ _ (by decide), hoth _ (by decide)]
    · exact hoth _ (by decide)
  have e0f : (if intr ≠ 0 ∧ s.z80_memory 0xff41 &&& 3 ≠ mode then gb_intr s1 intr_lcd
      else s1).z80_memory 0xff0f = (if intr ≠ 0 ∧ s.z80_memory 0xff41 &&& 3 ≠ mode then
        (s.z80_memory 0xff0f ||| intr_lcd) % 256 else s.z80_memory 0xff0f) := by
    split_ifs
    · rw [gb_intr, setMem_same, hoth _ (by decide)]
    · exact hoth _ (by decide)
  rw [e41, e44, e45, e0f] at v
  exact v

/-- The STAT policy from the bytes: what `gb_set_lcd_view` gives, read with `StatBits`. -/
theorem stat_policy_of (x y mode intr f ly lyc : Nat) (en : Bool)
    (hb : StatBits x y mode intr en) (st fl : Nat)
    (v1 : st = if ly = lyc then (y ||| 4) % 256 else y &&& 251)
    (v2 : fl = if ly = lyc ∧ TESTBIT ((y ||| 4) % 256) 6 ≠ 0 then
        ((if intr ≠ 0 ∧ x &&& 3 ≠ mode then (f ||| intr_lcd) % 256 else f) ||| intr_lcd) % 256
      else if intr ≠ 0 ∧ x &&& 3 ≠ mode then (f ||| intr_lcd) % 256 else f) :
    st &&& 3 = mode ∧ (st &&& 4 ≠ 0 ↔ ly = lyc) ∧ st &&& 0xf8 = x &&& 0xf8 ∧
      fl = if ((decide (x &&& 3 ≠ mode) && en) || (decide (ly = lyc) && x.testBit 6)) = true
        then (f ||| 2) % 256 else f := by
  obtain ⟨b1, b2, b3, b4, b5, b6, b7, b8⟩ := hb
  have e2 : intr_lcd = 2 := rfl
  subst v1 v2
  rw [e2]
  by_cases hl : ly = lyc
  · rw [if_pos hl]
    refine ⟨b1, ⟨fun _ => hl, fun _ => by rw [b3]; decide⟩, b5, ?_⟩
    simp only [hl, true_and, b8, b7, ne_eq, decide_True, Bool.true_and, Bool.or_eq_true,
      Bool.and_eq_true, decide_eq_true_eq]
    by_cases h6 : x.testBit 6 = true
    · simp only [h6, if_true, or_true]
      split_ifs
      · exact or_mod_or f 2
      · rfl
    · by_cases e1 : en = true <;> by_cases e3 : x &&& 3 = mode <;> simp [h6, e1, e3]
  · rw [if_neg hl]
    refine ⟨b2, ⟨fun h => absurd b4 h, fun h => absurd h hl⟩, b6, ?_⟩
    simp only [hl, false_and, if_false, b7, ne_eq, decide_False, Bool.false_and,
      Bool.or_false, Bool.and_eq_true, decide_eq_true_eq]
    by_cases e1 : en = true <;> by_cases e3 : x &&& 3 = mode <;> simp [e1, e3]

/-- C32: the STAT policy of `gb_set_lcd` equals its reference definition. For every state
with the LCD on (and a byte in `STAT`), after `gb_set_lcd` the mode bits `STAT[1:0]` are 1
if `LY >= 144`, else 2 if `scanline >= 376`, else 3 if `scanline >= 204`, else 0; bit 2 of
`STAT` is set iff `LY == LYC`; bits 3..7 of `STAT` are unchanged; and `IF` has had the
LCD-STAT bit or-ed in when the mode bits changed and the enable bit of the new mode is set
(bit 4 for mode 1, bit 5 for mode 2, bit 3 for mode 0, none for mode 3), or `LY == LYC` and
bit 6 of `STAT` is set, and is unchanged otherwise. -/
theorem gb_set_lcd_policy (s : Machine) (hon : TESTBIT (s.z80_memory 0xff40) 7 ≠ 0)
    (hb : s.z80_memory 0xff41 < 256) :
    (gb_set_lcd s).z80_memory 0xff41 &&& 3 =
        specStatMode (s.z80_memory 0xff44) s.scanline ∧
      ((gb_set_lcd s).z80_memory 0xff41 &&& 4 ≠ 0 ↔ s.z80_memory 0xff44 = s.z80_memory 0xff45) ∧
      (gb_set_lcd s).z80_memory 0xff41 &&& 0xf8 = s.z80_memory 0xff41 &&& 0xf8 ∧
      (gb_set_lcd s).z80_memory 0xff0f =
        if specStatRequest (s.z80_memory 0xff41) (s.z80_memory 0xff44) (s.z80_memory 0xff45)
            s.scanline = true then (s.z80_memory 0xff0f ||| 2) % 256
        else s.z80_memory 0xff0f := by
  have hset : ∀ (v w a : Nat), a ≠ 0xff41 →
      (setMem (setMem s 0xff41 v) 0xff41 w).z80_memory a = s.z80_memory a := fun v w a ha => by
    rw [setMem_other _ _ _ _ ha, setMem_other _ _ _ _ ha]
  unfold specStatRequest
  by_cases h1 : s.z80_memory 0xff44 ≥ 144
  · have hm : specStatMode (s.z80_memory 0xff44) s.scanline = 1 := by
      rw [specStatMode, if_pos h1]
    have hr : gb_set_lcd_mode s =
        (setMem (setMem s 0xff41 ((s.z80_memory 0xff41 ||| 1) % 256)) 0xff41
          ((s.z80_memory 0xff41 ||| 1) % 256 &&& 253), 1,
          TESTBIT ((s.z80_memory 0xff41 ||| 1) % 256 &&& 253) 4) := by
      unfold gb_set_lcd_mode
      rw [if_pos h1]
      simp only [setMem_same]
    obtain ⟨v1, v2⟩ := gb_set_lcd_view s _ _ _ _ hon hr (setMem_same _ _ _) (hset _ _)
    rw [hm]
    exact stat_policy_of _ _ _ _ _ _ _ _ (stat_bits_1 _ hb) _ _ v1 v2
  · by_cases h2 : s.scanline ≥ 456 - 80
    · have hm : specStatMode (s.z80_memory 0xff44) s.scanline = 2 := by
        have h2b : s.scanline ≥ 376 := by omega
        rw [specStatMode, if_neg h1, if_pos h2b]
      have hr : gb_set_lcd_mode s =
          (setMem (setMem s 0xff41 ((s.z80_memory 0xff41 ||| 2) % 256)) 0xff41
            ((s.z80_memory 0xff41 ||| 2) % 256 &&& 254), 2,
            TESTBIT ((s.z80_memory 0xff41 ||| 2) % 256 &&& 254) 5) := by
        unfold gb_set_lcd_mode
        rw [if_neg h1, if_pos h2]
        simp only [setMem_same]
      obtain ⟨v1, v2⟩ := gb_set_lcd_view s _ _ _ _ hon hr (setMem_same _ _ _) (hset _ _)
      rw [hm]
      exact stat_policy_of _ _ _ _ _ _ _ _ (stat_bits_2 _ hb) _ _ v1 v2
    · by_cases h3 : s.scanline ≥ 456 - 80 - 172
      · have hm : specStatMode (s.z80_memory 0xff44) s.scanline = 3 := by
          have h2b : ¬ s.scanline ≥ 376 := by omega
          have h3b : s.scanline ≥ 204 := by omega
          rw [specStatMode, if_neg h1, if_neg h2b, if_pos h3b]
        have hr : gb_set_lcd_mode s =
            (setMem s 0xff41 ((s.z80_memory 0xff41 ||| 3) % 256), 3, 0) := by
          unfold gb_set_lcd_mode
          rw [if_neg h1, if_neg h2, if_pos h3]
        obtain ⟨v1, v2⟩ := gb_set_lcd_view s _ _ _ _ hon hr (setMem_same _ _ _)
          (fun a ha => setMem_other _ _ _ _ ha)
        rw [hm]
        exact stat_policy_of _ _ _ _ _ _ _ _ (stat_bits_3 _ hb) _ _ v1 v2
      · have hm : specStatMode (s.z80_memory 0xff44) s.scanline = 0 := by
          have h2b : ¬ s.scanline ≥ 376 := by omega
          have h3b : ¬ s.scanline ≥ 204 := by omega
          rw [specStatMode, if_neg h1, if_neg h2b, if_neg h3b]
        have hr : gb_set_lcd_mode s =
            (setMem s 0xff41 (s.z80_memory 0xff41 &&& 252), 0,
              TESTBIT (s.z80_memory 0xff41 &&& 252) 3) := by
          unfold gb_set_lcd_mode
          rw [if_neg h1, if_neg h2, if_neg h3]
          simp only [setMem_same]
        obtain ⟨v1, v2⟩ := gb_set_lcd_view s _ _ _ _ hon hr (setMem_same _ _ _)
          (fun a ha => setMem_other _ _ _ _ ha)
        rw [hm]
        exact stat_policy_of _ _ _ _ _ _ _ _ (stat_bits_0 _ hb) _ _ v1 v2

theorem gb_set_lcd_policy_witness :
    TESTBIT ((setMem (setMem zeroMachine 0xff40 0x91) 0xff41 0x48).z80_memory 0xff40) 7 ≠ 0 ∧
      (setMem (setMem zeroMachine 0xff40 0x91) 0xff41 0x48).z80_memory 0xff41 < 256 ∧
      ((gb_set_lcd (setMem (setMem zeroMachine 0xff40 0x91) 0xff41 0x48)).z80_memory 0xff41
            &&& 3 =
          specStatMode ((setMem (setMem zeroMachine 0xff40 0x91) 0xff41 0x48).z80_memory 0xff44)
            (setMem (setMem zeroMachine 0xff40 0x91) 0xff41 0x48).scanline ∧
        ((gb_set_lcd (setMem (setMem zeroMachine 0xff40 0x91) 0xff41 0x48)).z80_memory 0xff41
            &&& 4 ≠ 0 ↔
          (setMem (setMem zeroMachine 0xff40 0x91) 0xff41 0x48).z80_memory 0xff44 =
            (setMem (setMem zeroMachine 0xff40 0x91) 0xff41 0x48).z80_memory 0xff45) ∧
        (gb_set_lcd (setMem (setMem zeroMachine 0xff40 0x91) 0xff41 0x48)).z80_memory 0xff41
            &&& 0xf8 =
          (setMem (setMem zeroMachine 0xff40 0x91) 0xff41 0x48).z80_memory 0xff41 &&& 0xf8 ∧
        (gb_set_lcd (setMem (setMem zeroMachine 0xff40 0x91) 0xff41 0x48)).z80_memory 0xff0f =
          if specStatRequest
              ((setMem (setMem zeroMachine 0xff40 0x91) 0xff41 0x48).z80_memory 0xff41)
              ((setMem (setMem zeroMachine 0xff40 0x91) 0xff41 0x48).z80_memory 0xff44)
              ((setMem (setMem zeroMachine 0xff40 0x91) 0xff41 0x48).z80_memory 0xff45)
              (setMem (setMem zeroMachine 0xff40 0x91) 0xff41 0x48).scanline = true then
            ((setMem (setMem zeroMachine 0xff40 0x91) 0xff41 0x48).z80_memory 0xff0f ||| 2) % 256
          else (setMem (setMem zeroMachine 0xff40 0x91) 0xff41 0x48).z80_memory 0xff0f) :=
  ⟨by decide, by decide,
    gb_set_lcd_policy (setMem (setMem zeroMachine 0xff40 0x91) 0xff41 0x48) (by decide)
      (by decide)⟩

end Orchard
